import Mathlib

/-!
# SDIO block device adapter: embedding and verified properties

A shallow embedding of `SDIOBlockDevice.cpp` (the block device adapter over the
`sdio_*` driver primitives of `sdio_api.h`).  The adapter object is a record, the
hardware behind the driver is an abstract state `σ` that every primitive transforms,
and every primitive the adapter invokes is appended to a call log.
-/

namespace SdioDriver

/-! ## Constants of `SDIOBlockDevice.cpp` and `sdio_api.h` -/

def SDIO_BLOCK_DEVICE_ERROR_WOULD_BLOCK : Int := -5001
def SDIO_BLOCK_DEVICE_ERROR_UNSUPPORTED : Int := -5002
def SDIO_BLOCK_DEVICE_ERROR_PARAMETER : Int := -5003
def SDIO_BLOCK_DEVICE_ERROR_NO_INIT : Int := -5004
def SDIO_BLOCK_DEVICE_ERROR_NO_DEVICE : Int := -5005
def SDIO_BLOCK_DEVICE_ERROR_UNSUPPORTED_BLOCKSIZE : Int := -5012
def SDIO_BLOCK_DEVICE_ERROR_READ_BLOCKS : Int := -5013
def SDIO_BLOCK_DEVICE_ERROR_WRITE_BLOCKS : Int := -5014
def SDIO_BLOCK_DEVICE_ERROR_ERASE_BLOCKS : Int := -5015

def BLOCK_SIZE_HC : Nat := 512

def MSD_OK : Int := 0
def MSD_ERROR : Int := 1
def SD_TRANSFER_OK : Int := 0
def SD_TRANSFER_BUSY : Int := 1

/-- Modelled from the spec: the `Ok` status of the block device base class (the
enumeration `bd_error` is declared outside `src/`); success is status 0. -/
def BD_ERROR_OK : Int := 0

/-- Modelled from the spec: the `DeviceError` status of the block device base class
(the enumeration `bd_error` is declared outside `src/`). -/
def BD_ERROR_DEVICE_ERROR : Int := -4001

/-- Truncation to a `uint32_t`. -/
def u32 (n : Nat) : Nat := n % 2 ^ 32

/-- Truncation to a 64-bit `bd_addr_t` / `bd_size_t`. -/
def u64 (n : Nat) : Nat := n % 2 ^ 64

/-- One byte of a transfer buffer. -/
abbrev uint8_t := Fin 256

/-- The card information record `sdio_card_info_t` of `sdio_api.h`. -/
structure sdio_card_info_t where
  card_type : Nat
  card_version : Nat
  card_class : Nat
  rel_card_addr : Nat
  block_count : Nat
  block_size : Nat
  log_block_count : Nat
  log_block_size : Nat
  deriving DecidableEq, Repr

/-- Every field of `sdio_card_info_t` is a `uint32_t`. -/
def sdio_card_info_t.wrap (i : sdio_card_info_t) : sdio_card_info_t :=
  { card_type := u32 i.card_type
    card_version := u32 i.card_version
    card_class := u32 i.card_class
    rel_card_addr := u32 i.rel_card_addr
    block_count := u32 i.block_count
    block_size := u32 i.block_size
    log_block_count := u32 i.log_block_count
    log_block_size := u32 i.log_block_size }

/-- The zero-initialised card information of a freshly constructed adapter. -/
def sdio_card_info_t.zero : sdio_card_info_t :=
  ⟨0, 0, 0, 0, 0, 0, 0, 0⟩

/-! ## The driver collaborator -/

/-- A driver primitive invoked by the adapter, with its block arguments. -/
inductive Call where
  | sdio_init
  | sdio_deinit
  | sdio_get_card_info
  | sdio_read_blocks (address block_count : Nat)
  | sdio_write_blocks (address block_count : Nat)
  | sdio_read_blocks_async (address block_count : Nat)
  | sdio_write_blocks_async (address block_count : Nat)
  | sdio_read_pending
  | sdio_write_pending
  | sdio_erase (start_address end_address : Nat)
  | sdio_get_card_state
  deriving DecidableEq, Repr

/-- The per-target driver behind `sdio_api.h`, together with the microsecond ticker
`us_ticker_read` and the card-detect input, as transformers of a hardware state `σ`.
Nothing is assumed about what they return.  The bytes a read transfer deposits in the
caller's buffer are returned by the primitive that starts the transfer. -/
structure Driver (σ : Type) where
  sdio_init : σ → Int × σ
  sdio_deinit : σ → Int × σ
  sdio_get_card_info : σ → sdio_card_info_t × σ
  sdio_read_blocks : List uint8_t → Nat → Nat → σ → (Int × List uint8_t) × σ
  sdio_write_blocks : List uint8_t → Nat → Nat → σ → Int × σ
  sdio_read_blocks_async : List uint8_t → Nat → Nat → σ → (Int × List uint8_t) × σ
  sdio_write_blocks_async : List uint8_t → Nat → Nat → σ → Int × σ
  sdio_read_pending : σ → Int × σ
  sdio_write_pending : σ → Int × σ
  sdio_erase : Nat → Nat → σ → Int × σ
  sdio_get_card_state : σ → Int × σ
  us_ticker_read : σ → Nat × σ
  card_detect_read : σ → Int × σ

/-- The hardware state and the log of driver primitives invoked so far. -/
structure World (σ : Type) where
  hw : σ
  calls : List Call

/-- Build-time configuration: the `DEVICE_SDIO_ASYNC` switch and the value of the
macro `MBED_CONF_SDIO_CMD_TIMEOUT` (both defined outside `src/`). -/
structure Config where
  DEVICE_SDIO_ASYNC : Bool
  MBED_CONF_SDIO_CMD_TIMEOUT : Nat
  deriving DecidableEq, Repr

/-- Invoke a status-returning primitive and log it. -/
def invoke {σ : Type} (c : Call) (f : σ → Int × σ) (w : World σ) : Int × World σ :=
  ((f w.hw).1, ⟨(f w.hw).2, w.calls ++ [c]⟩)

/-- Invoke `sdio_get_card_info` and log it. -/
def get_card_info {σ : Type} (d : Driver σ) (w : World σ) : sdio_card_info_t × World σ :=
  ((d.sdio_get_card_info w.hw).1.wrap,
    ⟨(d.sdio_get_card_info w.hw).2, w.calls ++ [Call.sdio_get_card_info]⟩)

/-- Invoke a block-read primitive (synchronous or asynchronous) and log it. -/
def invoke_read {σ : Type} (c : Call) (f : σ → (Int × List uint8_t) × σ) (w : World σ) :
    (Int × List uint8_t) × World σ :=
  ((f w.hw).1, ⟨(f w.hw).2, w.calls ++ [c]⟩)

/-- Read the 32-bit ticker; this is not a driver primitive and is not logged. -/
def us_ticker_read {σ : Type} (d : Driver σ) (w : World σ) : Nat × World σ :=
  (u32 (d.us_ticker_read w.hw).1, ⟨(d.us_ticker_read w.hw).2, w.calls⟩)

/-- The loop
`while (poll() != SD_TRANSFER_OK) { if ((us_ticker_read() - tickstart) >= timeout) return error; }`
shared by `read`, `program` and `trim`.  `some (true, _)` : the poll returned
`SD_TRANSFER_OK`; `some (false, _)` : the timeout test fired; `none` : the loop is
still running after `fuel` polls. -/
def wait_until {σ : Type} (d : Driver σ) (poll : World σ → Int × World σ)
    (timeout tickstart : Nat) : Nat → World σ → Option (Bool × World σ)
  | 0, _ => none
  | fuel + 1, w =>
    if (poll w).1 != SD_TRANSFER_OK then
      if u32 ((us_ticker_read d (poll w).2).1 + 2 ^ 32 - tickstart) ≥ timeout then
        some (false, (us_ticker_read d (poll w).2).2)
      else
        wait_until d poll timeout tickstart fuel (us_ticker_read d (poll w).2).2
    else
      some (true, (poll w).2)

/-- One wait phase: `uint32_t tickstart = us_ticker_read();` followed by the loop, with
the configured command timeout. -/
def wait_phase {σ : Type} (d : Driver σ) (cfg : Config) (poll : World σ → Int × World σ)
    (fuel : Nat) (w : World σ) : Option (Bool × World σ) :=
  wait_until d poll cfg.MBED_CONF_SDIO_CMD_TIMEOUT (us_ticker_read d w).1 fuel
    (us_ticker_read d w).2

/-- The world in which iteration `k` of the wait loop starts, when no earlier iteration
has left the loop: every iteration polls once and reads the ticker once. -/
def iteration {σ : Type} (d : Driver σ) (poll : World σ → Int × World σ) :
    Nat → World σ → World σ
  | 0, w => w
  | k + 1, w => iteration d poll k (us_ticker_read d (poll w).2).2

/-- The value returned by the poll of iteration `k`. -/
def status_at {σ : Type} (d : Driver σ) (poll : World σ → Int × World σ) (k : Nat)
    (w : World σ) : Int :=
  (poll (iteration d poll k w)).1

/-- The value `us_ticker_read() - tickstart` computed in iteration `k`, in ticker units
(microseconds), as a 32-bit difference. -/
def elapsed_at {σ : Type} (d : Driver σ) (poll : World σ → Int × World σ) (tickstart k : Nat)
    (w : World σ) : Nat :=
  u32 ((us_ticker_read d (poll (iteration d poll k w)).2).1 + 2 ^ 32 - tickstart)

/-- The poll `sdio_get_card_state()`. -/
def poll_card_state {σ : Type} (d : Driver σ) (w : World σ) : Int × World σ :=
  invoke Call.sdio_get_card_state d.sdio_get_card_state w

/-- The poll `sdio_read_pending()`. -/
def poll_read_pending {σ : Type} (d : Driver σ) (w : World σ) : Int × World σ :=
  invoke Call.sdio_read_pending d.sdio_read_pending w

/-- The poll `sdio_write_pending()`. -/
def poll_write_pending {σ : Type} (d : Driver σ) (w : World σ) : Int × World σ :=
  invoke Call.sdio_write_pending d.sdio_write_pending w

/-! ## The adapter object -/

/-- An operation performed on the adapter lock `_mutex`. -/
inductive MutexEvent where
  | lock
  | unlock
  deriving DecidableEq, Repr

/-- Modelled from the spec: the member declarations of `SDIOBlockDevice` are in
`SDIOBlockDevice.h`, outside `src/`; the reference count is a non-negative integer and
sizes are 64-bit.  `_card_detect` is the card-detect pin (`none` is `NC`, not
connected); `_mutex` is the number of times the adapter lock is held, and `_mutex_log`
records, in order, every `lock` and `unlock` performed on it since construction. -/
structure SDIOBlockDevice where
  _card_detect : Option Nat
  _is_initialized : Bool
  _sectors : Nat
  _init_ref_count : Nat
  _block_size : Nat
  _erase_size : Nat
  _card_info : sdio_card_info_t
  _mutex : Nat
  _mutex_log : List MutexEvent
  deriving DecidableEq, Repr

/-- Result of an operation that returns a status. -/
structure Ret (σ : Type) where
  status : Int
  self : SDIOBlockDevice
  world : World σ

/-- Result of `read`: the status and the contents of the caller's buffer. -/
structure ReadRet (σ : Type) where
  status : Int
  buffer : List uint8_t
  self : SDIOBlockDevice
  world : World σ

namespace SDIOBlockDevice

/-- The constructor `SDIOBlockDevice::SDIOBlockDevice(PinName card_detect)`. -/
def construct (card_detect : Option Nat) : SDIOBlockDevice :=
  { _card_detect := card_detect
    _is_initialized := false
    _sectors := 0
    _init_ref_count := 0
    _block_size := BLOCK_SIZE_HC
    _erase_size := BLOCK_SIZE_HC
    _card_info := sdio_card_info_t.zero
    _mutex := 0
    _mutex_log := [] }

/-- Acquire the adapter lock: `_mutex.lock()`. -/
def lock (self : SDIOBlockDevice) : SDIOBlockDevice :=
  { self with _mutex := self._mutex + 1, _mutex_log := self._mutex_log ++ [MutexEvent.lock] }

/-- Release the adapter lock: `_mutex.unlock()`. -/
def unlock (self : SDIOBlockDevice) : SDIOBlockDevice :=
  { self with _mutex := self._mutex - 1, _mutex_log := self._mutex_log ++ [MutexEvent.unlock] }

/-- Method `SDIOBlockDevice::is_present`. -/
def is_present {σ : Type} (d : Driver σ) (self : SDIOBlockDevice) (w : World σ) :
    Bool × World σ :=
  if self._card_detect.isSome then
    (decide ((d.card_detect_read w.hw).1 = 0), ⟨(d.card_detect_read w.hw).2, w.calls⟩)
  else
    (true, w)

/-- Method `SDIOBlockDevice::get_read_size`. -/
def get_read_size (self : SDIOBlockDevice) : Nat := self._block_size

/-- Method `SDIOBlockDevice::get_program_size`. -/
def get_program_size (self : SDIOBlockDevice) : Nat := self._block_size

/-- Method `SDIOBlockDevice::size`, a 64-bit product. -/
def size (self : SDIOBlockDevice) : Nat := u64 (self._block_size * self._sectors)

/-- Method `SDIOBlockDevice::_is_valid_trim`; `addr + size` is a 64-bit sum. -/
def _is_valid_trim (self : SDIOBlockDevice) (addr size : Nat) : Bool :=
  addr % self._erase_size == 0 &&
  size % self._erase_size == 0 &&
  decide (u64 (addr + size) ≤ self.size)

/-- Modelled from the spec: `is_valid_read` is inherited from the block device base
class, declared outside `src/`; the request must be aligned to the read size and must
not exceed the device size, tested as `_is_valid_trim` tests it. -/
def is_valid_read (self : SDIOBlockDevice) (addr size : Nat) : Bool :=
  addr % self.get_read_size == 0 &&
  size % self.get_read_size == 0 &&
  decide (u64 (addr + size) ≤ self.size)

/-- Modelled from the spec: `is_valid_program` is inherited from the block device base
class, declared outside `src/`; the request must be aligned to the program size and
must not exceed the device size, tested as `_is_valid_trim` tests it. -/
def is_valid_program (self : SDIOBlockDevice) (addr size : Nat) : Bool :=
  addr % self.get_program_size == 0 &&
  size % self.get_program_size == 0 &&
  decide (u64 (addr + size) ≤ self.size)

/-- Method `SDIOBlockDevice::init`. -/
def init {σ : Type} (d : Driver σ) (self : SDIOBlockDevice) (w : World σ) : Ret σ :=
  let self := self.lock
  let self := if !self._is_initialized then { self with _init_ref_count := 0 } else self
  let self := { self with _init_ref_count := self._init_ref_count + 1 }
  if self._init_ref_count != 1 then
    ⟨BD_ERROR_OK, self.unlock, w⟩
  else if (is_present d self w).1 == false then
    ⟨SDIO_BLOCK_DEVICE_ERROR_NO_DEVICE, self.unlock, (is_present d self w).2⟩
  else
    let st := invoke Call.sdio_init d.sdio_init (is_present d self w).2
    if BD_ERROR_OK != st.1 then
      ⟨BD_ERROR_DEVICE_ERROR, self.unlock, st.2⟩
    else
      let info := get_card_info d st.2
      let self := { self with _card_info := info.1, _is_initialized := true }
      let self := { self with _sectors := self._card_info.log_block_count }
      if BLOCK_SIZE_HC != self._card_info.block_size then
        ⟨SDIO_BLOCK_DEVICE_ERROR_UNSUPPORTED_BLOCKSIZE, self.unlock, info.2⟩
      else
        ⟨st.1, self.unlock, info.2⟩

/-- Method `SDIOBlockDevice::deinit`. -/
def deinit {σ : Type} (d : Driver σ) (self : SDIOBlockDevice) (w : World σ) : Ret σ :=
  let self := self.lock
  if !self._is_initialized then
    ⟨BD_ERROR_OK, { self with _init_ref_count := 0 }.unlock, w⟩
  else
    let self := { self with _init_ref_count := self._init_ref_count - 1 }
    if self._init_ref_count != 0 then
      ⟨BD_ERROR_OK, self.unlock, w⟩
    else
      let st := invoke Call.sdio_deinit d.sdio_deinit w
      let self := { self with _is_initialized := false }
      let self := { self with _sectors := 0 }
      ⟨st.1, self.unlock, st.2⟩

/-- The destructor `SDIOBlockDevice::~SDIOBlockDevice`. -/
def destructor {σ : Type} (d : Driver σ) (self : SDIOBlockDevice) (w : World σ) :
    SDIOBlockDevice × World σ :=
  if self._is_initialized then
    ((deinit d self w).self, (deinit d self w).world)
  else
    (self, w)

/-- Method `SDIOBlockDevice::read`; `none` when a wait loop is still running after `fuel`
polls. -/
def read {σ : Type} (d : Driver σ) (cfg : Config) (fuel : Nat) (self : SDIOBlockDevice)
    (buffer : List uint8_t) (addr size : Nat) (w : World σ) : Option (ReadRet σ) :=
  let self := self.lock
  if (is_present d self w).1 == false then
    some ⟨SDIO_BLOCK_DEVICE_ERROR_NO_DEVICE, buffer, self.unlock, (is_present d self w).2⟩
  else if !self._is_initialized then
    some ⟨SDIO_BLOCK_DEVICE_ERROR_NO_INIT, buffer, self.unlock, (is_present d self w).2⟩
  else if !self.is_valid_read addr size then
    some ⟨SDIO_BLOCK_DEVICE_ERROR_PARAMETER, buffer, self.unlock, (is_present d self w).2⟩
  else
    let block_count := size / self._block_size
    let addr := addr / self._block_size
    if cfg.DEVICE_SDIO_ASYNC then
      match wait_phase d cfg (poll_card_state d) fuel (is_present d self w).2 with
      | none => none
      | some (false, w1) =>
        some ⟨SDIO_BLOCK_DEVICE_ERROR_READ_BLOCKS, buffer, self.unlock, w1⟩
      | some (true, w1) =>
        let r := invoke_read (Call.sdio_read_blocks_async (u32 addr) (u32 block_count))
          (d.sdio_read_blocks_async buffer (u32 addr) (u32 block_count)) w1
        if r.1.1 == MSD_OK then
          match wait_phase d cfg (poll_read_pending d) fuel r.2 with
          | none => none
          | some (false, w2) =>
            some ⟨SDIO_BLOCK_DEVICE_ERROR_READ_BLOCKS, r.1.2, self.unlock, w2⟩
          | some (true, w2) =>
            match wait_phase d cfg (poll_card_state d) fuel w2 with
            | none => none
            | some (false, w3) =>
              some ⟨SDIO_BLOCK_DEVICE_ERROR_READ_BLOCKS, r.1.2, self.unlock, w3⟩
            | some (true, w3) => some ⟨r.1.1, r.1.2, self.unlock, w3⟩
        else
          some ⟨SDIO_BLOCK_DEVICE_ERROR_READ_BLOCKS, r.1.2, self.unlock, r.2⟩
    else
      let r := invoke_read (Call.sdio_read_blocks (u32 addr) (u32 block_count))
        (d.sdio_read_blocks buffer (u32 addr) (u32 block_count)) (is_present d self w).2
      if r.1.1 != MSD_OK then
        some ⟨SDIO_BLOCK_DEVICE_ERROR_READ_BLOCKS, r.1.2, self.unlock, r.2⟩
      else
        some ⟨r.1.1, r.1.2, self.unlock, r.2⟩

/-- Method `SDIOBlockDevice::program`; `none` when a wait loop is still running after `fuel`
polls. -/
def program {σ : Type} (d : Driver σ) (cfg : Config) (fuel : Nat) (self : SDIOBlockDevice)
    (buffer : List uint8_t) (addr size : Nat) (w : World σ) : Option (Ret σ) :=
  let self := self.lock
  if (is_present d self w).1 == false then
    some ⟨SDIO_BLOCK_DEVICE_ERROR_NO_DEVICE, self.unlock, (is_present d self w).2⟩
  else if !self._is_initialized then
    some ⟨SDIO_BLOCK_DEVICE_ERROR_NO_INIT, self.unlock, (is_present d self w).2⟩
  else if !self.is_valid_program addr size then
    some ⟨SDIO_BLOCK_DEVICE_ERROR_PARAMETER, self.unlock, (is_present d self w).2⟩
  else
    let block_count := size / self._block_size
    let addr := addr / self._block_size
    if cfg.DEVICE_SDIO_ASYNC then
      match wait_phase d cfg (poll_card_state d) fuel (is_present d self w).2 with
      | none => none
      | some (false, w1) => some ⟨SDIO_BLOCK_DEVICE_ERROR_WRITE_BLOCKS, self.unlock, w1⟩
      | some (true, w1) =>
        let r := invoke (Call.sdio_write_blocks_async (u32 addr) (u32 block_count))
          (d.sdio_write_blocks_async buffer (u32 addr) (u32 block_count)) w1
        if r.1 == MSD_OK then
          match wait_phase d cfg (poll_write_pending d) fuel r.2 with
          | none => none
          | some (false, w2) => some ⟨SDIO_BLOCK_DEVICE_ERROR_WRITE_BLOCKS, self.unlock, w2⟩
          | some (true, w2) =>
            match wait_phase d cfg (poll_card_state d) fuel w2 with
            | none => none
            | some (false, w3) => some ⟨SDIO_BLOCK_DEVICE_ERROR_WRITE_BLOCKS, self.unlock, w3⟩
            | some (true, w3) => some ⟨r.1, self.unlock, w3⟩
        else
          some ⟨SDIO_BLOCK_DEVICE_ERROR_WRITE_BLOCKS, self.unlock, r.2⟩
    else
      let r := invoke (Call.sdio_write_blocks (u32 addr) (u32 block_count))
        (d.sdio_write_blocks buffer (u32 addr) (u32 block_count)) (is_present d self w).2
      if r.1 != MSD_OK then
        some ⟨SDIO_BLOCK_DEVICE_ERROR_WRITE_BLOCKS, self.unlock, r.2⟩
      else
        some ⟨r.1, self.unlock, r.2⟩

/-- Method `SDIOBlockDevice::trim`; `none` when the wait loop is still running after `fuel`
polls. -/
def trim {σ : Type} (d : Driver σ) (cfg : Config) (fuel : Nat) (self : SDIOBlockDevice)
    (addr size : Nat) (w : World σ) : Option (Ret σ) :=
  let self := self.lock
  if (is_present d self w).1 == false then
    some ⟨SDIO_BLOCK_DEVICE_ERROR_NO_DEVICE, self.unlock, (is_present d self w).2⟩
  else if !self._is_initialized then
    some ⟨SDIO_BLOCK_DEVICE_ERROR_NO_INIT, self.unlock, (is_present d self w).2⟩
  else if !self._is_valid_trim addr size then
    some ⟨SDIO_BLOCK_DEVICE_ERROR_PARAMETER, self.unlock, (is_present d self w).2⟩
  else
    let block_count := size / self._block_size
    let addr := addr / self._block_size
    let r := invoke (Call.sdio_erase (u32 addr) (u32 block_count))
      (d.sdio_erase (u32 addr) (u32 block_count)) (is_present d self w).2
    if r.1 != 0 then
      some ⟨SDIO_BLOCK_DEVICE_ERROR_ERASE_BLOCKS, self.unlock, r.2⟩
    else if cfg.DEVICE_SDIO_ASYNC then
      match wait_phase d cfg (poll_card_state d) fuel r.2 with
      | none => none
      | some (false, w1) => some ⟨SDIO_BLOCK_DEVICE_ERROR_ERASE_BLOCKS, self.unlock, w1⟩
      | some (true, w1) => some ⟨r.1, self.unlock, w1⟩
    else
      some ⟨r.1, self.unlock, r.2⟩

end SDIOBlockDevice

/-! ## The phases of an asynchronous transfer -/

/-- The call `sdio_read_blocks_async(_buffer, addr, block_count)` made by `read` after
address translation. -/
def start_read_async {σ : Type} (d : Driver σ) (s : SDIOBlockDevice) (buffer : List uint8_t)
    (addr size : Nat) (w : World σ) : (Int × List uint8_t) × World σ :=
  invoke_read
    (Call.sdio_read_blocks_async (u32 (addr / s._block_size)) (u32 (size / s._block_size)))
    (d.sdio_read_blocks_async buffer (u32 (addr / s._block_size)) (u32 (size / s._block_size)))
    w

/-- The call `sdio_write_blocks_async(_buffer, addr, block_count)` made by `program` after
address translation. -/
def start_write_async {σ : Type} (d : Driver σ) (s : SDIOBlockDevice) (buffer : List uint8_t)
    (addr size : Nat) (w : World σ) : Int × World σ :=
  invoke
    (Call.sdio_write_blocks_async (u32 (addr / s._block_size)) (u32 (size / s._block_size)))
    (d.sdio_write_blocks_async buffer (u32 (addr / s._block_size)) (u32 (size / s._block_size)))
    w

/-- The call `sdio_erase(addr, block_count)` made by `trim` after address translation. -/
def start_erase {σ : Type} (d : Driver σ) (s : SDIOBlockDevice) (addr size : Nat)
    (w : World σ) : Int × World σ :=
  invoke (Call.sdio_erase (u32 (addr / s._block_size)) (u32 (size / s._block_size)))
    (d.sdio_erase (u32 (addr / s._block_size)) (u32 (size / s._block_size))) w

/-! ## The STM target driver (`sdio_device.c`) -/

/-- Truncation to a `uint8_t`. -/
def u8 (n : Int) : Int := n % 256

/-- A low-level function of the STM target invoked by `sdio_device.c`. -/
inductive StmCall where
  | SD_GetCardState
  | SD_ReadBlocks_DMA (ReadAddr NumOfBlocks : Nat)
  | SD_WriteBlocks_DMA (WriteAddr NumOfBlocks : Nat)
  | SD_DMA_ReadPending
  | SD_DMA_WritePending
  deriving DecidableEq, Repr

/-- The low-level functions of the STM target and the millisecond tick `HAL_GetTick`, as
transformers of a hardware state `σ`; nothing is assumed about what they return.  Their
declarations are in `sdio_device_stm.h`, outside `src/`; like the functions that
`sdio_device.h` declares, they are taken to return a `uint8_t` status. -/
structure StmHal (σ : Type) where
  SD_GetCardState : σ → Int × σ
  SD_ReadBlocks_DMA : Nat → Nat → Nat → σ → Int × σ
  SD_WriteBlocks_DMA : Nat → Nat → Nat → σ → Int × σ
  SD_DMA_ReadPending : σ → Int × σ
  SD_DMA_WritePending : σ → Int × σ
  HAL_GetTick : σ → Nat × σ

/-- The hardware state and the log of low-level functions invoked so far. -/
structure StmWorld (σ : Type) where
  hw : σ
  calls : List StmCall

/-- Invoke a low-level function, which returns a `uint8_t`, and log it. -/
def stm_invoke {σ : Type} (c : StmCall) (f : σ → Int × σ) (w : StmWorld σ) :
    Int × StmWorld σ :=
  (u8 (f w.hw).1, ⟨(f w.hw).2, w.calls ++ [c]⟩)

/-- Read the 32-bit millisecond tick; it is not logged. -/
def HAL_GetTick {σ : Type} (hal : StmHal σ) (w : StmWorld σ) : Nat × StmWorld σ :=
  (u32 (hal.HAL_GetTick w.hw).1, ⟨(hal.HAL_GetTick w.hw).2, w.calls⟩)

/-- The loop
`while (poll() != SD_TRANSFER_OK) { if ((HAL_GetTick() - tickstart) >= Timeout) return MSD_ERROR; }`
of `sdio_device.c`.  `some (true, _)` : the poll returned `SD_TRANSFER_OK`;
`some (false, _)` : the timeout test fired; `none` : the loop is still running after
`fuel` polls. -/
def stm_wait_until {σ : Type} (hal : StmHal σ) (poll : StmWorld σ → Int × StmWorld σ)
    (Timeout tickstart : Nat) : Nat → StmWorld σ → Option (Bool × StmWorld σ)
  | 0, _ => none
  | fuel + 1, w =>
    if (poll w).1 != SD_TRANSFER_OK then
      if u32 ((HAL_GetTick hal (poll w).2).1 + 2 ^ 32 - tickstart) ≥ Timeout then
        some (false, (HAL_GetTick hal (poll w).2).2)
      else
        stm_wait_until hal poll Timeout tickstart fuel (HAL_GetTick hal (poll w).2).2
    else
      some (true, (poll w).2)

/-- One wait of `sdio_device.c`: `uint32_t tickstart = HAL_GetTick();` followed by the
loop. -/
def stm_wait_phase {σ : Type} (hal : StmHal σ) (poll : StmWorld σ → Int × StmWorld σ)
    (Timeout fuel : Nat) (w : StmWorld σ) : Option (Bool × StmWorld σ) :=
  stm_wait_until hal poll Timeout (HAL_GetTick hal w).1 fuel (HAL_GetTick hal w).2

/-- The poll `SD_GetCardState()`. -/
def stm_card_state {σ : Type} (hal : StmHal σ) (w : StmWorld σ) : Int × StmWorld σ :=
  stm_invoke StmCall.SD_GetCardState hal.SD_GetCardState w

/-- The poll `SD_DMA_ReadPending()`. -/
def stm_read_pending {σ : Type} (hal : StmHal σ) (w : StmWorld σ) : Int × StmWorld σ :=
  stm_invoke StmCall.SD_DMA_ReadPending hal.SD_DMA_ReadPending w

/-- The poll `SD_DMA_WritePending()`. -/
def stm_write_pending {σ : Type} (hal : StmHal σ) (w : StmWorld σ) : Int × StmWorld σ :=
  stm_invoke StmCall.SD_DMA_WritePending hal.SD_DMA_WritePending w

/-- The call `SD_ReadBlocks_DMA(pData, ReadAddr, NumOfBlocks)`, whose result is kept in
`int status`. -/
def stm_start_read {σ : Type} (hal : StmHal σ) (pData ReadAddr NumOfBlocks : Nat)
    (w : StmWorld σ) : Int × StmWorld σ :=
  stm_invoke (StmCall.SD_ReadBlocks_DMA (u32 ReadAddr) (u32 NumOfBlocks))
    (hal.SD_ReadBlocks_DMA pData (u32 ReadAddr) (u32 NumOfBlocks)) w

/-- The call `SD_WriteBlocks_DMA(pData, WriteAddr, NumOfBlocks)`, whose result is kept in
`int status`. -/
def stm_start_write {σ : Type} (hal : StmHal σ) (pData WriteAddr NumOfBlocks : Nat)
    (w : StmWorld σ) : Int × StmWorld σ :=
  stm_invoke (StmCall.SD_WriteBlocks_DMA (u32 WriteAddr) (u32 NumOfBlocks))
    (hal.SD_WriteBlocks_DMA pData (u32 WriteAddr) (u32 NumOfBlocks)) w

/-- Function `SDIO_Device_ReadBlocks` of `sdio_device.c`; the result is the `uint8_t`
returned, `none` when a wait loop is still running after `fuel` polls. -/
def SDIO_Device_ReadBlocks {σ : Type} (hal : StmHal σ) (fuel : Nat)
    (pData ReadAddr NumOfBlocks Timeout : Nat) (w : StmWorld σ) : Option (Int × StmWorld σ) :=
  match stm_wait_phase hal (stm_card_state hal) Timeout fuel w with
  | none => none
  | some (false, w1) => some (MSD_ERROR, w1)
  | some (true, w1) =>
    let status := stm_start_read hal pData ReadAddr NumOfBlocks w1
    if status.1 == MSD_OK then
      match stm_wait_phase hal (stm_read_pending hal) Timeout fuel status.2 with
      | none => none
      | some (false, w2) => some (MSD_ERROR, w2)
      | some (true, w2) =>
        match stm_wait_phase hal (stm_card_state hal) Timeout fuel w2 with
        | none => none
        | some (false, w3) => some (MSD_ERROR, w3)
        | some (true, w3) => some (u8 status.1, w3)
    else
      some (u8 status.1, status.2)

/-- Function `SDIO_Device_WriteBlocks` of `sdio_device.c`; the result is the `uint8_t`
returned, `none` when a wait loop is still running after `fuel` polls. -/
def SDIO_Device_WriteBlocks {σ : Type} (hal : StmHal σ) (fuel : Nat)
    (pData WriteAddr NumOfBlocks Timeout : Nat) (w : StmWorld σ) :
    Option (Int × StmWorld σ) :=
  match stm_wait_phase hal (stm_card_state hal) Timeout fuel w with
  | none => none
  | some (false, w1) => some (MSD_ERROR, w1)
  | some (true, w1) =>
    let status := stm_start_write hal pData WriteAddr NumOfBlocks w1
    if status.1 == MSD_OK then
      match stm_wait_phase hal (stm_write_pending hal) Timeout fuel status.2 with
      | none => none
      | some (false, w2) => some (MSD_ERROR, w2)
      | some (true, w2) =>
        match stm_wait_phase hal (stm_card_state hal) Timeout fuel w2 with
        | none => none
        | some (false, w3) => some (MSD_ERROR, w3)
        | some (true, w3) => some (u8 status.1, w3)
    else
      some (u8 status.1, status.2)

/-! ## Sequences of calls -/

/-- A call of the adapter's public interface. -/
inductive Op where
  | init
  | deinit
  | read (buffer : List uint8_t) (addr size : Nat)
  | program (buffer : List uint8_t) (addr size : Nat)
  | trim (addr size : Nat)
  deriving DecidableEq, Repr

/-- Forget the buffer of a `read` result. -/
def ReadRet.toRet {σ : Type} (r : ReadRet σ) : Ret σ :=
  ⟨r.status, r.self, r.world⟩

/-- Perform one call. -/
def step {σ : Type} (d : Driver σ) (cfg : Config) (fuel : Nat) :
    Op → SDIOBlockDevice → World σ → Option (Ret σ)
  | Op.init, s, w => some (s.init d w)
  | Op.deinit, s, w => some (s.deinit d w)
  | Op.read b a n, s, w => (s.read d cfg fuel b a n w).map ReadRet.toRet
  | Op.program b a n, s, w => s.program d cfg fuel b a n w
  | Op.trim a n, s, w => s.trim d cfg fuel a n w

/-- Perform a sequence of calls on one hardware world; the result lists, for every
call, the status it returned and the call log as it stood when the call returned. -/
def run {σ : Type} (d : Driver σ) (cfg : Config) (fuel : Nat) :
    List Op → SDIOBlockDevice → World σ →
      Option (List (Int × List Call) × SDIOBlockDevice × World σ)
  | [], s, w => some ([], s, w)
  | op :: ops, s, w =>
    match step d cfg fuel op s w with
    | none => none
    | some r =>
      match run d cfg fuel ops r.self r.world with
      | none => none
      | some t => some ((r.status, r.world.calls) :: t.1, t.2)

/-- The adapter states reachable from construction by public calls, each call made
against an arbitrary hardware world (arbitrary driver outcomes, presence readings and
ticks). -/
inductive Reachable {σ : Type} (d : Driver σ) (cfg : Config) : SDIOBlockDevice → Prop
  | construct (card_detect : Option Nat) : Reachable d cfg (SDIOBlockDevice.construct card_detect)
  | call (fuel : Nat) (op : Op) (s : SDIOBlockDevice) (w : World σ) (r : Ret σ) :
      Reachable d cfg s → step d cfg fuel op s w = some r → Reachable d cfg r.self

/-- The adapter states reached from construction by public calls among which `init`
was never called, or returned `SDIO_BLOCK_DEVICE_ERROR_NO_DEVICE` or
`BD_ERROR_DEVICE_ERROR` every time it was called. -/
inductive NeverInitialized {σ : Type} (d : Driver σ) (cfg : Config) : SDIOBlockDevice → Prop
  | construct (card_detect : Option Nat) :
      NeverInitialized d cfg (SDIOBlockDevice.construct card_detect)
  | call (fuel : Nat) (op : Op) (s : SDIOBlockDevice) (w : World σ) (r : Ret σ) :
      NeverInitialized d cfg s → step d cfg fuel op s w = some r →
      (op = Op.init → r.status = SDIO_BLOCK_DEVICE_ERROR_NO_DEVICE ∨
        r.status = BD_ERROR_DEVICE_ERROR) →
      NeverInitialized d cfg r.self

/-- The facts about the members that every reachable adapter state satisfies: the block
and erase sizes are 512, the sector count fits 32 bits and is 0 while uninitialised, and
the reference count is at least 1 while initialised. -/
def WellFormed (s : SDIOBlockDevice) : Prop :=
  s._block_size = BLOCK_SIZE_HC ∧ s._erase_size = BLOCK_SIZE_HC ∧ s._sectors < 2 ^ 32 ∧
  (s._is_initialized = false → s._sectors = 0) ∧
  (s._is_initialized = true → 1 ≤ s._init_ref_count)

/-! ## Stub drivers used to exercise the adapter -/

/-- Hardware state of the faithful stub: a store from block index to the bytes of the
block, the card-detect level, and a ticker value. -/
structure StubHw where
  store : Nat → List uint8_t
  cd_level : Int
  ticks : Nat
  info : sdio_card_info_t

/-- Store `count` consecutive 512-byte blocks of `data` from block `address` on. -/
def StubHw.write (h : StubHw) (data : List uint8_t) (address : Nat) : Nat → StubHw
  | 0 => h
  | count + 1 =>
    let h1 := h.write data address count
    { h1 with store := fun b =>
        if b = address + count then (data.drop (count * 512)).take 512 else h1.store b }

/-- Load `count` consecutive blocks from block `address` on. -/
def StubHw.load (h : StubHw) (address : Nat) : Nat → List uint8_t
  | 0 => []
  | count + 1 => h.load address count ++ h.store (address + count)

/-- The faithful driver stub: `write_blocks` stores and `read_blocks` loads consecutive
blocks, each primitive returns success, the card is always ready, no transfer is ever
pending, and the ticker advances by one per reading. -/
def stubDriver : Driver StubHw where
  sdio_init := fun h => (0, h)
  sdio_deinit := fun h => (0, h)
  sdio_get_card_info := fun h => (h.info, h)
  sdio_read_blocks := fun buf a n h => ((MSD_OK, h.load a n ++ buf.drop (n * 512)), h)
  sdio_write_blocks := fun buf a n h => (MSD_OK, h.write buf a n)
  sdio_read_blocks_async := fun buf a n h => ((MSD_OK, h.load a n ++ buf.drop (n * 512)), h)
  sdio_write_blocks_async := fun buf a n h => (MSD_OK, h.write buf a n)
  sdio_read_pending := fun h => (SD_TRANSFER_OK, h)
  sdio_write_pending := fun h => (SD_TRANSFER_OK, h)
  sdio_erase := fun _ _ h => (0, h)
  sdio_get_card_state := fun h => (SD_TRANSFER_OK, h)
  us_ticker_read := fun h => (h.ticks, { h with ticks := h.ticks + 1 })
  card_detect_read := fun h => (h.cd_level, h)

/-- Card information of a card with `n` logical blocks of 512 bytes. -/
def cardInfo (n : Nat) : sdio_card_info_t :=
  ⟨4, 2, 0, 1, n, 512, n, 512⟩

/-- An empty stub card reporting `n` logical blocks, with the given card-detect level. -/
def stubHw (n : Nat) (cd_level : Int) : StubHw :=
  ⟨fun _ => [], cd_level, 0, cardInfo n⟩

/-- A hardware world with an empty call log. -/
def World.start {σ : Type} (h : σ) : World σ := ⟨h, []⟩

/-- The adapter after one successful `init` on a stub card of `n` blocks, constructed
without a card-detect pin. -/
def readyDevice (n : Nat) : SDIOBlockDevice :=
  ((SDIOBlockDevice.construct none).init stubDriver (World.start (stubHw n 0))).self

/-- The adapter after one successful `init` on a stub card of `n` blocks, constructed
with a card-detect pin that read 0 (card inserted) during that `init`. -/
def readyDeviceWithPin (n : Nat) : SDIOBlockDevice :=
  ((SDIOBlockDevice.construct (some 3)).init stubDriver (World.start (stubHw n 0))).self

/-- A stub card of 8 logical blocks that reports a block size of 1024 bytes. -/
def largeBlockHw : StubHw :=
  ⟨fun _ => [], 0, 0, ⟨4, 2, 0, 1, 8, 1024, 8, 1024⟩⟩

/-- A stub whose card never becomes ready: `sdio_get_card_state` always answers
`SD_TRANSFER_BUSY`, and the microsecond ticker advances by 1000 (one millisecond) per
reading. -/
def busyDriver : Driver StubHw :=
  { stubDriver with
    sdio_get_card_state := fun h => (SD_TRANSFER_BUSY, h)
    us_ticker_read := fun h => (h.ticks, { h with ticks := h.ticks + 1000 }) }

/-- The adapter after two successful `init` calls on a stub card of `n` blocks: its
reference count is 2. -/
def twiceReadyDevice (n : Nat) : SDIOBlockDevice :=
  ((readyDevice n).init stubDriver (World.start (stubHw n 0))).self

/-- The block count `(end_address - start_address) / g_sd.blockSize`, a 32-bit
subtraction, that `sdio_erase` of the LPC55S69 target computes from its two arguments and
hands to `SD_EraseBlocks` together with `start_address`. -/
def TARGET_NXP_erase_blocks (blockSize start_address end_address : Nat) : Nat :=
  u32 (end_address + 2 ^ 32 - start_address) / blockSize

/-- A stub whose `sdio_init` fails with `MSD_ERROR`. -/
def failingDriver : Driver StubHw :=
  { stubDriver with sdio_init := fun h => (MSD_ERROR, h) }

/-- The synchronous build with the default command timeout. -/
def syncConfig : Config := ⟨false, 30000⟩

/-- The asynchronous build with the default command timeout. -/
def asyncConfig : Config := ⟨true, 30000⟩

/-! # Verified properties -/

open SDIOBlockDevice

/-! ## Lifecycle lemmas -/

theorem is_present_calls {σ : Type} (d : Driver σ) (s : SDIOBlockDevice) (w : World σ) :
    (is_present d s w).2.calls = w.calls := by
  unfold is_present
  split <;> rfl

theorem is_present_congr {σ : Type} (d : Driver σ) (s s' : SDIOBlockDevice) (w : World σ)
    (h : s'._card_detect = s._card_detect) : is_present d s' w = is_present d s w := by
  simp [is_present, h]

theorem init_of_initialized {σ : Type} (d : Driver σ) (s : SDIOBlockDevice) (w : World σ)
    (hi : s._is_initialized = true) (hc : 1 ≤ s._init_ref_count) :
    s.init d w = ⟨BD_ERROR_OK,
      ({ s with _init_ref_count := s._init_ref_count + 1 } : SDIOBlockDevice).lock.unlock, w⟩ := by
  have h1 : s._init_ref_count ≠ 0 := by omega
  simp [init, lock, unlock, hi, h1]

theorem deinit_of_shared {σ : Type} (d : Driver σ) (s : SDIOBlockDevice) (w : World σ)
    (hi : s._is_initialized = true) (hc : 2 ≤ s._init_ref_count) :
    s.deinit d w = ⟨BD_ERROR_OK,
      ({ s with _init_ref_count := s._init_ref_count - 1 } : SDIOBlockDevice).lock.unlock, w⟩ := by
  have h1 : s._init_ref_count - 1 ≠ 0 := by omega
  simp [deinit, lock, unlock, hi, h1]

theorem deinit_of_last {σ : Type} (d : Driver σ) (s : SDIOBlockDevice) (w : World σ)
    (hi : s._is_initialized = true) (hc : s._init_ref_count = 1) :
    s.deinit d w = ⟨(d.sdio_deinit w.hw).1,
      ({ s with _init_ref_count := 0, _is_initialized := false, _sectors := 0 } :
        SDIOBlockDevice).lock.unlock,
      ⟨(d.sdio_deinit w.hw).2, w.calls ++ [Call.sdio_deinit]⟩⟩ := by
  simp [deinit, lock, unlock, hi, hc, invoke]

theorem init_first {σ : Type} (d : Driver σ) (s : SDIOBlockDevice) (w : World σ)
    (hi : s._is_initialized = false)
    (hp : (is_present d s w).1 = true)
    (h0 : (d.sdio_init (is_present d s w).2.hw).1 = 0) :
    (s.init d w).self._is_initialized = true ∧ (s.init d w).self._init_ref_count = 1 ∧
    (s.init d w).world.calls = w.calls ++ [Call.sdio_init, Call.sdio_get_card_info] := by
  have e : ∀ s' : SDIOBlockDevice, s'._card_detect = s._card_detect →
      is_present d s' w = is_present d s w := fun s' h => is_present_congr d s s' w h
  simp only [init, lock, unlock, hi]
  simp [e, hp, h0, BD_ERROR_OK, invoke, get_card_info, is_present_calls]
  split <;> simp [is_present_calls]

theorem run_append {σ : Type} (d : Driver σ) (cfg : Config) (fuel : Nat) (xs ys : List Op) :
    ∀ (s : SDIOBlockDevice) (w : World σ),
      run d cfg fuel (xs ++ ys) s w =
        match run d cfg fuel xs s w with
        | none => none
        | some t =>
          match run d cfg fuel ys t.2.1 t.2.2 with
          | none => none
          | some u => some (t.1 ++ u.1, u.2) := by
  induction xs with
  | nil =>
    intro s w
    simp only [List.nil_append, run]
    cases run d cfg fuel ys s w <;> simp
  | cons x xs ih =>
    intro s w
    rw [List.cons_append]
    simp only [run]
    cases step d cfg fuel x s w with
    | none => rfl
    | some r =>
      simp only []
      rw [ih]
      cases run d cfg fuel xs r.self r.world with
      | none => rfl
      | some t =>
        simp only []
        cases run d cfg fuel ys t.2.1 t.2.2 <;> simp

theorem run_inits {σ : Type} (d : Driver σ) (cfg : Config) (fuel : Nat) :
    ∀ (k : Nat) (s : SDIOBlockDevice) (w : World σ),
      s._is_initialized = true → 1 ≤ s._init_ref_count →
      ∃ s', run d cfg fuel (List.replicate k Op.init) s w =
          some (List.replicate k (BD_ERROR_OK, w.calls), s', w) ∧
        s'._is_initialized = true ∧ s'._init_ref_count = s._init_ref_count + k := by
  intro k
  induction k with
  | zero => intro s w hi _; exact ⟨s, by simp [run], hi, rfl⟩
  | succ k ih =>
    intro s w hi hc
    obtain ⟨s', h, hi', hc'⟩ :=
      ih ({ s with _init_ref_count := s._init_ref_count + 1 } : SDIOBlockDevice).lock.unlock w
        hi (Nat.le_add_left 1 _)
    refine ⟨s', ?_, hi', ?_⟩
    · simp only [List.replicate_succ, run, step, init_of_initialized d s w hi hc, h]
    · rw [hc']
      show s._init_ref_count + 1 + k = s._init_ref_count + (k + 1)
      omega

theorem run_deinits {σ : Type} (d : Driver σ) (cfg : Config) (fuel : Nat) :
    ∀ (k : Nat) (s : SDIOBlockDevice) (w : World σ),
      s._is_initialized = true → k + 1 ≤ s._init_ref_count →
      ∃ s', run d cfg fuel (List.replicate k Op.deinit) s w =
          some (List.replicate k (BD_ERROR_OK, w.calls), s', w) ∧
        s'._is_initialized = true ∧ s'._init_ref_count = s._init_ref_count - k := by
  intro k
  induction k with
  | zero => intro s w hi _; exact ⟨s, by simp [run], hi, rfl⟩
  | succ k ih =>
    intro s w hi hc
    have hc1 : k + 1 ≤ s._init_ref_count - 1 := by omega
    obtain ⟨s', h, hi', hc'⟩ :=
      ih ({ s with _init_ref_count := s._init_ref_count - 1 } : SDIOBlockDevice).lock.unlock w
        hi hc1
    refine ⟨s', ?_, hi', ?_⟩
    · simp only [List.replicate_succ, run, step, deinit_of_shared d s w hi (by omega), h]
    · rw [hc']
      show s._init_ref_count - 1 - k = s._init_ref_count - (k + 1)
      omega

/-- C1: from a freshly constructed adapter with the card present and `sdio_init`
returning 0, `N ≥ 1` calls of `init` followed by `N` calls of `deinit` leave the call log
at `sdio_init, sdio_get_card_info` after the first `init`, unchanged (with status
`BD_ERROR_OK`) after each further `init` and each `deinit` but the last, and extended by
the single `sdio_deinit` after the last `deinit`. -/
theorem init_deinit_reference_counted {σ : Type} (d : Driver σ) (cfg : Config) (fuel : Nat)
    (card_detect : Option Nat) (w : World σ) (N : Nat) (hN : 1 ≤ N)
    (hp : (is_present d (construct card_detect) w).1 = true)
    (h0 : (d.sdio_init (is_present d (construct card_detect) w).2.hw).1 = 0) :
    ∃ (first last : Int) (s' : SDIOBlockDevice) (w' : World σ),
      run d cfg fuel (List.replicate N Op.init ++ List.replicate N Op.deinit)
          (construct card_detect) w =
        some ((first, w.calls ++ [Call.sdio_init, Call.sdio_get_card_info]) ::
              (List.replicate (N - 1)
                  (BD_ERROR_OK, w.calls ++ [Call.sdio_init, Call.sdio_get_card_info]) ++
               List.replicate (N - 1)
                  (BD_ERROR_OK, w.calls ++ [Call.sdio_init, Call.sdio_get_card_info]) ++
               [(last, w.calls ++ [Call.sdio_init, Call.sdio_get_card_info,
                  Call.sdio_deinit])]),
              s', w') ∧
      s'._is_initialized = false ∧ s'._init_ref_count = 0 ∧
      w'.calls = w.calls ++ [Call.sdio_init, Call.sdio_get_card_info, Call.sdio_deinit] := by
  obtain ⟨n, rfl⟩ : ∃ n, N = n + 1 := ⟨N - 1, by omega⟩
  obtain ⟨h1, h2, h3⟩ := init_first d (construct card_detect) w rfl hp h0
  generalize hr : (construct card_detect).init d w = r at h1 h2 h3
  have hd : List.replicate (n + 1) Op.deinit = List.replicate n Op.deinit ++ [Op.deinit] := by
    rw [List.replicate_succ']
  obtain ⟨s1, e1, hi1, hc1⟩ := run_inits d cfg fuel n r.self r.world h1 (by omega)
  obtain ⟨s2, e2, hi2, hc2⟩ := run_deinits d cfg fuel n s1 r.world hi1 (by omega)
  have hc2' : s2._init_ref_count = 1 := by omega
  refine ⟨r.status, (d.sdio_deinit r.world.hw).1,
    ({ s2 with _init_ref_count := 0, _is_initialized := false, _sectors := 0 } :
      SDIOBlockDevice).lock.unlock,
    ⟨(d.sdio_deinit r.world.hw).2, r.world.calls ++ [Call.sdio_deinit]⟩, ?_, rfl, rfl, ?_⟩
  · rw [List.replicate_succ, hd, List.cons_append]
    simp only [run, step, hr]
    rw [run_append, e1]
    simp only []
    rw [run_append, e2]
    simp only [run, step]
    rw [deinit_of_last d s2 r.world hi2 hc2']
    simp [h3]
    rw [List.replicate_add, List.append_assoc]
  · simp [h3]

/-- Witness for C1: three `init` calls then three `deinit` calls on the stub driver. -/
theorem init_deinit_reference_counted_witness :
    ∃ (first last : Int) (s' : SDIOBlockDevice) (w' : World StubHw),
      run stubDriver ⟨false, 30000⟩ 0 (List.replicate 3 Op.init ++ List.replicate 3 Op.deinit)
          (construct none) (World.start (stubHw 1000000 0)) =
        some ((first, (World.start (stubHw 1000000 0)).calls ++
                [Call.sdio_init, Call.sdio_get_card_info]) ::
              (List.replicate (3 - 1)
                  (BD_ERROR_OK, (World.start (stubHw 1000000 0)).calls ++
                    [Call.sdio_init, Call.sdio_get_card_info]) ++
               List.replicate (3 - 1)
                  (BD_ERROR_OK, (World.start (stubHw 1000000 0)).calls ++
                    [Call.sdio_init, Call.sdio_get_card_info]) ++
               [(last, (World.start (stubHw 1000000 0)).calls ++
                  [Call.sdio_init, Call.sdio_get_card_info, Call.sdio_deinit])]),
              s', w') ∧
      s'._is_initialized = false ∧ s'._init_ref_count = 0 ∧
      w'.calls = (World.start (stubHw 1000000 0)).calls ++
        [Call.sdio_init, Call.sdio_get_card_info, Call.sdio_deinit] :=
  init_deinit_reference_counted stubDriver ⟨false, 30000⟩ 0 none
    (World.start (stubHw 1000000 0)) 3 (by decide) rfl rfl

theorem unlock_lock (s : SDIOBlockDevice) :
    s.lock.unlock =
      { s with _mutex_log := s._mutex_log ++ [MutexEvent.lock, MutexEvent.unlock] } := by
  cases s; simp [lock, unlock]

theorem read_self {σ : Type} (d : Driver σ) (cfg : Config) (fuel : Nat) (s : SDIOBlockDevice)
    (buffer : List uint8_t) (addr size : Nat) (w : World σ) (r : ReadRet σ)
    (h : s.read d cfg fuel buffer addr size w = some r) : r.self = s.lock.unlock := by
  unfold SDIOBlockDevice.read at h
  simp only [] at h
  repeat' split at h
  all_goals first
    | contradiction
    | (simp only [Option.some.injEq] at h; subst h; rfl)

theorem program_self {σ : Type} (d : Driver σ) (cfg : Config) (fuel : Nat) (s : SDIOBlockDevice)
    (buffer : List uint8_t) (addr size : Nat) (w : World σ) (r : Ret σ)
    (h : s.program d cfg fuel buffer addr size w = some r) : r.self = s.lock.unlock := by
  unfold program at h
  simp only [] at h
  repeat' split at h
  all_goals first
    | contradiction
    | (simp only [Option.some.injEq] at h; subst h; rfl)

theorem trim_self {σ : Type} (d : Driver σ) (cfg : Config) (fuel : Nat) (s : SDIOBlockDevice)
    (addr size : Nat) (w : World σ) (r : Ret σ)
    (h : s.trim d cfg fuel addr size w = some r) : r.self = s.lock.unlock := by
  unfold trim at h
  simp only [] at h
  repeat' split at h
  all_goals first
    | contradiction
    | (simp only [Option.some.injEq] at h; subst h; rfl)
theorem is_present_lock {σ : Type} (d : Driver σ) (s : SDIOBlockDevice) (w : World σ) :
    is_present d s.lock w = is_present d s w :=
  is_present_congr d s s.lock w rfl

theorem lock_is_initialized (s : SDIOBlockDevice) : s.lock._is_initialized = s._is_initialized :=
  rfl

theorem read_of_absent {σ : Type} (d : Driver σ) (cfg : Config) (fuel : Nat)
    (s : SDIOBlockDevice) (buffer : List uint8_t) (addr size : Nat) (w : World σ)
    (hp : (is_present d s w).1 = false) :
    s.read d cfg fuel buffer addr size w =
      some ⟨SDIO_BLOCK_DEVICE_ERROR_NO_DEVICE, buffer, s.lock.unlock, (is_present d s w).2⟩ := by
  simp [SDIOBlockDevice.read, is_present_lock, hp]

theorem program_of_absent {σ : Type} (d : Driver σ) (cfg : Config) (fuel : Nat)
    (s : SDIOBlockDevice) (buffer : List uint8_t) (addr size : Nat) (w : World σ)
    (hp : (is_present d s w).1 = false) :
    s.program d cfg fuel buffer addr size w =
      some ⟨SDIO_BLOCK_DEVICE_ERROR_NO_DEVICE, s.lock.unlock, (is_present d s w).2⟩ := by
  simp [program, is_present_lock, hp]

theorem trim_of_absent {σ : Type} (d : Driver σ) (cfg : Config) (fuel : Nat)
    (s : SDIOBlockDevice) (addr size : Nat) (w : World σ)
    (hp : (is_present d s w).1 = false) :
    s.trim d cfg fuel addr size w =
      some ⟨SDIO_BLOCK_DEVICE_ERROR_NO_DEVICE, s.lock.unlock, (is_present d s w).2⟩ := by
  simp [trim, is_present_lock, hp]

theorem read_of_uninitialized {σ : Type} (d : Driver σ) (cfg : Config) (fuel : Nat)
    (s : SDIOBlockDevice) (buffer : List uint8_t) (addr size : Nat) (w : World σ)
    (hp : (is_present d s w).1 = true) (hi : s._is_initialized = false) :
    s.read d cfg fuel buffer addr size w =
      some ⟨SDIO_BLOCK_DEVICE_ERROR_NO_INIT, buffer, s.lock.unlock, (is_present d s w).2⟩ := by
  simp [SDIOBlockDevice.read, is_present_lock, hp, hi, lock_is_initialized]

theorem program_of_uninitialized {σ : Type} (d : Driver σ) (cfg : Config) (fuel : Nat)
    (s : SDIOBlockDevice) (buffer : List uint8_t) (addr size : Nat) (w : World σ)
    (hp : (is_present d s w).1 = true) (hi : s._is_initialized = false) :
    s.program d cfg fuel buffer addr size w =
      some ⟨SDIO_BLOCK_DEVICE_ERROR_NO_INIT, s.lock.unlock, (is_present d s w).2⟩ := by
  simp [program, is_present_lock, hp, hi, lock_is_initialized]

theorem trim_of_uninitialized {σ : Type} (d : Driver σ) (cfg : Config) (fuel : Nat)
    (s : SDIOBlockDevice) (addr size : Nat) (w : World σ)
    (hp : (is_present d s w).1 = true) (hi : s._is_initialized = false) :
    s.trim d cfg fuel addr size w =
      some ⟨SDIO_BLOCK_DEVICE_ERROR_NO_INIT, s.lock.unlock, (is_present d s w).2⟩ := by
  simp [trim, is_present_lock, hp, hi, lock_is_initialized]

theorem lock_is_valid_read (s : SDIOBlockDevice) (addr size : Nat) :
    s.lock.is_valid_read addr size = s.is_valid_read addr size := rfl

theorem lock_is_valid_program (s : SDIOBlockDevice) (addr size : Nat) :
    s.lock.is_valid_program addr size = s.is_valid_program addr size := rfl

theorem lock_is_valid_trim (s : SDIOBlockDevice) (addr size : Nat) :
    s.lock._is_valid_trim addr size = s._is_valid_trim addr size := rfl

theorem read_of_invalid {σ : Type} (d : Driver σ) (cfg : Config) (fuel : Nat)
    (s : SDIOBlockDevice) (buffer : List uint8_t) (addr size : Nat) (w : World σ)
    (hp : (is_present d s w).1 = true) (hi : s._is_initialized = true)
    (hv : s.is_valid_read addr size = false) :
    s.read d cfg fuel buffer addr size w =
      some ⟨SDIO_BLOCK_DEVICE_ERROR_PARAMETER, buffer, s.lock.unlock, (is_present d s w).2⟩ := by
  simp [SDIOBlockDevice.read, is_present_lock, hp, hi, hv, lock_is_initialized,
    lock_is_valid_read]

theorem program_of_invalid {σ : Type} (d : Driver σ) (cfg : Config) (fuel : Nat)
    (s : SDIOBlockDevice) (buffer : List uint8_t) (addr size : Nat) (w : World σ)
    (hp : (is_present d s w).1 = true) (hi : s._is_initialized = true)
    (hv : s.is_valid_program addr size = false) :
    s.program d cfg fuel buffer addr size w =
      some ⟨SDIO_BLOCK_DEVICE_ERROR_PARAMETER, s.lock.unlock, (is_present d s w).2⟩ := by
  simp [program, is_present_lock, hp, hi, hv, lock_is_initialized,
    lock_is_valid_program]

theorem trim_of_invalid {σ : Type} (d : Driver σ) (cfg : Config) (fuel : Nat)
    (s : SDIOBlockDevice) (addr size : Nat) (w : World σ)
    (hp : (is_present d s w).1 = true) (hi : s._is_initialized = true)
    (hv : s._is_valid_trim addr size = false) :
    s.trim d cfg fuel addr size w =
      some ⟨SDIO_BLOCK_DEVICE_ERROR_PARAMETER, s.lock.unlock, (is_present d s w).2⟩ := by
  simp [trim, is_present_lock, hp, hi, hv, lock_is_initialized,
    lock_is_valid_trim]
/-- A request that `_is_valid_trim` (or the inherited read/program test) rejects is
answered `SDIO_BLOCK_DEVICE_ERROR_PARAMETER` with the call log untouched: this covers
every misaligned request and every request whose 64-bit sum `addr + size` exceeds the
device size. -/
theorem rejected_request_makes_no_call {σ : Type} (d : Driver σ) (cfg : Config) (fuel : Nat)
    (s : SDIOBlockDevice) (buffer : List uint8_t) (addr size : Nat) (w : World σ)
    (hp : (is_present d s w).1 = true) (hi : s._is_initialized = true)
    (hbs : s._erase_size = s._block_size)
    (hv : addr % s._block_size ≠ 0 ∨ size % s._block_size ≠ 0 ∨ s.size < u64 (addr + size)) :
    (s.read d cfg fuel buffer addr size w).map (fun r => (r.status, r.world.calls)) =
        some (SDIO_BLOCK_DEVICE_ERROR_PARAMETER, w.calls) ∧
    (s.program d cfg fuel buffer addr size w).map (fun r => (r.status, r.world.calls)) =
        some (SDIO_BLOCK_DEVICE_ERROR_PARAMETER, w.calls) ∧
    (s.trim d cfg fuel addr size w).map (fun r => (r.status, r.world.calls)) =
        some (SDIO_BLOCK_DEVICE_ERROR_PARAMETER, w.calls) := by
  have h1 : s.is_valid_read addr size = false := by
    simp only [is_valid_read, get_read_size, Bool.and_eq_false_iff, beq_eq_false_iff_ne,
      decide_eq_false_iff_not, Nat.not_le, ne_eq]
    tauto
  have h2 : s.is_valid_program addr size = false := h1
  have h3 : s._is_valid_trim addr size = false := by
    simp only [_is_valid_trim, hbs, Bool.and_eq_false_iff, beq_eq_false_iff_ne,
      decide_eq_false_iff_not, Nat.not_le, ne_eq]
    tauto
  rw [read_of_invalid d cfg fuel s buffer addr size w hp hi h1,
    program_of_invalid d cfg fuel s buffer addr size w hp hi h2,
    trim_of_invalid d cfg fuel s addr size w hp hi h3]
  simp [is_present_calls]

/-- C2 (failing input): on the stub card of 1000000 blocks, initialised and present,
`trim(2^64 - 512, 512)` is out of bounds (the true sum `2^64` exceeds `size()`), yet the
64-bit sum wraps to 0, `_is_valid_trim` accepts it, and `sdio_erase` is invoked. -/
theorem trim_wrapped_sum_reaches_driver :
    (readyDevice 1000000)._is_initialized = true ∧
    (readyDevice 1000000).size = 512000000 ∧
    (readyDevice 1000000).size < (2 ^ 64 - 512) + 512 ∧
    ((readyDevice 1000000).trim stubDriver syncConfig 0 (2 ^ 64 - 512) 512
        (World.start (stubHw 1000000 0))).map
      (fun r => (r.status, r.world.calls)) = some (0, [Call.sdio_erase 4294967295 1]) := by
  refine ⟨rfl, rfl, by decide, ?_⟩
  rfl
theorem valid_of_aligned_in_bounds (s : SDIOBlockDevice) (addr size : Nat)
    (ha : addr % s._block_size = 0) (hs : size % s._block_size = 0)
    (hb : addr + size ≤ s.size) : s.is_valid_read addr size = true := by
  have hlt : s.size < 2 ^ 64 := by
    unfold SDIOBlockDevice.size u64
    exact Nat.mod_lt _ (by norm_num)
  have hu : u64 (addr + size) = addr + size := by
    unfold u64
    exact Nat.mod_eq_of_lt (by omega)
  simp [is_valid_read, get_read_size, ha, hs, hu, hb]

/-- C3: on the synchronous path, for an initialised present adapter and an aligned
in-bounds request, `read` (resp. `program`) invokes `sdio_read_blocks` (resp.
`sdio_write_blocks`) exactly once, returns 0 when the primitive returns `MSD_OK` and
`SDIO_BLOCK_DEVICE_ERROR_READ_BLOCKS` (resp. `..._WRITE_BLOCKS`) for any other status. -/
theorem sync_read_program_follow_driver {σ : Type} (d : Driver σ) (cfg : Config) (fuel : Nat)
    (s : SDIOBlockDevice) (buffer : List uint8_t) (addr size : Nat) (w : World σ)
    (hsync : cfg.DEVICE_SDIO_ASYNC = false)
    (hp : (is_present d s w).1 = true) (hi : s._is_initialized = true)
    (ha : addr % s._block_size = 0) (hs : size % s._block_size = 0)
    (hb : addr + size ≤ s.size) :
    (s.read d cfg fuel buffer addr size w).map (fun r => (r.status, r.world.calls)) =
      some
        (if (d.sdio_read_blocks buffer (u32 (addr / s._block_size)) (u32 (size / s._block_size))
              (is_present d s w).2.hw).1.1 = MSD_OK
          then 0 else SDIO_BLOCK_DEVICE_ERROR_READ_BLOCKS,
         w.calls ++
          [Call.sdio_read_blocks (u32 (addr / s._block_size)) (u32 (size / s._block_size))]) ∧
    (s.program d cfg fuel buffer addr size w).map (fun r => (r.status, r.world.calls)) =
      some
        (if (d.sdio_write_blocks buffer (u32 (addr / s._block_size)) (u32 (size / s._block_size))
              (is_present d s w).2.hw).1 = MSD_OK
          then 0 else SDIO_BLOCK_DEVICE_ERROR_WRITE_BLOCKS,
         w.calls ++
          [Call.sdio_write_blocks (u32 (addr / s._block_size)) (u32 (size / s._block_size))]) := by
  have hv := valid_of_aligned_in_bounds s addr size ha hs hb
  have hv2 : s.is_valid_program addr size = true := hv
  constructor
  · simp only [SDIOBlockDevice.read, is_present_lock, hp, hi, hv, lock_is_initialized,
      lock_is_valid_read, hsync, invoke_read]
    by_cases h : (d.sdio_read_blocks buffer (u32 (addr / s._block_size))
        (u32 (size / s._block_size)) (is_present d s w).2.hw).1.1 = MSD_OK
    · simp [h, lock, is_present_calls]
      rfl
    · simp [h, lock, is_present_calls]
  · simp only [program, is_present_lock, hp, hi, hv2, lock_is_initialized,
      lock_is_valid_program, hsync, invoke]
    by_cases h : (d.sdio_write_blocks buffer (u32 (addr / s._block_size))
        (u32 (size / s._block_size)) (is_present d s w).2.hw).1 = MSD_OK
    · simp [h, lock, is_present_calls]
      rfl
    · simp [h, lock, is_present_calls]

/-- Witness for C3: an aligned in-bounds request on the initialised stub card. -/
theorem sync_read_program_follow_driver_witness :
    ((readyDevice 8).read stubDriver syncConfig 0 [] 512 1024 (World.start (stubHw 8 0))).map
      (fun r => (r.status, r.world.calls)) = some (0, [Call.sdio_read_blocks 1 2]) ∧
    ((readyDevice 8).program stubDriver syncConfig 0 [] 512 1024
        (World.start (stubHw 8 0))).map
      (fun r => (r.status, r.world.calls)) = some (0, [Call.sdio_write_blocks 1 2]) :=
  sync_read_program_follow_driver stubDriver syncConfig 0 (readyDevice 8) [] 512 1024
    (World.start (stubHw 8 0)) rfl rfl rfl (by decide) (by decide) (by decide)

/-! ## Invariants of reachable states -/

theorem wellFormed_construct (card_detect : Option Nat) :
    WellFormed (construct card_detect) := by
  simp [WellFormed, construct]

theorem u32_lt (n : Nat) : u32 n < 2 ^ 32 :=
  Nat.mod_lt _ (by norm_num)

theorem wellFormed_init {σ : Type} (d : Driver σ) (s : SDIOBlockDevice) (w : World σ)
    (h : WellFormed s) : WellFormed (s.init d w).self := by
  obtain ⟨h1, h2, h3, h4, h5⟩ := h
  rcases s with ⟨cd, ini, sec, cnt, bs, es, info, mtx, mlog⟩
  simp only at h1 h2 h3 h4 h5
  simp only [init, lock, unlock]
  split_ifs
  all_goals simp only [WellFormed]
  all_goals refine ⟨h1, h2, ?_, ?_, ?_⟩
  all_goals first
    | exact h3
    | exact h4
    | exact u32_lt _
    | (intro hh; simp at hh)
    | (intro _; simp)

theorem wellFormed_deinit {σ : Type} (d : Driver σ) (s : SDIOBlockDevice) (w : World σ)
    (h : WellFormed s) : WellFormed (s.deinit d w).self := by
  obtain ⟨h1, h2, h3, h4, h5⟩ := h
  unfold deinit
  simp only []
  repeat' split
  all_goals
    simp_all [WellFormed, lock, unlock]
  omega

/-- A property of adapter states preserved by `init`, by `deinit` and by acquiring and
releasing the lock is preserved by every public call, since `read`, `program` and `trim`
return the adapter as it is after `lock` and `unlock`. -/
theorem step_preserves {σ : Type} (d : Driver σ) (cfg : Config) (P : SDIOBlockDevice → Prop)
    (hinit : ∀ (s : SDIOBlockDevice) (w : World σ), P s → P (s.init d w).self)
    (hdeinit : ∀ (s : SDIOBlockDevice) (w : World σ), P s → P (s.deinit d w).self)
    (hlock : ∀ (s : SDIOBlockDevice), P s → P s.lock.unlock)
    (fuel : Nat) (op : Op) (s : SDIOBlockDevice) (w : World σ) (r : Ret σ)
    (h : step d cfg fuel op s w = some r) (hs : P s) : P r.self := by
  cases op with
  | init =>
    simp only [step, Option.some.injEq] at h
    rw [← h]; exact hinit s w hs
  | deinit =>
    simp only [step, Option.some.injEq] at h
    rw [← h]; exact hdeinit s w hs
  | read b a n =>
    simp only [step, Option.map_eq_some'] at h
    obtain ⟨rr, hr, rfl⟩ := h
    have e : rr.toRet.self = s.lock.unlock := read_self d cfg fuel s b a n w rr hr
    rw [e]; exact hlock s hs
  | program b a n =>
    rw [program_self d cfg fuel s b a n w r h]; exact hlock s hs
  | trim a n =>
    rw [trim_self d cfg fuel s a n w r h]; exact hlock s hs

theorem wellFormed_of_reachable {σ : Type} (d : Driver σ) (cfg : Config)
    (s : SDIOBlockDevice) (h : Reachable d cfg s) : WellFormed s := by
  induction h with
  | construct cd => exact wellFormed_construct cd
  | call fuel op s w r _ hstep ih =>
    exact step_preserves d cfg WellFormed (wellFormed_init d) (wellFormed_deinit d)
      (fun _ h => h) fuel op s w r hstep ih
/-! ## The faithful stub -/

theorem stub_write_store (h : StubHw) (data : List uint8_t) (a : Nat) :
    ∀ (n j : Nat), j < n →
      (h.write data a n).store (a + j) = (data.drop (j * 512)).take 512 := by
  intro n
  induction n with
  | zero => intro j hj; omega
  | succ n ih =>
    intro j hj
    by_cases e : j = n
    · subst e; simp [StubHw.write]
    · have : a + j ≠ a + n := by omega
      simp only [StubHw.write, this, if_false]
      exact ih j (by omega)

theorem stub_load_congr (h1 h2 : StubHw) (hs : h1.store = h2.store) (a : Nat) :
    ∀ n : Nat, h1.load a n = h2.load a n := by
  intro n
  induction n with
  | zero => rfl
  | succ n ih => simp only [StubHw.load, ih, hs]

theorem stub_load_write (h : StubHw) (data : List uint8_t) (a n : Nat) :
    ∀ k : Nat, k ≤ n → (h.write data a n).load a k = data.take (k * 512) := by
  intro k
  induction k with
  | zero => intro _; simp [StubHw.load]
  | succ k ih =>
    intro hk
    simp only [StubHw.load]
    rw [ih (by omega), stub_write_store h data a n k (by omega), Nat.succ_mul, List.take_add]

theorem stub_wait_card_state (cfg : Config) (fuel : Nat) (w : World StubHw) :
    wait_phase stubDriver cfg (poll_card_state stubDriver) (fuel + 1) w =
      some (true, ⟨{ w.hw with ticks := w.hw.ticks + 1 }, w.calls ++ [Call.sdio_get_card_state]⟩) := by
  simp [wait_phase, wait_until, us_ticker_read, poll_card_state, invoke, stubDriver]

theorem stub_wait_read_pending (cfg : Config) (fuel : Nat) (w : World StubHw) :
    wait_phase stubDriver cfg (poll_read_pending stubDriver) (fuel + 1) w =
      some (true, ⟨{ w.hw with ticks := w.hw.ticks + 1 }, w.calls ++ [Call.sdio_read_pending]⟩) := by
  simp [wait_phase, wait_until, us_ticker_read, poll_read_pending, invoke, stubDriver]

theorem stub_wait_write_pending (cfg : Config) (fuel : Nat) (w : World StubHw) :
    wait_phase stubDriver cfg (poll_write_pending stubDriver) (fuel + 1) w =
      some (true, ⟨{ w.hw with ticks := w.hw.ticks + 1 }, w.calls ++ [Call.sdio_write_pending]⟩) := by
  simp [wait_phase, wait_until, us_ticker_read, poll_write_pending, invoke, stubDriver]

theorem stub_write_store_congr (h1 h2 : StubHw) (hs : h1.store = h2.store)
    (data : List uint8_t) (a : Nat) :
    ∀ n : Nat, (h1.write data a n).store = (h2.write data a n).store := by
  intro n
  induction n with
  | zero => exact hs
  | succ n ih => simp only [StubHw.write, ih]

theorem stub_write_cd_level (h : StubHw) (data : List uint8_t) (a : Nat) :
    ∀ n : Nat, (h.write data a n).cd_level = h.cd_level := by
  intro n
  induction n with
  | zero => rfl
  | succ n ih => simp only [StubHw.write, ih]

theorem stub_is_present_world (s : SDIOBlockDevice) (w : World StubHw) :
    (is_present stubDriver s w).2 = w := by
  unfold is_present
  split <;> rfl

theorem lock_block_size (s : SDIOBlockDevice) : s.lock._block_size = s._block_size := rfl

theorem stub_program (cfg : Config) (fuel : Nat) (s : SDIOBlockDevice)
    (pattern : List uint8_t) (addr size : Nat) (w : World StubHw)
    (hp : (is_present stubDriver s w).1 = true) (hi : s._is_initialized = true)
    (hv : s.is_valid_program addr size = true) :
    (s.program stubDriver cfg (fuel + 1) pattern addr size w).map
        (fun r => (r.status, r.self, r.world.hw.cd_level, r.world.hw.store)) =
      some (0, s.lock.unlock, w.hw.cd_level,
        (w.hw.write pattern (u32 (addr / s._block_size)) (u32 (size / s._block_size))).store) := by
  cases hc : cfg.DEVICE_SDIO_ASYNC with
  | false =>
    simp only [program, is_present_lock, hp, hi, hv, lock_is_initialized,
      lock_is_valid_program, hc, invoke, stub_is_present_world, lock_block_size, unlock_lock]
    simp [stubDriver, MSD_OK, stub_write_cd_level]
  | true =>
    simp only [program, is_present_lock, hp, hi, hv, lock_is_initialized,
      lock_is_valid_program, hc, invoke, stub_is_present_world,
      stub_wait_card_state, stub_wait_write_pending, lock_block_size, unlock_lock]
    simp [stubDriver, MSD_OK, stub_write_cd_level, us_ticker_read]
    apply stub_write_store_congr
    rfl

theorem stub_read (cfg : Config) (fuel : Nat) (s : SDIOBlockDevice)
    (buffer : List uint8_t) (addr size : Nat) (w : World StubHw)
    (hp : (is_present stubDriver s w).1 = true) (hi : s._is_initialized = true)
    (hv : s.is_valid_read addr size = true) :
    (s.read stubDriver cfg (fuel + 1) buffer addr size w).map
        (fun r => (r.status, r.buffer)) =
      some (0, w.hw.load (u32 (addr / s._block_size)) (u32 (size / s._block_size)) ++
        buffer.drop (u32 (size / s._block_size) * 512)) := by
  cases hc : cfg.DEVICE_SDIO_ASYNC with
  | false =>
    simp only [SDIOBlockDevice.read, is_present_lock, hp, hi, hv, lock_is_initialized,
      lock_is_valid_read, hc, invoke_read, stub_is_present_world, lock_block_size, unlock_lock]
    simp [stubDriver, MSD_OK]
  | true =>
    simp only [SDIOBlockDevice.read, is_present_lock, hp, hi, hv, lock_is_initialized,
      lock_is_valid_read, hc, invoke_read, stub_is_present_world,
      stub_wait_card_state, stub_wait_read_pending, lock_block_size, unlock_lock]
    simp [stubDriver, MSD_OK, us_ticker_read]
    apply stub_load_congr
    rfl
theorem stub_present_of_cd_level (s : SDIOBlockDevice) (w w' : World StubHw)
    (h : w'.hw.cd_level = w.hw.cd_level) (hp : (is_present stubDriver s w).1 = true) :
    (is_present stubDriver s w').1 = true := by
  unfold is_present at hp ⊢
  split
  · rename_i hc
    simp only [hc, if_true] at hp
    simpa [stubDriver, h] using hp
  · rfl

/-- C4: round trip against the faithful stub.  On a reachable, initialised, present
adapter, for every block-aligned in-bounds `(addr, size)` and every pattern of `size`
bytes, `program(pattern, addr, size)` returns 0 and the following `read(buf, addr, size)`
returns 0 with `buf` equal to the pattern, in the synchronous and in the asynchronous
build alike. -/
theorem program_then_read_round_trip (cfg : Config) (fuel : Nat) (s : SDIOBlockDevice)
    (w : World StubHw) (pattern buf : List uint8_t) (addr size : Nat)
    (hr : Reachable stubDriver cfg s) (hi : s._is_initialized = true)
    (hp : (is_present stubDriver s w).1 = true)
    (ha : addr % 512 = 0) (hs : size % 512 = 0) (hb : addr + size ≤ s.size)
    (hl : pattern.length = size) (hl2 : buf.length = size) :
    ∃ (rp : Ret StubHw) (rr : ReadRet StubHw),
      s.program stubDriver cfg (fuel + 1) pattern addr size w = some rp ∧ rp.status = 0 ∧
      rp.self.read stubDriver cfg (fuel + 1) buf addr size rp.world = some rr ∧
      rr.status = 0 ∧ rr.buffer = pattern := by
  obtain ⟨hbs, -, hsec, -, -⟩ := wellFormed_of_reachable stubDriver cfg s hr
  have hbs' : s._block_size = 512 := hbs
  have hsize : s.size = 512 * s._sectors := by
    unfold SDIOBlockDevice.size u64
    rw [hbs']
    exact Nat.mod_eq_of_lt (by omega)
  have hv : s.is_valid_read addr size = true :=
    valid_of_aligned_in_bounds s addr size (by rw [hbs']; exact ha) (by rw [hbs']; exact hs) hb
  have hua : u32 (addr / s._block_size) = addr / 512 := by
    rw [hbs']; unfold u32; exact Nat.mod_eq_of_lt (by omega)
  have hus : u32 (size / s._block_size) = size / 512 := by
    rw [hbs']; unfold u32; exact Nat.mod_eq_of_lt (by omega)
  have hsz : size / 512 * 512 = size := by omega
  have h1 := stub_program cfg fuel s pattern addr size w hp hi hv
  rw [Option.map_eq_some'] at h1
  obtain ⟨rp, hrp, e⟩ := h1
  simp only [Prod.mk.injEq] at e
  obtain ⟨e1, e2, e3, e4⟩ := e
  have hp2 : (is_present stubDriver s rp.world).1 = true :=
    stub_present_of_cd_level s w rp.world e3 hp
  have h2 : (s.lock.unlock.read stubDriver cfg (fuel + 1) buf addr size rp.world).map
        (fun r => (r.status, r.buffer)) =
      some (0, rp.world.hw.load (u32 (addr / s._block_size)) (u32 (size / s._block_size)) ++
        buf.drop (u32 (size / s._block_size) * 512)) :=
    stub_read cfg fuel s.lock.unlock buf addr size rp.world
      (by rw [is_present_congr stubDriver s s.lock.unlock rp.world rfl]; exact hp2) hi hv
  rw [Option.map_eq_some'] at h2
  obtain ⟨rr, hrr, e'⟩ := h2
  simp only [Prod.mk.injEq] at e'
  obtain ⟨e5, e6⟩ := e'
  refine ⟨rp, rr, hrp, e1, ?_, e5, ?_⟩
  · rw [e2]; exact hrr
  · rw [e6, hua, hus]
    rw [stub_load_congr rp.world.hw (w.hw.write pattern (addr / 512) (size / 512))
      (by rw [e4, hua, hus]) (addr / 512) (size / 512)]
    rw [stub_load_write w.hw pattern (addr / 512) (size / 512) (size / 512) (le_refl _), hsz]
    rw [List.take_of_length_le (by omega), List.drop_of_length_le (by omega)]
    simp

/-- Witness for C4: two blocks written at byte address 512 of an 8-block stub card. -/
theorem program_then_read_round_trip_witness :
    ∃ (rp : Ret StubHw) (rr : ReadRet StubHw),
      (readyDevice 8).program stubDriver asyncConfig (0 + 1) (List.replicate 1024 7) 512 1024
          (World.start (stubHw 8 0)) = some rp ∧ rp.status = 0 ∧
      rp.self.read stubDriver asyncConfig (0 + 1) (List.replicate 1024 0) 512 1024 rp.world
          = some rr ∧
      rr.status = 0 ∧ rr.buffer = List.replicate 1024 7 :=
  program_then_read_round_trip asyncConfig 0 (readyDevice 8) (World.start (stubHw 8 0))
    (List.replicate 1024 7) (List.replicate 1024 0) 512 1024
    (Reachable.call 0 Op.init (construct none) (World.start (stubHw 8 0)) _
      (Reachable.construct none) rfl)
    rfl rfl (by decide) (by decide) (by decide)
    (List.length_replicate 1024 7) (List.length_replicate 1024 0)

/-! ## Preflight: initialisation and presence -/

theorem init_failure_stays_uninitialized {σ : Type} (d : Driver σ) (s : SDIOBlockDevice)
    (w : World σ) (hi : s._is_initialized = false)
    (hf : (s.init d w).status = SDIO_BLOCK_DEVICE_ERROR_NO_DEVICE ∨
      (s.init d w).status = BD_ERROR_DEVICE_ERROR) :
    (s.init d w).self._is_initialized = false := by
  rcases s with ⟨cd, ini, sec, cnt, bs, es, info, mtx, mlog⟩
  simp only at hi
  subst hi
  simp only [init, lock, unlock] at hf ⊢
  split_ifs at hf ⊢
  all_goals first
    | rfl
    | (exfalso
       simp only [SDIO_BLOCK_DEVICE_ERROR_UNSUPPORTED_BLOCKSIZE,
         SDIO_BLOCK_DEVICE_ERROR_NO_DEVICE, BD_ERROR_DEVICE_ERROR, BD_ERROR_OK] at *
       rcases hf with hf | hf <;> simp_all)

theorem deinit_stays_uninitialized {σ : Type} (d : Driver σ) (s : SDIOBlockDevice)
    (w : World σ) (hi : s._is_initialized = false) :
    (s.deinit d w).self._is_initialized = false := by
  simp [deinit, lock, unlock, hi]

theorem uninitialized_of_neverInitialized {σ : Type} (d : Driver σ) (cfg : Config)
    (s : SDIOBlockDevice) (h : NeverInitialized d cfg s) : s._is_initialized = false := by
  induction h with
  | construct cd => rfl
  | call fuel op s w r _ hstep hfail ih =>
    cases op with
    | init =>
      simp only [step, Option.some.injEq] at hstep
      subst hstep
      exact init_failure_stays_uninitialized d s w ih (hfail rfl)
    | deinit =>
      simp only [step, Option.some.injEq] at hstep
      subst hstep
      exact deinit_stays_uninitialized d s w ih
    | read b a n =>
      simp only [step, Option.map_eq_some'] at hstep
      obtain ⟨rr, hr, rfl⟩ := hstep
      have e : rr.toRet.self = s.lock.unlock := read_self d cfg fuel s b a n w rr hr
      rw [e]; exact ih
    | program b a n => rw [program_self d cfg fuel s b a n w r hstep]; exact ih
    | trim a n => rw [trim_self d cfg fuel s a n w r hstep]; exact ih

/-- C5 (counterexample): on a freshly constructed adapter whose card-detect pin reads 1,
`read` returns `SDIO_BLOCK_DEVICE_ERROR_NO_DEVICE`, not `..._NO_INIT`; and after an
`init` that failed with `SDIO_BLOCK_DEVICE_ERROR_UNSUPPORTED_BLOCKSIZE`, an aligned
in-bounds `read` returns 0, not `..._NO_INIT`. -/
theorem uninitialized_read_not_always_no_init :
    (((construct (some 3)).read stubDriver syncConfig 0 [] 0 512
        (World.start (stubHw 8 1))).map (fun r => r.status)
      = some SDIO_BLOCK_DEVICE_ERROR_NO_DEVICE ∧
     SDIO_BLOCK_DEVICE_ERROR_NO_DEVICE ≠ SDIO_BLOCK_DEVICE_ERROR_NO_INIT) ∧
    (((construct none).init stubDriver (World.start largeBlockHw)).status
      = SDIO_BLOCK_DEVICE_ERROR_UNSUPPORTED_BLOCKSIZE ∧
     (((construct none).init stubDriver (World.start largeBlockHw)).self.read stubDriver
        syncConfig 0 [] 0 512 (World.start largeBlockHw)).map (fun r => r.status) = some 0 ∧
     (0 : Int) ≠ SDIO_BLOCK_DEVICE_ERROR_NO_INIT) := by
  refine ⟨⟨rfl, by decide⟩, rfl, rfl, by decide⟩

/-- C5 (amended): on an adapter on which `init` was never called, or returned
`SDIO_BLOCK_DEVICE_ERROR_NO_DEVICE` or `BD_ERROR_DEVICE_ERROR` every time, and whose card
is sensed present at the call, `read`, `program` and `trim` return
`SDIO_BLOCK_DEVICE_ERROR_NO_INIT` for every buffer, address and size, without any driver
call. -/
theorem uninitialized_present_calls_answer_no_init {σ : Type} (d : Driver σ) (cfg : Config)
    (fuel : Nat) (s : SDIOBlockDevice) (buffer : List uint8_t) (addr size : Nat) (w : World σ)
    (hn : NeverInitialized d cfg s) (hp : (is_present d s w).1 = true) :
    (s.read d cfg fuel buffer addr size w).map (fun r => (r.status, r.world.calls)) =
        some (SDIO_BLOCK_DEVICE_ERROR_NO_INIT, w.calls) ∧
    (s.program d cfg fuel buffer addr size w).map (fun r => (r.status, r.world.calls)) =
        some (SDIO_BLOCK_DEVICE_ERROR_NO_INIT, w.calls) ∧
    (s.trim d cfg fuel addr size w).map (fun r => (r.status, r.world.calls)) =
        some (SDIO_BLOCK_DEVICE_ERROR_NO_INIT, w.calls) := by
  have hi := uninitialized_of_neverInitialized d cfg s hn
  rw [read_of_uninitialized d cfg fuel s buffer addr size w hp hi,
    program_of_uninitialized d cfg fuel s buffer addr size w hp hi,
    trim_of_uninitialized d cfg fuel s addr size w hp hi]
  simp [is_present_calls]

/-- Witness for C5: an adapter whose only `init` found the card absent, then used with
the card present. -/
theorem uninitialized_present_calls_answer_no_init_witness :
    (((construct (some 3)).init stubDriver (World.start (stubHw 8 1))).self.read stubDriver
        syncConfig 0 [] 0 512 (World.start (stubHw 8 0))).map
        (fun r => (r.status, r.world.calls)) =
        some (SDIO_BLOCK_DEVICE_ERROR_NO_INIT, (World.start (stubHw 8 0)).calls) ∧
    (((construct (some 3)).init stubDriver (World.start (stubHw 8 1))).self.program stubDriver
        syncConfig 0 [] 0 512 (World.start (stubHw 8 0))).map
        (fun r => (r.status, r.world.calls)) =
        some (SDIO_BLOCK_DEVICE_ERROR_NO_INIT, (World.start (stubHw 8 0)).calls) ∧
    (((construct (some 3)).init stubDriver (World.start (stubHw 8 1))).self.trim stubDriver
        syncConfig 0 0 512 (World.start (stubHw 8 0))).map
        (fun r => (r.status, r.world.calls)) =
        some (SDIO_BLOCK_DEVICE_ERROR_NO_INIT, (World.start (stubHw 8 0)).calls) :=
  uninitialized_present_calls_answer_no_init stubDriver syncConfig 0
    ((construct (some 3)).init stubDriver (World.start (stubHw 8 1))).self [] 0 512
    (World.start (stubHw 8 0))
    (NeverInitialized.call 0 Op.init (construct (some 3)) (World.start (stubHw 8 1)) _
      (NeverInitialized.construct (some 3)) rfl (fun _ => Or.inl rfl))
    rfl
theorem init_of_absent {σ : Type} (d : Driver σ) (s : SDIOBlockDevice) (w : World σ)
    (hp : (is_present d s w).1 = false) (hi : s._is_initialized = false) :
    s.init d w = ⟨SDIO_BLOCK_DEVICE_ERROR_NO_DEVICE,
      ({ s with _init_ref_count := 1 } : SDIOBlockDevice).lock.unlock,
      (is_present d s w).2⟩ := by
  have e : ∀ s' : SDIOBlockDevice, s'._card_detect = s._card_detect →
      is_present d s' w = is_present d s w := fun s' h => is_present_congr d s s' w h
  simp only [init, lock, unlock, hi]
  simp [e, hp]

/-- C6 (counterexample): the adapter initialised with a card-detect pin is reachable;
with the pin now reading 1 (card absent), `init` returns `BD_ERROR_OK`, not
`SDIO_BLOCK_DEVICE_ERROR_NO_DEVICE`. -/
theorem init_on_initialized_ignores_absence :
    Reachable stubDriver syncConfig (readyDeviceWithPin 8) ∧
    (is_present stubDriver (readyDeviceWithPin 8) (World.start (stubHw 8 1))).1 = false ∧
    ((readyDeviceWithPin 8).init stubDriver (World.start (stubHw 8 1))).status = BD_ERROR_OK ∧
    BD_ERROR_OK ≠ SDIO_BLOCK_DEVICE_ERROR_NO_DEVICE :=
  ⟨Reachable.call 0 Op.init (construct (some 3)) (World.start (stubHw 8 0)) _
      (Reachable.construct (some 3)) rfl,
    rfl, rfl, by decide⟩

/-- C6 (amended): presence is true exactly when no card-detect pin is configured or the
pin reads 0.  When presence sensing reports absent, `read`, `program` and `trim` return
`SDIO_BLOCK_DEVICE_ERROR_NO_DEVICE` without a driver call in every adapter state, and so
does `init` on an adapter that is not initialised (leaving it uninitialised); on a
reachable initialised adapter `init` returns `BD_ERROR_OK` without sensing presence and
without a driver call. -/
theorem absent_card_answers_no_device {σ : Type} (d : Driver σ) (cfg : Config) (fuel : Nat)
    (s : SDIOBlockDevice) (buffer : List uint8_t) (addr size : Nat) (w : World σ) :
    ((is_present d s w).1 = true ↔
      (s._card_detect = none ∨ (d.card_detect_read w.hw).1 = 0)) ∧
    ((is_present d s w).1 = false →
      (s.read d cfg fuel buffer addr size w).map (fun r => (r.status, r.world.calls)) =
          some (SDIO_BLOCK_DEVICE_ERROR_NO_DEVICE, w.calls) ∧
      (s.program d cfg fuel buffer addr size w).map (fun r => (r.status, r.world.calls)) =
          some (SDIO_BLOCK_DEVICE_ERROR_NO_DEVICE, w.calls) ∧
      (s.trim d cfg fuel addr size w).map (fun r => (r.status, r.world.calls)) =
          some (SDIO_BLOCK_DEVICE_ERROR_NO_DEVICE, w.calls) ∧
      (s._is_initialized = false →
        (s.init d w).status = SDIO_BLOCK_DEVICE_ERROR_NO_DEVICE ∧
        (s.init d w).world.calls = w.calls ∧
        (s.init d w).self._is_initialized = false)) ∧
    (Reachable d cfg s → s._is_initialized = true →
      (s.init d w).status = BD_ERROR_OK ∧ (s.init d w).world = w) := by
  refine ⟨?_, ?_, ?_⟩
  · unfold is_present
    cases hcd : s._card_detect with
    | none => simp
    | some p => simp
  · intro hp
    rw [read_of_absent d cfg fuel s buffer addr size w hp,
      program_of_absent d cfg fuel s buffer addr size w hp,
      trim_of_absent d cfg fuel s addr size w hp]
    refine ⟨by simp [is_present_calls], by simp [is_present_calls],
      by simp [is_present_calls], ?_⟩
    intro hi
    rw [init_of_absent d s w hp hi]
    exact ⟨rfl, is_present_calls d s w, hi⟩
  · intro hr hi
    have hc := (wellFormed_of_reachable d cfg s hr).2.2.2.2 hi
    rw [init_of_initialized d s w hi hc]
    exact ⟨rfl, rfl⟩

/-- Witness for C6: a fresh adapter with a card-detect pin reading 1, and the adapter
initialised earlier whose pin now reads 1. -/
theorem absent_card_answers_no_device_witness :
    (((construct (some 3)).read stubDriver syncConfig 0 [] 0 512
        (World.start (stubHw 8 1))).map (fun r => (r.status, r.world.calls)) =
        some (SDIO_BLOCK_DEVICE_ERROR_NO_DEVICE, []) ∧
     ((construct (some 3)).program stubDriver syncConfig 0 [] 0 512
        (World.start (stubHw 8 1))).map (fun r => (r.status, r.world.calls)) =
        some (SDIO_BLOCK_DEVICE_ERROR_NO_DEVICE, []) ∧
     ((construct (some 3)).trim stubDriver syncConfig 0 0 512
        (World.start (stubHw 8 1))).map (fun r => (r.status, r.world.calls)) =
        some (SDIO_BLOCK_DEVICE_ERROR_NO_DEVICE, []) ∧
     ((construct (some 3)).init stubDriver (World.start (stubHw 8 1))).status
        = SDIO_BLOCK_DEVICE_ERROR_NO_DEVICE ∧
     ((construct (some 3)).init stubDriver (World.start (stubHw 8 1))).world.calls = [] ∧
     ((construct (some 3)).init stubDriver (World.start (stubHw 8 1))).self._is_initialized
        = false) ∧
    (((readyDeviceWithPin 8).init stubDriver (World.start (stubHw 8 1))).status = BD_ERROR_OK ∧
     ((readyDeviceWithPin 8).init stubDriver (World.start (stubHw 8 1))).world =
        World.start (stubHw 8 1)) :=
  ⟨⟨((absent_card_answers_no_device stubDriver syncConfig 0 (construct (some 3)) [] 0 512
        (World.start (stubHw 8 1))).2.1 rfl).1,
    ((absent_card_answers_no_device stubDriver syncConfig 0 (construct (some 3)) [] 0 512
        (World.start (stubHw 8 1))).2.1 rfl).2.1,
    ((absent_card_answers_no_device stubDriver syncConfig 0 (construct (some 3)) [] 0 512
        (World.start (stubHw 8 1))).2.1 rfl).2.2.1,
    ((absent_card_answers_no_device stubDriver syncConfig 0 (construct (some 3)) [] 0 512
        (World.start (stubHw 8 1))).2.1 rfl).2.2.2 rfl⟩,
   (absent_card_answers_no_device stubDriver syncConfig 0 (readyDeviceWithPin 8) [] 0 512
      (World.start (stubHw 8 1))).2.2
    (Reachable.call 0 Op.init (construct (some 3)) (World.start (stubHw 8 0)) _
      (Reachable.construct (some 3)) rfl) rfl⟩

/-! ## Geometry -/

theorem is_present_mk {σ : Type} (d : Driver σ) (cd : Option Nat) (ini : Bool)
    (sec cnt bs es : Nat) (info : sdio_card_info_t) (mtx : Nat) (w : World σ) :
    is_present d ⟨cd, ini, sec, cnt, bs, es, info, mtx, mlog⟩ w = is_present d (construct cd) w :=
  rfl

theorem is_present_construct {σ : Type} (d : Driver σ) (s : SDIOBlockDevice) (w : World σ) :
    is_present d (construct s._card_detect) w = is_present d s w :=
  is_present_congr d s _ w rfl

theorem lock_card_detect (s : SDIOBlockDevice) : s.lock._card_detect = s._card_detect := rfl

/-- The four outcomes of `init` on an adapter that is not initialised. -/
theorem init_of_uninitialized {σ : Type} (d : Driver σ) (s : SDIOBlockDevice) (w : World σ)
    (hi : s._is_initialized = false) :
    s.init d w =
      if (is_present d s w).1 = false then
        ⟨SDIO_BLOCK_DEVICE_ERROR_NO_DEVICE,
          ({ s with _init_ref_count := 1 } : SDIOBlockDevice).lock.unlock,
          (is_present d s w).2⟩
      else if (d.sdio_init (is_present d s w).2.hw).1 ≠ 0 then
        ⟨BD_ERROR_DEVICE_ERROR,
          ({ s with _init_ref_count := 1 } : SDIOBlockDevice).lock.unlock,
          (invoke Call.sdio_init d.sdio_init (is_present d s w).2).2⟩
      else
        ⟨if (get_card_info d (invoke Call.sdio_init d.sdio_init (is_present d s w).2).2).1.block_size
              = BLOCK_SIZE_HC then 0 else SDIO_BLOCK_DEVICE_ERROR_UNSUPPORTED_BLOCKSIZE,
          ({ s with
            _init_ref_count := 1
            _is_initialized := true
            _card_info :=
              (get_card_info d (invoke Call.sdio_init d.sdio_init (is_present d s w).2).2).1
            _sectors :=
              (get_card_info d (invoke Call.sdio_init d.sdio_init
                (is_present d s w).2).2).1.log_block_count } : SDIOBlockDevice).lock.unlock,
          (get_card_info d (invoke Call.sdio_init d.sdio_init (is_present d s w).2).2).2⟩ := by
  have hl : s.lock._is_initialized = false := hi
  unfold init
  simp only [hl, Bool.not_false, if_true, Nat.zero_add, bne_self_eq_false, Bool.false_eq_true,
    if_false, is_present_mk, lock_card_detect, is_present_construct]
  by_cases hp : (is_present d s w).1 = false
  · simp [hp, hi, lock, unlock]
  · simp only [hp, beq_iff_eq, if_false]
    by_cases h0 : (d.sdio_init (is_present d s w).2.hw).1 = 0
    · have h0' : (invoke Call.sdio_init d.sdio_init (is_present d s w).2).1 = 0 := h0
      simp only [h0', h0, BD_ERROR_OK, bne_self_eq_false, Bool.false_eq_true, if_false,
        ne_eq, not_true_eq_false]
      by_cases hb : (get_card_info d (invoke Call.sdio_init d.sdio_init
          (is_present d s w).2).2).1.block_size = BLOCK_SIZE_HC
      · simp [hb, lock, unlock]
      · have hb' : ¬ BLOCK_SIZE_HC = (get_card_info d (invoke Call.sdio_init d.sdio_init
          (is_present d s w).2).2).1.block_size := fun h => hb h.symm
        simp [hb, hb', lock, unlock]
    · have h0' : ¬ (invoke Call.sdio_init d.sdio_init (is_present d s w).2).1 = 0 := h0
      have h0'' : ¬ 0 = (invoke Call.sdio_init d.sdio_init (is_present d s w).2).1 :=
        fun h => h0' h.symm
      simp [h0, h0', h0'', hi, BD_ERROR_OK, lock, unlock]

theorem init_success {σ : Type} (d : Driver σ) (s : SDIOBlockDevice) (w : World σ)
    (hi : s._is_initialized = false)
    (hp : (is_present d s w).1 = true)
    (h0 : (d.sdio_init (is_present d s w).2.hw).1 = 0) :
    (s.init d w).self._sectors =
      u32 (d.sdio_get_card_info (d.sdio_init (is_present d s w).2.hw).2).1.log_block_count ∧
    (s.init d w).self._block_size = s._block_size ∧
    (u32 (d.sdio_get_card_info (d.sdio_init (is_present d s w).2.hw).2).1.block_size
        = BLOCK_SIZE_HC → (s.init d w).status = 0) := by
  rw [init_of_uninitialized d s w hi]
  simp only [hp, Bool.true_eq_false, if_false, h0, ne_eq, not_true_eq_false]
  refine ⟨?_, ?_, ?_⟩
  · simp [get_card_info, invoke, sdio_card_info_t.wrap, lock, unlock]
  · trivial
  · intro hb
    have : (get_card_info d (invoke Call.sdio_init d.sdio_init (is_present d s w).2).2).1.block_size
        = BLOCK_SIZE_HC := hb
    simp only [this, if_true]

theorem size_of_wellFormed (s : SDIOBlockDevice) (h : WellFormed s) :
    s.size = s._block_size * s._sectors := by
  obtain ⟨h1, -, h3, -, -⟩ := h
  unfold SDIOBlockDevice.size u64
  rw [h1]
  unfold BLOCK_SIZE_HC
  exact Nat.mod_eq_of_lt (by omega)

/-- C7: in every reachable state `size()` equals `block_size * sector_count`; it is 0 on
a freshly constructed adapter; after a successful first `init` whose card information
reports 1000000 logical blocks of 512 bytes it is 512000000; and after the final `deinit`
(reference count 1) it is 0 again. -/
theorem size_is_block_size_times_sectors {σ : Type} (d : Driver σ) (cfg : Config)
    (s : SDIOBlockDevice) (w : World σ) (card_detect : Option Nat) :
    (Reachable d cfg s → s.size = s._block_size * s._sectors) ∧
    (construct card_detect).size = 0 ∧
    (Reachable d cfg s → s._is_initialized = false → (is_present d s w).1 = true →
      (d.sdio_init (is_present d s w).2.hw).1 = 0 →
      (d.sdio_get_card_info (d.sdio_init (is_present d s w).2.hw).2).1.log_block_count
        = 1000000 →
      (d.sdio_get_card_info (d.sdio_init (is_present d s w).2.hw).2).1.block_size = 512 →
      (s.init d w).status = 0 ∧ (s.init d w).self.size = 512000000) ∧
    (Reachable d cfg s → s._is_initialized = true → s._init_ref_count = 1 →
      (s.deinit d w).self.size = 0) := by
  refine ⟨fun hr => size_of_wellFormed s (wellFormed_of_reachable d cfg s hr), rfl, ?_, ?_⟩
  · intro hr hi hp h0 hcount hbs
    obtain ⟨e1, e2, e3⟩ := init_success d s w hi hp h0
    have hwf := wellFormed_init d s w (wellFormed_of_reachable d cfg s hr)
    refine ⟨e3 (by rw [hbs]; rfl), ?_⟩
    rw [size_of_wellFormed _ hwf, e1, e2, (wellFormed_of_reachable d cfg s hr).1, hcount]
    rfl
  · intro hr hi hc
    have hwf := wellFormed_deinit d s w (wellFormed_of_reachable d cfg s hr)
    rw [size_of_wellFormed _ hwf, deinit_of_last d s w hi hc]
    simp [lock, unlock]

/-- Witness for C7: the stub card of 1000000 blocks. -/
theorem size_is_block_size_times_sectors_witness :
    (readyDevice 1000000).size = (readyDevice 1000000)._block_size *
      (readyDevice 1000000)._sectors ∧
    ((construct none).init stubDriver (World.start (stubHw 1000000 0))).status = 0 ∧
    ((construct none).init stubDriver (World.start (stubHw 1000000 0))).self.size
      = 512000000 ∧
    ((readyDevice 1000000).deinit stubDriver (World.start (stubHw 1000000 0))).self.size = 0 :=
  ⟨(size_is_block_size_times_sectors stubDriver syncConfig (readyDevice 1000000)
      (World.start (stubHw 1000000 0)) none).1
      (Reachable.call 0 Op.init (construct none) (World.start (stubHw 1000000 0)) _
        (Reachable.construct none) rfl),
   ((size_is_block_size_times_sectors stubDriver syncConfig (construct none)
      (World.start (stubHw 1000000 0)) none).2.2.1
      (Reachable.construct none) rfl rfl rfl rfl rfl).1,
   ((size_is_block_size_times_sectors stubDriver syncConfig (construct none)
      (World.start (stubHw 1000000 0)) none).2.2.1
      (Reachable.construct none) rfl rfl rfl rfl rfl).2,
   (size_is_block_size_times_sectors stubDriver syncConfig (readyDevice 1000000)
      (World.start (stubHw 1000000 0)) none).2.2.2
      (Reachable.call 0 Op.init (construct none) (World.start (stubHw 1000000 0)) _
        (Reachable.construct none) rfl) rfl rfl⟩

theorem sectors_from_card_info_init {σ : Type} (d : Driver σ) (s : SDIOBlockDevice)
    (w : World σ)
    (h : s._is_initialized = true → s._sectors = s._card_info.log_block_count) :
    (s.init d w).self._is_initialized = true →
      (s.init d w).self._sectors = (s.init d w).self._card_info.log_block_count := by
  rcases s with ⟨cd, ini, sec, cnt, bs, es, info, mtx, mlog⟩
  simp only at h
  simp only [init, lock, unlock]
  split_ifs
  all_goals first
    | exact h
    | (intro _; rfl)

theorem sectors_from_card_info_deinit {σ : Type} (d : Driver σ) (s : SDIOBlockDevice)
    (w : World σ)
    (h : s._is_initialized = true → s._sectors = s._card_info.log_block_count) :
    (s.deinit d w).self._is_initialized = true →
      (s.deinit d w).self._sectors = (s.deinit d w).self._card_info.log_block_count := by
  rcases s with ⟨cd, ini, sec, cnt, bs, es, info, mtx, mlog⟩
  simp only at h
  simp only [deinit, lock, unlock]
  split_ifs
  all_goals first
    | exact h
    | (intro hh; simp_all)

theorem sectors_positive_init {σ : Type} (d : Driver σ)
    (hpos : ∀ hw, 0 < u32 (d.sdio_get_card_info hw).1.log_block_count)
    (s : SDIOBlockDevice) (w : World σ)
    (h : s._is_initialized = true → 0 < s._sectors) :
    (s.init d w).self._is_initialized = true → 0 < (s.init d w).self._sectors := by
  rcases s with ⟨cd, ini, sec, cnt, bs, es, info, mtx, mlog⟩
  simp only at h
  simp only [init, lock, unlock]
  split_ifs
  all_goals first
    | exact h
    | (intro _; exact hpos _)

theorem sectors_positive_deinit {σ : Type} (d : Driver σ) (s : SDIOBlockDevice) (w : World σ)
    (h : s._is_initialized = true → 0 < s._sectors) :
    (s.deinit d w).self._is_initialized = true → 0 < (s.deinit d w).self._sectors := by
  rcases s with ⟨cd, ini, sec, cnt, bs, es, info, mtx, mlog⟩
  simp only at h
  simp only [deinit, lock, unlock]
  split_ifs
  all_goals first
    | exact h
    | (intro hh; simp_all)

/-- C10 (counterexample): a successful `init` on a card whose information reports 0
logical blocks leaves a reachable adapter that is initialised with `sector_count = 0`. -/
theorem initialized_with_zero_sectors :
    Reachable stubDriver syncConfig (readyDevice 0) ∧
    ((construct none).init stubDriver (World.start (stubHw 0 0))).status = 0 ∧
    (readyDevice 0)._is_initialized = true ∧
    ¬ (0 < (readyDevice 0)._sectors) :=
  ⟨Reachable.call 0 Op.init (construct none) (World.start (stubHw 0 0)) _
      (Reachable.construct none) rfl,
    rfl, rfl, by decide⟩

/-- C10 (amended): in every reachable state, `sector_count > 0` implies that the adapter
is initialised, and an initialised adapter's `sector_count` is the logical block count of
its cached card information; the equivalence `sector_count > 0` iff initialised holds for
every driver whose card information always reports a non-zero logical block count. -/
theorem sectors_positive_implies_initialized {σ : Type} (d : Driver σ) (cfg : Config)
    (s : SDIOBlockDevice) (hr : Reachable d cfg s) :
    (0 < s._sectors → s._is_initialized = true) ∧
    (s._is_initialized = true → s._sectors = s._card_info.log_block_count) ∧
    ((∀ hw, 0 < u32 (d.sdio_get_card_info hw).1.log_block_count) →
      (0 < s._sectors ↔ s._is_initialized = true)) := by
  have h2 : s._is_initialized = true → s._sectors = s._card_info.log_block_count := by
    induction hr with
    | construct cd => intro hh; simp [construct] at hh
    | call fuel op s w r _ hstep ih =>
      exact step_preserves d cfg
        (fun s => s._is_initialized = true → s._sectors = s._card_info.log_block_count)
        (sectors_from_card_info_init d) (sectors_from_card_info_deinit d)
        (fun _ h => h) fuel op s w r hstep ih
  have h3 : (∀ hw, 0 < u32 (d.sdio_get_card_info hw).1.log_block_count) →
      s._is_initialized = true → 0 < s._sectors := by
    intro hpos
    clear h2
    induction hr with
    | construct cd => intro hh; simp [construct] at hh
    | call fuel op s w r _ hstep ih =>
      exact step_preserves d cfg (fun s => s._is_initialized = true → 0 < s._sectors)
        (sectors_positive_init d hpos) (sectors_positive_deinit d) (fun _ h => h)
        fuel op s w r hstep ih
  have hwf := wellFormed_of_reachable d cfg s hr
  have h1 : 0 < s._sectors → s._is_initialized = true := by
    intro hpos
    cases hi : s._is_initialized with
    | true => rfl
    | false => have := hwf.2.2.2.1 hi; omega
  exact ⟨h1, h2, fun hpos => ⟨h1, h3 hpos⟩⟩

/-- Witness for C10: the adapter initialised on the stub card of 8 blocks. -/
theorem sectors_positive_implies_initialized_witness :
    (0 < (readyDevice 8)._sectors → (readyDevice 8)._is_initialized = true) ∧
    ((readyDevice 8)._is_initialized = true →
      (readyDevice 8)._sectors = (readyDevice 8)._card_info.log_block_count) ∧
    ((∀ hw, 0 < u32 (stubDriver.sdio_get_card_info hw).1.log_block_count) →
      (0 < (readyDevice 8)._sectors ↔ (readyDevice 8)._is_initialized = true)) :=
  sectors_positive_implies_initialized stubDriver syncConfig (readyDevice 8)
    (Reachable.call 0 Op.init (construct none) (World.start (stubHw 8 0)) _
      (Reachable.construct none) rfl)

/-! ## The wait loop -/

theorem wait_until_ready {σ : Type} (d : Driver σ) (poll : World σ → Int × World σ)
    (timeout tickstart : Nat) :
    ∀ (fuel k : Nat) (w : World σ), k < fuel →
      status_at d poll k w = SD_TRANSFER_OK →
      (∀ j, j < k → status_at d poll j w ≠ SD_TRANSFER_OK ∧
        elapsed_at d poll tickstart j w < timeout) →
      wait_until d poll timeout tickstart fuel w =
        some (true, (poll (iteration d poll k w)).2) := by
  intro fuel
  induction fuel with
  | zero => intro k w hk; omega
  | succ fuel ih =>
    intro k w hk hs hb
    cases k with
    | zero =>
      have h0 : (poll w).1 = SD_TRANSFER_OK := hs
      simp [wait_until, iteration, h0]
    | succ k =>
      obtain ⟨hn, he⟩ := hb 0 (by omega)
      have hn' : (poll w).1 ≠ SD_TRANSFER_OK := hn
      have he' : u32 ((us_ticker_read d (poll w).2).1 + 2 ^ 32 - tickstart) < timeout := he
      have he'' : ¬ timeout ≤ u32 ((us_ticker_read d (poll w).2).1 + 2 ^ 32 - tickstart) := by
        omega
      simp only [wait_until, bne_iff_ne, ne_eq, hn', not_false_eq_true, if_true, ge_iff_le,
        he'', if_false, iteration]
      exact ih k _ (by omega) hs (fun j hj => hb (j + 1) (by omega))

theorem wait_until_timeout {σ : Type} (d : Driver σ) (poll : World σ → Int × World σ)
    (timeout tickstart : Nat) :
    ∀ (fuel k : Nat) (w : World σ), k < fuel →
      (∀ j, j ≤ k → status_at d poll j w ≠ SD_TRANSFER_OK) →
      (∀ j, j < k → elapsed_at d poll tickstart j w < timeout) →
      timeout ≤ elapsed_at d poll tickstart k w →
      wait_until d poll timeout tickstart fuel w =
        some (false, (us_ticker_read d (poll (iteration d poll k w)).2).2) := by
  intro fuel
  induction fuel with
  | zero => intro k w hk; omega
  | succ fuel ih =>
    intro k w hk hs hb ht
    have hn' : (poll w).1 ≠ SD_TRANSFER_OK := hs 0 (by omega)
    cases k with
    | zero =>
      have ht' : timeout ≤ u32 ((us_ticker_read d (poll w).2).1 + 2 ^ 32 - tickstart) := ht
      simp only [wait_until, bne_iff_ne, ne_eq, hn', not_false_eq_true, if_true, ge_iff_le,
        ht', iteration]
    | succ k =>
      have he' : u32 ((us_ticker_read d (poll w).2).1 + 2 ^ 32 - tickstart) < timeout :=
        hb 0 (by omega)
      have he'' : ¬ timeout ≤ u32 ((us_ticker_read d (poll w).2).1 + 2 ^ 32 - tickstart) := by
        omega
      simp only [wait_until, bne_iff_ne, ne_eq, hn', not_false_eq_true, if_true, ge_iff_le,
        he'', if_false, iteration]
      exact ih k _ (by omega) (fun j hj => hs (j + 1) (by omega))
        (fun j hj => hb (j + 1) (by omega)) ht

theorem wait_until_running {σ : Type} (d : Driver σ) (poll : World σ → Int × World σ)
    (timeout tickstart : Nat) :
    ∀ (fuel : Nat) (w : World σ),
      (∀ j, j < fuel → status_at d poll j w ≠ SD_TRANSFER_OK ∧
        elapsed_at d poll tickstart j w < timeout) →
      wait_until d poll timeout tickstart fuel w = none := by
  intro fuel
  induction fuel with
  | zero => intro w _; rfl
  | succ fuel ih =>
    intro w hb
    obtain ⟨hn, he⟩ := hb 0 (by omega)
    have hn' : (poll w).1 ≠ SD_TRANSFER_OK := hn
    have he' : u32 ((us_ticker_read d (poll w).2).1 + 2 ^ 32 - tickstart) < timeout := he
    have he'' : ¬ timeout ≤ u32 ((us_ticker_read d (poll w).2).1 + 2 ^ 32 - tickstart) := by
      omega
    simp only [wait_until, bne_iff_ne, ne_eq, hn', not_false_eq_true, if_true, ge_iff_le,
      he'', if_false]
    exact ih _ (fun j hj => hb (j + 1) (by omega))

/-- The wait loop returns as soon as the poll budget exceeds the first iteration at which
the poll answers `SD_TRANSFER_OK` or the timeout test fires. -/
theorem wait_until_returns {σ : Type} (d : Driver σ) (poll : World σ → Int × World σ)
    (timeout tickstart : Nat) (fuel k : Nat) (w : World σ) (hk : k < fuel)
    (h : status_at d poll k w = SD_TRANSFER_OK ∨ timeout ≤ elapsed_at d poll tickstart k w) :
    (wait_until d poll timeout tickstart fuel w).isSome = true := by
  cases hr : wait_until d poll timeout tickstart fuel w with
  | some r => rfl
  | none =>
    exfalso
    have key : ∀ (fuel : Nat) (w : World σ), wait_until d poll timeout tickstart fuel w = none →
        ∀ j, j < fuel → status_at d poll j w ≠ SD_TRANSFER_OK ∧
          elapsed_at d poll tickstart j w < timeout := by
      intro fuel
      induction fuel with
      | zero => intro w _ j hj; omega
      | succ fuel ih =>
        intro w hw j hj
        simp only [wait_until] at hw
        split_ifs at hw with h1 h2
        have h1' : (poll w).1 ≠ SD_TRANSFER_OK := by simpa using h1
        cases j with
        | zero => exact ⟨h1', by simpa [elapsed_at, iteration] using h2⟩
        | succ j => exact ih _ hw j (by omega)
    obtain ⟨a, b⟩ := key fuel w hr k hk
    rcases h with h | h
    · exact a h
    · omega
/-! ## The asynchronous transfer -/

theorem read_async_unfold {σ : Type} (d : Driver σ) (cfg : Config) (fuel : Nat)
    (s : SDIOBlockDevice) (buffer : List uint8_t) (addr size : Nat) (w : World σ)
    (hasync : cfg.DEVICE_SDIO_ASYNC = true)
    (hp : (is_present d s w).1 = true) (hi : s._is_initialized = true)
    (hv : s.is_valid_read addr size = true) :
    s.read d cfg fuel buffer addr size w =
      match wait_phase d cfg (poll_card_state d) fuel (is_present d s w).2 with
      | none => none
      | some (false, w1) => some ⟨SDIO_BLOCK_DEVICE_ERROR_READ_BLOCKS, buffer, s.lock.unlock, w1⟩
      | some (true, w1) =>
        if (start_read_async d s buffer addr size w1).1.1 = MSD_OK then
          match wait_phase d cfg (poll_read_pending d) fuel
              (start_read_async d s buffer addr size w1).2 with
          | none => none
          | some (false, w2) =>
            some ⟨SDIO_BLOCK_DEVICE_ERROR_READ_BLOCKS,
              (start_read_async d s buffer addr size w1).1.2, s.lock.unlock, w2⟩
          | some (true, w2) =>
            match wait_phase d cfg (poll_card_state d) fuel w2 with
            | none => none
            | some (false, w3) =>
              some ⟨SDIO_BLOCK_DEVICE_ERROR_READ_BLOCKS,
                (start_read_async d s buffer addr size w1).1.2, s.lock.unlock, w3⟩
            | some (true, w3) =>
              some ⟨0, (start_read_async d s buffer addr size w1).1.2, s.lock.unlock, w3⟩
        else
          some ⟨SDIO_BLOCK_DEVICE_ERROR_READ_BLOCKS,
            (start_read_async d s buffer addr size w1).1.2, s.lock.unlock,
            (start_read_async d s buffer addr size w1).2⟩ := by
  simp only [SDIOBlockDevice.read, is_present_lock, hp, hi, hv, lock_is_initialized,
    lock_is_valid_read, hasync, lock_block_size, start_read_async]
  simp only [Bool.true_eq_false, beq_iff_eq, if_false, Bool.not_true, if_true,
    Bool.false_eq_true]
  cases wait_phase d cfg (poll_card_state d) fuel (is_present d s w).2 with
  | none => rfl
  | some p =>
    rcases p with ⟨b, w1⟩
    cases b with
    | false => rfl
    | true =>
      dsimp only
      by_cases h : (invoke_read
          (Call.sdio_read_blocks_async (u32 (addr / s._block_size)) (u32 (size / s._block_size)))
          (d.sdio_read_blocks_async buffer (u32 (addr / s._block_size))
            (u32 (size / s._block_size))) w1).1.1 = MSD_OK
      · simp only [h, if_true]
        rfl
      · simp only [h, if_false]

theorem program_async_unfold {σ : Type} (d : Driver σ) (cfg : Config) (fuel : Nat)
    (s : SDIOBlockDevice) (buffer : List uint8_t) (addr size : Nat) (w : World σ)
    (hasync : cfg.DEVICE_SDIO_ASYNC = true)
    (hp : (is_present d s w).1 = true) (hi : s._is_initialized = true)
    (hv : s.is_valid_program addr size = true) :
    s.program d cfg fuel buffer addr size w =
      match wait_phase d cfg (poll_card_state d) fuel (is_present d s w).2 with
      | none => none
      | some (false, w1) => some ⟨SDIO_BLOCK_DEVICE_ERROR_WRITE_BLOCKS, s.lock.unlock, w1⟩
      | some (true, w1) =>
        if (start_write_async d s buffer addr size w1).1 = MSD_OK then
          match wait_phase d cfg (poll_write_pending d) fuel
              (start_write_async d s buffer addr size w1).2 with
          | none => none
          | some (false, w2) => some ⟨SDIO_BLOCK_DEVICE_ERROR_WRITE_BLOCKS, s.lock.unlock, w2⟩
          | some (true, w2) =>
            match wait_phase d cfg (poll_card_state d) fuel w2 with
            | none => none
            | some (false, w3) => some ⟨SDIO_BLOCK_DEVICE_ERROR_WRITE_BLOCKS, s.lock.unlock, w3⟩
            | some (true, w3) => some ⟨0, s.lock.unlock, w3⟩
        else
          some ⟨SDIO_BLOCK_DEVICE_ERROR_WRITE_BLOCKS, s.lock.unlock,
            (start_write_async d s buffer addr size w1).2⟩ := by
  simp only [program, is_present_lock, hp, hi, hv, lock_is_initialized,
    lock_is_valid_program, hasync, lock_block_size, start_write_async]
  simp only [Bool.true_eq_false, beq_iff_eq, if_false, Bool.not_true, if_true,
    Bool.false_eq_true]
  cases wait_phase d cfg (poll_card_state d) fuel (is_present d s w).2 with
  | none => rfl
  | some p =>
    rcases p with ⟨b, w1⟩
    cases b with
    | false => rfl
    | true =>
      dsimp only
      by_cases h : (invoke
          (Call.sdio_write_blocks_async (u32 (addr / s._block_size)) (u32 (size / s._block_size)))
          (d.sdio_write_blocks_async buffer (u32 (addr / s._block_size))
            (u32 (size / s._block_size))) w1).1 = MSD_OK
      · simp only [h, if_true]
        rfl
      · simp only [h, if_false]

theorem iteration_card_state_calls {σ : Type} (d : Driver σ) :
    ∀ (k : Nat) (w : World σ),
      (iteration d (poll_card_state d) k w).calls =
        w.calls ++ List.replicate k Call.sdio_get_card_state := by
  intro k
  induction k with
  | zero => intro w; simp [iteration]
  | succ k ih =>
    intro w
    simp only [iteration, ih, us_ticker_read, poll_card_state, invoke, List.replicate_succ,
      List.append_assoc, List.singleton_append]

/-- The timeout of the first wait, in ticker units: when the card state is never ready
and iteration `k` is the first whose 32-bit tick difference reaches
`MBED_CONF_SDIO_CMD_TIMEOUT`, `read` and `program` return their BLOCKS error after
exactly `k + 1` card-state polls, for every poll budget above `k`, and issue no other
driver primitive. -/
theorem never_ready_times_out_in_ticks {σ : Type} (d : Driver σ) (cfg : Config)
    (fuel k : Nat) (s : SDIOBlockDevice) (buffer : List uint8_t) (addr size : Nat) (w : World σ)
    (hasync : cfg.DEVICE_SDIO_ASYNC = true)
    (hp : (is_present d s w).1 = true) (hi : s._is_initialized = true)
    (ha : addr % s._block_size = 0) (hs : size % s._block_size = 0)
    (hb : addr + size ≤ s.size)
    (hbusy : ∀ j, j ≤ k → status_at d (poll_card_state d) j
      (us_ticker_read d (is_present d s w).2).2 ≠ SD_TRANSFER_OK)
    (hbefore : ∀ j, j < k → elapsed_at d (poll_card_state d)
      (us_ticker_read d (is_present d s w).2).1 j (us_ticker_read d (is_present d s w).2).2
        < cfg.MBED_CONF_SDIO_CMD_TIMEOUT)
    (hat : cfg.MBED_CONF_SDIO_CMD_TIMEOUT ≤ elapsed_at d (poll_card_state d)
      (us_ticker_read d (is_present d s w).2).1 k (us_ticker_read d (is_present d s w).2).2)
    (hf : k < fuel) :
    (s.read d cfg fuel buffer addr size w).map (fun r => (r.status, r.world.calls)) =
      some (SDIO_BLOCK_DEVICE_ERROR_READ_BLOCKS,
        w.calls ++ List.replicate (k + 1) Call.sdio_get_card_state) ∧
    (s.program d cfg fuel buffer addr size w).map (fun r => (r.status, r.world.calls)) =
      some (SDIO_BLOCK_DEVICE_ERROR_WRITE_BLOCKS,
        w.calls ++ List.replicate (k + 1) Call.sdio_get_card_state) := by
  have hv := valid_of_aligned_in_bounds s addr size ha hs hb
  have hv2 : s.is_valid_program addr size = true := hv
  have hw := wait_until_timeout d (poll_card_state d) cfg.MBED_CONF_SDIO_CMD_TIMEOUT
    (us_ticker_read d (is_present d s w).2).1 fuel k (us_ticker_read d (is_present d s w).2).2
    hf hbusy hbefore hat
  have hw' : wait_phase d cfg (poll_card_state d) fuel (is_present d s w).2 =
      some (false, (us_ticker_read d (poll_card_state d (iteration d (poll_card_state d) k
        (us_ticker_read d (is_present d s w).2).2)).2).2) := hw
  have hc : (us_ticker_read d (poll_card_state d (iteration d (poll_card_state d) k
        (us_ticker_read d (is_present d s w).2).2)).2).2.calls =
      w.calls ++ List.replicate (k + 1) Call.sdio_get_card_state := by
    simp only [us_ticker_read, poll_card_state, invoke, iteration_card_state_calls,
      is_present_calls, List.replicate_succ', List.append_assoc]
  rw [read_async_unfold d cfg fuel s buffer addr size w hasync hp hi hv,
    program_async_unfold d cfg fuel s buffer addr size w hasync hp hi hv2, hw']
  simp only [Option.map_some', hc, and_self]

/-- C9 (failing input): the card is never ready and the microsecond ticker advances by
1000 per reading, so reading number `n` comes `n` milliseconds after the wait began.  With
the default timeout 30000, `read` and `program` return their BLOCKS error at the 30th
poll, when the tick difference is 30000 microseconds, that is 30 ms and not 30000 ms; the
asynchronous primitive is never issued. -/
theorem never_ready_returns_after_30_ms :
    ((readyDevice 8).read busyDriver asyncConfig 30 [] 0 512 (World.start (stubHw 8 0))).map
        (fun r => (r.status, r.world.calls)) =
      some (SDIO_BLOCK_DEVICE_ERROR_READ_BLOCKS, List.replicate 30 Call.sdio_get_card_state) ∧
    ((readyDevice 8).program busyDriver asyncConfig 30 [] 0 512
        (World.start (stubHw 8 0))).map (fun r => (r.status, r.world.calls)) =
      some (SDIO_BLOCK_DEVICE_ERROR_WRITE_BLOCKS, List.replicate 30 Call.sdio_get_card_state) ∧
    elapsed_at busyDriver (poll_card_state busyDriver) 0 29
        (us_ticker_read busyDriver (World.start (stubHw 8 0))).2 = 30000 ∧
    30000 / 1000 < asyncConfig.MBED_CONF_SDIO_CMD_TIMEOUT := by
  refine ⟨?_, ?_, ?_, by decide⟩
  · rfl
  · rfl
  · rfl

/-! ## The reference count -/

theorem count_le_one_init {σ : Type} (d : Driver σ) (s : SDIOBlockDevice) (w : World σ)
    (h : s._is_initialized = false → s._init_ref_count ≤ 1) :
    (s.init d w).self._is_initialized = false → (s.init d w).self._init_ref_count ≤ 1 := by
  rcases s with ⟨cd, ini, sec, cnt, bs, es, info, mtx, mlog⟩
  simp only at h
  simp only [init, lock, unlock]
  split_ifs
  all_goals (intro hh; simp_all)

theorem count_le_one_deinit {σ : Type} (d : Driver σ) (s : SDIOBlockDevice) (w : World σ)
    (h : s._is_initialized = false → s._init_ref_count ≤ 1) :
    (s.deinit d w).self._is_initialized = false →
      (s.deinit d w).self._init_ref_count ≤ 1 := by
  rcases s with ⟨cd, ini, sec, cnt, bs, es, info, mtx, mlog⟩
  simp only at h
  simp only [deinit, lock, unlock]
  split_ifs
  all_goals (intro hh; simp_all)

theorem count_le_one_of_reachable {σ : Type} (d : Driver σ) (cfg : Config)
    (s : SDIOBlockDevice) (hr : Reachable d cfg s) :
    s._is_initialized = false → s._init_ref_count ≤ 1 := by
  induction hr with
  | construct cd => intro _; simp [construct]
  | call fuel op s w r _ hstep ih =>
    exact step_preserves d cfg
      (fun s => s._is_initialized = false → s._init_ref_count ≤ 1)
      (count_le_one_init d) (count_le_one_deinit d) (fun _ h => h) fuel op s w r hstep ih

/-- C11 (counterexample): an `init` that finds the card absent returns
`SDIO_BLOCK_DEVICE_ERROR_NO_DEVICE` and leaves a reachable adapter with
`init_ref_count = 1` and `initialized = false`. -/
theorem failed_init_leaves_count_positive :
    Reachable stubDriver syncConfig
      ((construct (some 3)).init stubDriver (World.start (stubHw 8 1))).self ∧
    ((construct (some 3)).init stubDriver (World.start (stubHw 8 1))).status
      = SDIO_BLOCK_DEVICE_ERROR_NO_DEVICE ∧
    ((construct (some 3)).init stubDriver (World.start (stubHw 8 1))).self._is_initialized
      = false ∧
    0 < ((construct (some 3)).init stubDriver
      (World.start (stubHw 8 1))).self._init_ref_count :=
  ⟨Reachable.call 0 Op.init (construct (some 3)) (World.start (stubHw 8 1)) _
      (Reachable.construct (some 3)) rfl,
    rfl, rfl, by decide⟩

/-- C11 (amended): in every reachable state, `initialized` implies `init_ref_count > 0`,
and while `initialized` is false `init_ref_count` is 0 or 1. -/
theorem initialized_implies_count_positive {σ : Type} (d : Driver σ) (cfg : Config)
    (s : SDIOBlockDevice) (hr : Reachable d cfg s) :
    (s._is_initialized = true → 0 < s._init_ref_count) ∧
    (s._is_initialized = false → s._init_ref_count = 0 ∨ s._init_ref_count = 1) := by
  refine ⟨fun hi => (wellFormed_of_reachable d cfg s hr).2.2.2.2 hi, fun hi => ?_⟩
  have := count_le_one_of_reachable d cfg s hr hi
  omega

/-- Witness for C11: the adapter whose only `init` found the card absent. -/
theorem initialized_implies_count_positive_witness :
    (((construct (some 3)).init stubDriver (World.start (stubHw 8 1))).self._is_initialized
        = true →
      0 < ((construct (some 3)).init stubDriver
        (World.start (stubHw 8 1))).self._init_ref_count) ∧
    (((construct (some 3)).init stubDriver (World.start (stubHw 8 1))).self._is_initialized
        = false →
      ((construct (some 3)).init stubDriver
        (World.start (stubHw 8 1))).self._init_ref_count = 0 ∨
      ((construct (some 3)).init stubDriver
        (World.start (stubHw 8 1))).self._init_ref_count = 1) :=
  initialized_implies_count_positive stubDriver syncConfig
    ((construct (some 3)).init stubDriver (World.start (stubHw 8 1))).self
    (Reachable.call 0 Op.init (construct (some 3)) (World.start (stubHw 8 1)) _
      (Reachable.construct (some 3)) rfl)

theorem deinit_of_uninitialized {σ : Type} (d : Driver σ) (s : SDIOBlockDevice) (w : World σ)
    (hi : s._is_initialized = false) :
    s.deinit d w = ⟨BD_ERROR_OK,
      ({ s with _init_ref_count := 0 } : SDIOBlockDevice).lock.unlock, w⟩ := by
  simp [deinit, lock, unlock, hi]

theorem run_cons_deinit {σ : Type} (d : Driver σ) (cfg : Config) (fuel : Nat) (ops : List Op)
    (s : SDIOBlockDevice) (w : World σ) :
    run d cfg fuel (Op.deinit :: ops) s w =
      match run d cfg fuel ops (s.deinit d w).self (s.deinit d w).world with
      | none => none
      | some t => some (((s.deinit d w).status, (s.deinit d w).world.calls) :: t.1, t.2) :=
  rfl

theorem run_surplus_deinits {σ : Type} (d : Driver σ) (cfg : Config) (fuel : Nat) :
    ∀ (n : Nat) (s : SDIOBlockDevice) (w : World σ),
      (s._is_initialized = true → 1 ≤ s._init_ref_count) →
      (s._is_initialized = false ∨ s._init_ref_count ≤ n + 1) →
      ∃ t, run d cfg fuel (List.replicate (n + 1) Op.deinit) s w = some t ∧
        t.2.1._init_ref_count = 0 ∧ t.2.1._is_initialized = false := by
  intro n
  induction n with
  | zero =>
    intro s w h1 h2
    cases hi : s._is_initialized with
    | false =>
      simp [run, step, deinit_of_uninitialized d s w hi, hi, lock, unlock]
    | true =>
      have hc : s._init_ref_count = 1 := by
        have := h1 hi
        rcases h2 with h2 | h2
        · rw [hi] at h2; cases h2
        · omega
      simp [run, step, deinit_of_last d s w hi hc, lock, unlock]
  | succ n ih =>
    intro s w h1 h2
    rw [List.replicate_succ, run_cons_deinit]
    cases hi : s._is_initialized with
    | false =>
      rw [deinit_of_uninitialized d s w hi]
      obtain ⟨t, ht, e1, e2⟩ :=
        ih ({ s with _init_ref_count := 0 } : SDIOBlockDevice).lock.unlock w
          (fun h => by simp [hi, lock, unlock] at h) (Or.inl hi)
      simp only [ht]
      exact ⟨_, rfl, e1, e2⟩
    | true =>
      have hc := h1 hi
      by_cases hlast : s._init_ref_count = 1
      · rw [deinit_of_last d s w hi hlast]
        obtain ⟨t, ht, e1, e2⟩ := ih
          ({ s with _init_ref_count := 0, _is_initialized := false, _sectors := 0 } :
            SDIOBlockDevice).lock.unlock
          ⟨(d.sdio_deinit w.hw).2, w.calls ++ [Call.sdio_deinit]⟩
          (fun h => by simp [lock, unlock] at h) (Or.inl rfl)
        simp only [ht]
        exact ⟨_, rfl, e1, e2⟩
      · rw [deinit_of_shared d s w hi (by omega)]
        obtain ⟨t, ht, e1, e2⟩ :=
          ih ({ s with _init_ref_count := s._init_ref_count - 1 } : SDIOBlockDevice).lock.unlock w
            (fun _ => by
              show 1 ≤ s._init_ref_count - 1
              omega)
            (Or.inr (by
              rcases h2 with h2 | h2
              · rw [hi] at h2; cases h2
              · show s._init_ref_count - 1 ≤ n + 1
                omega))
        simp only [ht]
        exact ⟨_, rfl, e1, e2⟩

/-- C12: in every reachable state `initialized` implies `init_ref_count ≥ 1`, so the
decrement of `deinit`, which runs only when initialized, takes exactly one off the count
without underflow; and once at least `init_ref_count` (and at least one) `deinit` calls
have been made, however many more, the count is 0 and the adapter is uninitialised. -/
theorem deinit_never_underflows {σ : Type} (d : Driver σ) (cfg : Config) (fuel : Nat)
    (s : SDIOBlockDevice) (w : World σ) (hr : Reachable d cfg s) :
    (s._is_initialized = true → 1 ≤ s._init_ref_count) ∧
    (s._is_initialized = true →
      (s.deinit d w).self._init_ref_count + 1 = s._init_ref_count) ∧
    (∀ n : Nat, 1 ≤ n → s._init_ref_count ≤ n →
      ∃ t, run d cfg fuel (List.replicate n Op.deinit) s w = some t ∧
        t.2.1._init_ref_count = 0 ∧ t.2.1._is_initialized = false) := by
  have h1 := (wellFormed_of_reachable d cfg s hr).2.2.2.2
  refine ⟨h1, ?_, ?_⟩
  · intro hi
    have hc := h1 hi
    by_cases hlast : s._init_ref_count = 1
    · rw [deinit_of_last d s w hi hlast, hlast]
      rfl
    · rw [deinit_of_shared d s w hi (by omega)]
      show s._init_ref_count - 1 + 1 = s._init_ref_count
      omega
  · intro n hn hle
    obtain ⟨m, rfl⟩ : ∃ m, n = m + 1 := ⟨n - 1, by omega⟩
    exact run_surplus_deinits d cfg fuel m s w h1 (Or.inr hle)

/-- Witness for C12: five `deinit` calls on the adapter that was initialised twice. -/
theorem deinit_never_underflows_witness :
    ((twiceReadyDevice 8)._is_initialized = true → 1 ≤ (twiceReadyDevice 8)._init_ref_count) ∧
    ((twiceReadyDevice 8)._is_initialized = true →
      ((twiceReadyDevice 8).deinit stubDriver (World.start (stubHw 8 0))).self._init_ref_count
        + 1 = (twiceReadyDevice 8)._init_ref_count) ∧
    (∃ t, run stubDriver syncConfig 0 (List.replicate 5 Op.deinit) (twiceReadyDevice 8)
        (World.start (stubHw 8 0)) = some t ∧
        t.2.1._init_ref_count = 0 ∧ t.2.1._is_initialized = false) :=
  ⟨(deinit_never_underflows stubDriver syncConfig 0 (twiceReadyDevice 8)
      (World.start (stubHw 8 0))
      (Reachable.call 0 Op.init (readyDevice 8) (World.start (stubHw 8 0)) _
        (Reachable.call 0 Op.init (construct none) (World.start (stubHw 8 0)) _
          (Reachable.construct none) rfl) rfl)).1,
   (deinit_never_underflows stubDriver syncConfig 0 (twiceReadyDevice 8)
      (World.start (stubHw 8 0))
      (Reachable.call 0 Op.init (readyDevice 8) (World.start (stubHw 8 0)) _
        (Reachable.call 0 Op.init (construct none) (World.start (stubHw 8 0)) _
          (Reachable.construct none) rfl) rfl)).2.1,
   (deinit_never_underflows stubDriver syncConfig 0 (twiceReadyDevice 8)
      (World.start (stubHw 8 0))
      (Reachable.call 0 Op.init (readyDevice 8) (World.start (stubHw 8 0)) _
        (Reachable.call 0 Op.init (construct none) (World.start (stubHw 8 0)) _
          (Reachable.construct none) rfl) rfl)).2.2 5 (by decide) (by decide)⟩

/-! ## The adapter lock -/

theorem init_mutex {σ : Type} (d : Driver σ) (s : SDIOBlockDevice) (w : World σ) :
    (s.init d w).self._mutex = s._mutex ∧
    (s.init d w).self._mutex_log = s._mutex_log ++ [MutexEvent.lock, MutexEvent.unlock] := by
  rcases s with ⟨cd, ini, sec, cnt, bs, es, info, mtx, mlog⟩
  simp only [init, lock, unlock]
  split_ifs <;> simp

theorem deinit_mutex {σ : Type} (d : Driver σ) (s : SDIOBlockDevice) (w : World σ) :
    (s.deinit d w).self._mutex = s._mutex ∧
    (s.deinit d w).self._mutex_log = s._mutex_log ++ [MutexEvent.lock, MutexEvent.unlock] := by
  rcases s with ⟨cd, ini, sec, cnt, bs, es, info, mtx, mlog⟩
  simp only [deinit, lock, unlock]
  split_ifs <;> simp

theorem unlock_lock_mutex (s : SDIOBlockDevice) :
    s.lock.unlock._mutex = s._mutex ∧
    s.lock.unlock._mutex_log = s._mutex_log ++ [MutexEvent.lock, MutexEvent.unlock] := by
  rw [unlock_lock]
  cases s
  simp [lock, unlock]

theorem step_sync_returns {σ : Type} (d : Driver σ) (cfg : Config) (fuel : Nat)
    (op : Op) (s : SDIOBlockDevice) (w : World σ) (hsync : cfg.DEVICE_SDIO_ASYNC = false) :
    (step d cfg fuel op s w).isSome = true := by
  cases op with
  | init => rfl
  | deinit => rfl
  | read b a n =>
    simp only [step, SDIOBlockDevice.read, hsync, Option.isSome_map']
    repeat' split
    all_goals first | rfl | contradiction
  | program b a n =>
    simp only [step, program, hsync]
    repeat' split
    all_goals first | rfl | contradiction
  | trim a n =>
    simp only [step, trim, hsync]
    repeat' split
    all_goals first | rfl | contradiction

/-- C13: the adapter lock is a hold counter `_mutex` together with the record
`_mutex_log` of the operations performed on it; `lock` adds one to the counter and records
a `lock`, `unlock` takes one off and records an `unlock`.  Every call of `init`, `deinit`,
`read`, `program` and `trim` that returns, by whichever exit path and with whichever
status, has recorded exactly one `lock` followed by exactly one `unlock` and returns with
the hold counter equal to its value on entry; `init` and `deinit` always return, and on the
synchronous build so does every call. -/
theorem lock_balanced_on_every_return {σ : Type} (d : Driver σ) (cfg : Config) (fuel : Nat)
    (op : Op) (s : SDIOBlockDevice) (w : World σ) :
    (∀ r, step d cfg fuel op s w = some r →
      r.self._mutex_log = s._mutex_log ++ [MutexEvent.lock, MutexEvent.unlock] ∧
      r.self._mutex = s._mutex) ∧
    (step d cfg fuel Op.init s w).isSome = true ∧
    (step d cfg fuel Op.deinit s w).isSome = true ∧
    (cfg.DEVICE_SDIO_ASYNC = false → (step d cfg fuel op s w).isSome = true) ∧
    (s.lock._mutex = s._mutex + 1 ∧ s.lock._mutex_log = s._mutex_log ++ [MutexEvent.lock]) ∧
    (s.unlock._mutex = s._mutex - 1 ∧
      s.unlock._mutex_log = s._mutex_log ++ [MutexEvent.unlock]) := by
  refine ⟨?_, rfl, rfl, step_sync_returns d cfg fuel op s w, ⟨rfl, rfl⟩, ⟨rfl, rfl⟩⟩
  intro r h
  cases op with
  | init =>
    simp only [step, Option.some.injEq] at h
    rw [← h]; exact ⟨(init_mutex d s w).2, (init_mutex d s w).1⟩
  | deinit =>
    simp only [step, Option.some.injEq] at h
    rw [← h]; exact ⟨(deinit_mutex d s w).2, (deinit_mutex d s w).1⟩
  | read b a n =>
    simp only [step, Option.map_eq_some'] at h
    obtain ⟨rr, hr, rfl⟩ := h
    have e : rr.toRet.self = s.lock.unlock := read_self d cfg fuel s b a n w rr hr
    rw [e]; exact ⟨(unlock_lock_mutex s).2, (unlock_lock_mutex s).1⟩
  | program b a n =>
    rw [program_self d cfg fuel s b a n w r h]
    exact ⟨(unlock_lock_mutex s).2, (unlock_lock_mutex s).1⟩
  | trim a n =>
    rw [trim_self d cfg fuel s a n w r h]
    exact ⟨(unlock_lock_mutex s).2, (unlock_lock_mutex s).1⟩

/-- Witness for C13: an asynchronous read that succeeds on the initialised stub card,
whose lock had been acquired and released once by `init`, and a read that finds the card
absent on a freshly constructed adapter; the last line evaluates the record of the lock
after the first of these calls. -/
theorem lock_balanced_on_every_return_witness :
    (((step stubDriver asyncConfig 1 (Op.read [] 0 512) (readyDevice 8)
        (World.start (stubHw 8 0))).get rfl).self._mutex_log =
        [MutexEvent.lock, MutexEvent.unlock, MutexEvent.lock, MutexEvent.unlock] ∧
      ((step stubDriver asyncConfig 1 (Op.read [] 0 512) (readyDevice 8)
        (World.start (stubHw 8 0))).get rfl).self._mutex = 0) ∧
    (((step stubDriver syncConfig 0 (Op.read [] 0 512) (construct (some 3))
        (World.start (stubHw 8 1))).get rfl).self._mutex_log =
        [MutexEvent.lock, MutexEvent.unlock] ∧
      ((step stubDriver syncConfig 0 (Op.read [] 0 512) (construct (some 3))
        (World.start (stubHw 8 1))).get rfl).self._mutex = 0) ∧
    ((readyDevice 8).read stubDriver asyncConfig 1 [] 0 512 (World.start (stubHw 8 0))).map
        (fun r => (r.status, r.self._mutex, r.self._mutex_log)) =
      some (0, 0, [MutexEvent.lock, MutexEvent.unlock, MutexEvent.lock, MutexEvent.unlock]) :=
  ⟨(lock_balanced_on_every_return stubDriver asyncConfig 1 (Op.read [] 0 512) (readyDevice 8)
      (World.start (stubHw 8 0))).1
      ((step stubDriver asyncConfig 1 (Op.read [] 0 512) (readyDevice 8)
        (World.start (stubHw 8 0))).get rfl) rfl,
   (lock_balanced_on_every_return stubDriver syncConfig 0 (Op.read [] 0 512)
      (construct (some 3)) (World.start (stubHw 8 1))).1
      ((step stubDriver syncConfig 0 (Op.read [] 0 512) (construct (some 3))
        (World.start (stubHw 8 1))).get rfl) rfl,
   rfl⟩

/-! ## Outcomes of `init` and `deinit` -/

/-- C14: a first `init` (the adapter is reachable and not initialised, so the
post-increment count is 1).  Card absent: `SDIO_BLOCK_DEVICE_ERROR_NO_DEVICE`, no driver
primitive, still uninitialised.  Card present and `sdio_init` non-zero:
`BD_ERROR_DEVICE_ERROR`, only `sdio_init` invoked, still uninitialised with
`sector_count = 0`.  Card present, `sdio_init` zero and a reported block size of 512:
status 0, initialised, `sector_count` equal to the reported `log_block_count`. -/
theorem first_init_outcomes {σ : Type} (d : Driver σ) (cfg : Config) (s : SDIOBlockDevice)
    (w : World σ) (hr : Reachable d cfg s) (hi : s._is_initialized = false) :
    (s.init d w).self._init_ref_count = 1 ∧
    ((is_present d s w).1 = false →
      (s.init d w).status = SDIO_BLOCK_DEVICE_ERROR_NO_DEVICE ∧
      (s.init d w).world.calls = w.calls ∧
      (s.init d w).self._is_initialized = false) ∧
    ((is_present d s w).1 = true → (d.sdio_init (is_present d s w).2.hw).1 ≠ 0 →
      (s.init d w).status = BD_ERROR_DEVICE_ERROR ∧
      (s.init d w).world.calls = w.calls ++ [Call.sdio_init] ∧
      (s.init d w).self._is_initialized = false ∧
      (s.init d w).self._sectors = 0) ∧
    ((is_present d s w).1 = true → (d.sdio_init (is_present d s w).2.hw).1 = 0 →
      (get_card_info d (invoke Call.sdio_init d.sdio_init (is_present d s w).2).2).1.block_size
        = 512 →
      (s.init d w).status = 0 ∧
      (s.init d w).world.calls = w.calls ++ [Call.sdio_init, Call.sdio_get_card_info] ∧
      (s.init d w).self._is_initialized = true ∧
      (s.init d w).self._sectors =
        (get_card_info d (invoke Call.sdio_init d.sdio_init
          (is_present d s w).2).2).1.log_block_count) := by
  have hsec := (wellFormed_of_reachable d cfg s hr).2.2.2.1 hi
  rw [init_of_uninitialized d s w hi]
  refine ⟨?_, ?_, ?_, ?_⟩
  · split_ifs <;> rfl
  · intro hp
    simp [hp, hi, is_present_calls, lock, unlock]
  · intro hp h0
    simp [hp, h0, hi, hsec, invoke, is_present_calls, lock, unlock]
  · intro hp h0 hb
    have hb' : (get_card_info d (invoke Call.sdio_init d.sdio_init
        (is_present d s w).2).2).1.block_size = BLOCK_SIZE_HC := hb
    simp only [hp, h0, hb', Bool.true_eq_false, if_false, ne_eq, not_true_eq_false, if_true]
    simp [invoke, get_card_info, is_present_calls, lock, unlock]

/-- Witness for C14: the three outcomes on the stub card, with the card absent, with a
failing `sdio_init`, and with a successful `sdio_init`. -/
theorem first_init_outcomes_witness :
    (((construct (some 3)).init stubDriver (World.start (stubHw 8 1))).status
        = SDIO_BLOCK_DEVICE_ERROR_NO_DEVICE ∧
      ((construct (some 3)).init stubDriver (World.start (stubHw 8 1))).world.calls = [] ∧
      ((construct (some 3)).init stubDriver (World.start (stubHw 8 1))).self._is_initialized
        = false) ∧
    (((construct none).init failingDriver (World.start (stubHw 8 0))).status
        = BD_ERROR_DEVICE_ERROR ∧
      ((construct none).init failingDriver (World.start (stubHw 8 0))).world.calls
        = [Call.sdio_init] ∧
      ((construct none).init failingDriver (World.start (stubHw 8 0))).self._is_initialized
        = false ∧
      ((construct none).init failingDriver (World.start (stubHw 8 0))).self._sectors = 0) ∧
    (((construct none).init stubDriver (World.start (stubHw 8 0))).status = 0 ∧
      ((construct none).init stubDriver (World.start (stubHw 8 0))).world.calls
        = [Call.sdio_init, Call.sdio_get_card_info] ∧
      ((construct none).init stubDriver (World.start (stubHw 8 0))).self._is_initialized
        = true ∧
      ((construct none).init stubDriver (World.start (stubHw 8 0))).self._sectors = 8) :=
  ⟨(first_init_outcomes stubDriver syncConfig (construct (some 3)) (World.start (stubHw 8 1))
      (Reachable.construct (some 3)) rfl).2.1 rfl,
   (first_init_outcomes failingDriver syncConfig (construct none) (World.start (stubHw 8 0))
      (Reachable.construct none) rfl).2.2.1 rfl (by decide),
   (first_init_outcomes stubDriver syncConfig (construct none) (World.start (stubHw 8 0))
      (Reachable.construct none) rfl).2.2.2 rfl rfl rfl⟩

theorem read_status_of_initialized {σ : Type} (d : Driver σ) (cfg : Config) (fuel : Nat)
    (s : SDIOBlockDevice) (buffer : List uint8_t) (addr size : Nat) (w : World σ)
    (r : ReadRet σ) (hi : s._is_initialized = true)
    (h : s.read d cfg fuel buffer addr size w = some r) :
    r.status ≠ SDIO_BLOCK_DEVICE_ERROR_NO_INIT := by
  have hl : s.lock._is_initialized = true := hi
  unfold SDIOBlockDevice.read at h
  simp only [hl, Bool.not_true, Bool.false_eq_true, if_false] at h
  repeat' split at h
  all_goals first
    | contradiction
    | (simp only [Option.some.injEq] at h
       subst h
       simp_all [MSD_OK, SDIO_BLOCK_DEVICE_ERROR_NO_INIT, SDIO_BLOCK_DEVICE_ERROR_NO_DEVICE,
         SDIO_BLOCK_DEVICE_ERROR_PARAMETER, SDIO_BLOCK_DEVICE_ERROR_READ_BLOCKS,
         SDIO_BLOCK_DEVICE_ERROR_WRITE_BLOCKS, SDIO_BLOCK_DEVICE_ERROR_ERASE_BLOCKS])

theorem program_status_of_initialized {σ : Type} (d : Driver σ) (cfg : Config) (fuel : Nat)
    (s : SDIOBlockDevice) (buffer : List uint8_t) (addr size : Nat) (w : World σ)
    (r : Ret σ) (hi : s._is_initialized = true)
    (h : s.program d cfg fuel buffer addr size w = some r) :
    r.status ≠ SDIO_BLOCK_DEVICE_ERROR_NO_INIT := by
  have hl : s.lock._is_initialized = true := hi
  unfold program at h
  simp only [hl, Bool.not_true, Bool.false_eq_true, if_false] at h
  repeat' split at h
  all_goals first
    | contradiction
    | (simp only [Option.some.injEq] at h
       subst h
       simp_all [MSD_OK, SDIO_BLOCK_DEVICE_ERROR_NO_INIT, SDIO_BLOCK_DEVICE_ERROR_NO_DEVICE,
         SDIO_BLOCK_DEVICE_ERROR_PARAMETER, SDIO_BLOCK_DEVICE_ERROR_READ_BLOCKS,
         SDIO_BLOCK_DEVICE_ERROR_WRITE_BLOCKS, SDIO_BLOCK_DEVICE_ERROR_ERASE_BLOCKS])

theorem trim_status_of_initialized {σ : Type} (d : Driver σ) (cfg : Config) (fuel : Nat)
    (s : SDIOBlockDevice) (addr size : Nat) (w : World σ)
    (r : Ret σ) (hi : s._is_initialized = true)
    (h : s.trim d cfg fuel addr size w = some r) :
    r.status ≠ SDIO_BLOCK_DEVICE_ERROR_NO_INIT := by
  have hl : s.lock._is_initialized = true := hi
  unfold trim at h
  simp only [hl, Bool.not_true, Bool.false_eq_true, if_false] at h
  repeat' split at h
  all_goals first
    | contradiction
    | (simp only [Option.some.injEq] at h
       subst h
       simp_all [MSD_OK, SDIO_BLOCK_DEVICE_ERROR_NO_INIT, SDIO_BLOCK_DEVICE_ERROR_NO_DEVICE,
         SDIO_BLOCK_DEVICE_ERROR_PARAMETER, SDIO_BLOCK_DEVICE_ERROR_READ_BLOCKS,
         SDIO_BLOCK_DEVICE_ERROR_WRITE_BLOCKS, SDIO_BLOCK_DEVICE_ERROR_ERASE_BLOCKS])

/-- C15: a first `init` with the card present and `sdio_init` returning 0 whose card
information reports a block size other than 512 returns
`SDIO_BLOCK_DEVICE_ERROR_UNSUPPORTED_BLOCKSIZE` and leaves the adapter initialised with
`init_ref_count = 1` and `sector_count` equal to the reported `log_block_count`; a
following `read`, `program` or `trim` never returns `SDIO_BLOCK_DEVICE_ERROR_NO_INIT`,
and a following `deinit` invokes `sdio_deinit`. -/
theorem unsupported_block_size_leaves_initialized {σ : Type} (d : Driver σ) (cfg : Config)
    (fuel : Nat) (s : SDIOBlockDevice) (w : World σ)
    (hi : s._is_initialized = false) (hp : (is_present d s w).1 = true)
    (h0 : (d.sdio_init (is_present d s w).2.hw).1 = 0)
    (hb : (get_card_info d (invoke Call.sdio_init d.sdio_init
      (is_present d s w).2).2).1.block_size ≠ 512) :
    (s.init d w).status = SDIO_BLOCK_DEVICE_ERROR_UNSUPPORTED_BLOCKSIZE ∧
    (s.init d w).self._is_initialized = true ∧
    (s.init d w).self._init_ref_count = 1 ∧
    (s.init d w).self._sectors =
      (get_card_info d (invoke Call.sdio_init d.sdio_init
        (is_present d s w).2).2).1.log_block_count ∧
    (∀ (buffer : List uint8_t) (addr size : Nat) (w' : World σ),
      (∀ r, (s.init d w).self.read d cfg fuel buffer addr size w' = some r →
        r.status ≠ SDIO_BLOCK_DEVICE_ERROR_NO_INIT) ∧
      (∀ r, (s.init d w).self.program d cfg fuel buffer addr size w' = some r →
        r.status ≠ SDIO_BLOCK_DEVICE_ERROR_NO_INIT) ∧
      (∀ r, (s.init d w).self.trim d cfg fuel addr size w' = some r →
        r.status ≠ SDIO_BLOCK_DEVICE_ERROR_NO_INIT)) ∧
    (∀ w' : World σ,
      ((s.init d w).self.deinit d w').world.calls = w'.calls ++ [Call.sdio_deinit] ∧
      ((s.init d w).self.deinit d w').status = (d.sdio_deinit w'.hw).1) := by
  have hb' : ¬ (get_card_info d (invoke Call.sdio_init d.sdio_init
      (is_present d s w).2).2).1.block_size = BLOCK_SIZE_HC := hb
  have e := init_of_uninitialized d s w hi
  simp only [hp, h0, hb', Bool.true_eq_false, if_false, ne_eq, not_true_eq_false] at e
  have e1 : (s.init d w).self._is_initialized = true := by rw [e]; rfl
  have e2 : (s.init d w).self._init_ref_count = 1 := by rw [e]; rfl
  refine ⟨by rw [e], e1, e2, by rw [e]; rfl, ?_, ?_⟩
  · intro buffer addr size w'
    exact ⟨fun r h => read_status_of_initialized d cfg fuel _ buffer addr size w' r e1 h,
      fun r h => program_status_of_initialized d cfg fuel _ buffer addr size w' r e1 h,
      fun r h => trim_status_of_initialized d cfg fuel _ addr size w' r e1 h⟩
  · intro w'
    rw [deinit_of_last d _ w' e1 e2]
    exact ⟨rfl, rfl⟩

/-- Witness for C15: the stub card that reports blocks of 1024 bytes. -/
theorem unsupported_block_size_leaves_initialized_witness :
    ((construct none).init stubDriver (World.start largeBlockHw)).status
      = SDIO_BLOCK_DEVICE_ERROR_UNSUPPORTED_BLOCKSIZE ∧
    ((construct none).init stubDriver (World.start largeBlockHw)).self._is_initialized
      = true ∧
    ((construct none).init stubDriver (World.start largeBlockHw)).self._init_ref_count = 1 ∧
    ((construct none).init stubDriver (World.start largeBlockHw)).self._sectors = 8 ∧
    (((construct none).init stubDriver (World.start largeBlockHw)).self.deinit stubDriver
        (World.start largeBlockHw)).world.calls = [Call.sdio_deinit] :=
  ⟨(unsupported_block_size_leaves_initialized stubDriver syncConfig 0 (construct none)
      (World.start largeBlockHw) rfl rfl rfl (by decide)).1,
   (unsupported_block_size_leaves_initialized stubDriver syncConfig 0 (construct none)
      (World.start largeBlockHw) rfl rfl rfl (by decide)).2.1,
   (unsupported_block_size_leaves_initialized stubDriver syncConfig 0 (construct none)
      (World.start largeBlockHw) rfl rfl rfl (by decide)).2.2.1,
   (unsupported_block_size_leaves_initialized stubDriver syncConfig 0 (construct none)
      (World.start largeBlockHw) rfl rfl rfl (by decide)).2.2.2.1,
   ((unsupported_block_size_leaves_initialized stubDriver syncConfig 0 (construct none)
      (World.start largeBlockHw) rfl rfl rfl (by decide)).2.2.2.2.2
      (World.start largeBlockHw)).1⟩

/-- C16: on every adapter state with `initialized = false`, `deinit` returns
`BD_ERROR_OK`, invokes no driver primitive (the world is unchanged), sets
`init_ref_count` to 0 and changes nothing else but the record of the lock, which gains one
`lock` and one `unlock`, so `initialized` stays false and `sector_count` is unchanged; a
second `deinit` returns the same status and world and the same state, the lock acquired
and released once more. -/
theorem deinit_uninitialized_idempotent {σ : Type} (d : Driver σ) (s : SDIOBlockDevice)
    (w : World σ) (hi : s._is_initialized = false) :
    (s.deinit d w).status = BD_ERROR_OK ∧
    (s.deinit d w).world = w ∧
    (s.deinit d w).self =
      { s with
        _init_ref_count := 0
        _mutex_log := s._mutex_log ++ [MutexEvent.lock, MutexEvent.unlock] } ∧
    (s.deinit d w).self._init_ref_count = 0 ∧
    (s.deinit d w).self._is_initialized = false ∧
    (s.deinit d w).self._sectors = s._sectors ∧
    (s.deinit d w).self.deinit d (s.deinit d w).world =
      ⟨(s.deinit d w).status, (s.deinit d w).self.lock.unlock, (s.deinit d w).world⟩ := by
  have e := deinit_of_uninitialized d s w hi
  have e2 := deinit_of_uninitialized d
    ({ s with _init_ref_count := 0 } : SDIOBlockDevice).lock.unlock w hi
  refine ⟨by rw [e], by rw [e], ?_, by rw [e]; rfl, by rw [e]; exact hi, by rw [e]; rfl, ?_⟩
  · rw [e]
    cases s
    simp [lock, unlock]
  · rw [e]
    exact e2

/-- Witness for C16: the freshly constructed adapter. -/
theorem deinit_uninitialized_idempotent_witness :
    ((construct none).deinit stubDriver (World.start (stubHw 8 0))).status = BD_ERROR_OK ∧
    ((construct none).deinit stubDriver (World.start (stubHw 8 0))).world
      = World.start (stubHw 8 0) ∧
    ((construct none).deinit stubDriver (World.start (stubHw 8 0))).self
      = { construct none with
          _init_ref_count := 0
          _mutex_log := [MutexEvent.lock, MutexEvent.unlock] } ∧
    ((construct none).deinit stubDriver (World.start (stubHw 8 0))).self._init_ref_count = 0 ∧
    ((construct none).deinit stubDriver (World.start (stubHw 8 0))).self._is_initialized
      = false ∧
    ((construct none).deinit stubDriver (World.start (stubHw 8 0))).self._sectors
      = (construct none)._sectors ∧
    ((construct none).deinit stubDriver (World.start (stubHw 8 0))).self.deinit stubDriver
        ((construct none).deinit stubDriver (World.start (stubHw 8 0))).world
      = ⟨BD_ERROR_OK,
          { construct none with
            _init_ref_count := 0
            _mutex_log :=
              [MutexEvent.lock, MutexEvent.unlock, MutexEvent.lock, MutexEvent.unlock] },
          World.start (stubHw 8 0)⟩ :=
  deinit_uninitialized_idempotent stubDriver (construct none) (World.start (stubHw 8 0)) rfl

/-- C17: `deinit` on an initialised adapter whose `init_ref_count` is 1 invokes
`sdio_deinit` exactly once and nothing else, returns exactly the status `sdio_deinit`
returned, whatever it is, and leaves `initialized = false`, `sector_count = 0` and
`init_ref_count = 0`. -/
theorem final_deinit_propagates_status {σ : Type} (d : Driver σ) (s : SDIOBlockDevice)
    (w : World σ) (st : Int) (hi : s._is_initialized = true) (hc : s._init_ref_count = 1)
    (hst : (d.sdio_deinit w.hw).1 = st) :
    (s.deinit d w).status = st ∧
    (s.deinit d w).world.calls = w.calls ++ [Call.sdio_deinit] ∧
    (s.deinit d w).world.hw = (d.sdio_deinit w.hw).2 ∧
    (s.deinit d w).self._is_initialized = false ∧
    (s.deinit d w).self._sectors = 0 ∧
    (s.deinit d w).self._init_ref_count = 0 := by
  rw [deinit_of_last d s w hi hc]
  exact ⟨hst, rfl, rfl, rfl, rfl, rfl⟩

/-- Witness for C17: the final `deinit` on the initialised stub card, whose `sdio_deinit`
returns 0. -/
theorem final_deinit_propagates_status_witness :
    ((readyDevice 8).deinit stubDriver (World.start (stubHw 8 0))).status = 0 ∧
    ((readyDevice 8).deinit stubDriver (World.start (stubHw 8 0))).world.calls
      = (World.start (stubHw 8 0)).calls ++ [Call.sdio_deinit] ∧
    ((readyDevice 8).deinit stubDriver (World.start (stubHw 8 0))).world.hw
      = (stubDriver.sdio_deinit (World.start (stubHw 8 0)).hw).2 ∧
    ((readyDevice 8).deinit stubDriver (World.start (stubHw 8 0))).self._is_initialized
      = false ∧
    ((readyDevice 8).deinit stubDriver (World.start (stubHw 8 0))).self._sectors = 0 ∧
    ((readyDevice 8).deinit stubDriver (World.start (stubHw 8 0))).self._init_ref_count = 0 :=
  final_deinit_propagates_status stubDriver (readyDevice 8) (World.start (stubHw 8 0)) 0
    rfl rfl rfl

/-! ## Destruction -/

/-- What the destructor does: nothing on an uninitialised adapter; on an initialised
adapter whose reference count is 1 it invokes `sdio_deinit` and leaves the adapter
uninitialised; on an initialised adapter whose reference count is at least 2 it only
decrements the count, invokes no driver primitive and leaves the adapter initialised. -/
theorem destructor_outcomes {σ : Type} (d : Driver σ) (s : SDIOBlockDevice) (w : World σ) :
    (s._is_initialized = false → destructor d s w = (s, w)) ∧
    (s._is_initialized = true → s._init_ref_count = 1 →
      (destructor d s w).1._is_initialized = false ∧
      (destructor d s w).2.calls = w.calls ++ [Call.sdio_deinit]) ∧
    (s._is_initialized = true → 2 ≤ s._init_ref_count →
      (destructor d s w).1._is_initialized = true ∧
      (destructor d s w).1._init_ref_count = s._init_ref_count - 1 ∧
      (destructor d s w).2 = w) := by
  refine ⟨?_, ?_, ?_⟩
  · intro hi
    simp [destructor, hi]
  · intro hi hc
    simp [destructor, hi, deinit_of_last d s w hi hc, lock, unlock]
  · intro hi hc
    simp [destructor, hi, deinit_of_shared d s w hi hc, lock, unlock]

/-- C18 (failing input): the adapter on which `init` was called twice is reachable and
initialised, with reference count 2; destroying it invokes no driver primitive (in
particular not `sdio_deinit`) and it is still initialised, with reference count 1, when
the destructor returns. -/
theorem destructor_after_two_inits_skips_teardown :
    Reachable stubDriver syncConfig (twiceReadyDevice 8) ∧
    (twiceReadyDevice 8)._is_initialized = true ∧
    (twiceReadyDevice 8)._init_ref_count = 2 ∧
    (destructor stubDriver (twiceReadyDevice 8) (World.start (stubHw 8 0))).2.calls = [] ∧
    (destructor stubDriver (twiceReadyDevice 8)
      (World.start (stubHw 8 0))).1._is_initialized = true ∧
    (destructor stubDriver (twiceReadyDevice 8)
      (World.start (stubHw 8 0))).1._init_ref_count = 1 :=
  ⟨Reachable.call 0 Op.init (readyDevice 8) (World.start (stubHw 8 0)) _
      (Reachable.call 0 Op.init (construct none) (World.start (stubHw 8 0)) _
        (Reachable.construct none) rfl) rfl,
    rfl, rfl, rfl, rfl, rfl⟩

/-! ## Erase -/

theorem wait_until_card_state_calls {σ : Type} (d : Driver σ) (timeout tickstart : Nat) :
    ∀ (fuel : Nat) (w : World σ) (b : Bool) (w' : World σ),
      wait_until d (poll_card_state d) timeout tickstart fuel w = some (b, w') →
      ∃ k, w'.calls = w.calls ++ List.replicate k Call.sdio_get_card_state := by
  intro fuel
  induction fuel with
  | zero => intro w b w' h; simp [wait_until] at h
  | succ fuel ih =>
    intro w b w' h
    simp only [wait_until] at h
    split_ifs at h with h1 h2
    · simp only [Option.some.injEq, Prod.mk.injEq] at h
      refine ⟨1, ?_⟩
      rw [← h.2]
      simp [us_ticker_read, poll_card_state, invoke]
    · obtain ⟨k, hk⟩ := ih _ b w' h
      refine ⟨k + 1, ?_⟩
      rw [hk]
      simp [us_ticker_read, poll_card_state, invoke, List.replicate_succ]
    · simp only [Option.some.injEq, Prod.mk.injEq] at h
      refine ⟨1, ?_⟩
      rw [← h.2]
      simp [poll_card_state, invoke]

/-- The arguments `trim` hands to `sdio_erase`: for a valid request on an initialised
present adapter, every return of `trim` has logged exactly one `sdio_erase`, with the
start block `addr / block_size` and the block count `size / block_size`, followed only by
card-state polls; on the synchronous build `trim` returns and there is no poll. -/
theorem trim_erase_arguments {σ : Type} (d : Driver σ) (cfg : Config) (fuel : Nat)
    (s : SDIOBlockDevice) (addr size : Nat) (w : World σ)
    (hp : (is_present d s w).1 = true) (hi : s._is_initialized = true)
    (hv : s._is_valid_trim addr size = true) :
    (∀ r, s.trim d cfg fuel addr size w = some r →
      ∃ k, r.world.calls = w.calls ++
        Call.sdio_erase (u32 (addr / s._block_size)) (u32 (size / s._block_size)) ::
          List.replicate k Call.sdio_get_card_state) ∧
    (cfg.DEVICE_SDIO_ASYNC = false →
      (s.trim d cfg fuel addr size w).map (fun r => r.world.calls) =
        some (w.calls ++
          [Call.sdio_erase (u32 (addr / s._block_size)) (u32 (size / s._block_size))])) := by
  constructor
  · intro r h
    simp only [trim, is_present_lock, hp, hi, hv, lock_is_initialized, lock_is_valid_trim,
      lock_block_size, unlock_lock, Bool.true_eq_false, beq_iff_eq, if_false, Bool.not_true,
      Bool.false_eq_true] at h
    split_ifs at h with h1 h2
    · simp only [Option.some.injEq] at h
      exact ⟨0, by rw [← h]; simp [invoke, is_present_calls]⟩
    · cases hw : wait_phase d cfg (poll_card_state d) fuel
          (invoke (Call.sdio_erase (u32 (addr / s._block_size)) (u32 (size / s._block_size)))
            (d.sdio_erase (u32 (addr / s._block_size)) (u32 (size / s._block_size)))
            (is_present d s w).2).2 with
      | none => rw [hw] at h; cases h
      | some p =>
        rcases p with ⟨b, w1⟩
        obtain ⟨k, hk⟩ := wait_until_card_state_calls d _ _ fuel _ b w1 hw
        refine ⟨k, ?_⟩
        rw [hw] at h
        cases b <;>
        · simp only [Option.some.injEq] at h
          rw [← h]
          simp [hk, us_ticker_read, invoke, is_present_calls]
    · simp only [Option.some.injEq] at h
      exact ⟨0, by rw [← h]; simp [invoke, is_present_calls]⟩
  · intro hsync
    simp only [trim, is_present_lock, hp, hi, hv, lock_is_initialized, lock_is_valid_trim,
      lock_block_size, unlock_lock, Bool.true_eq_false, beq_iff_eq, if_false, Bool.not_true,
      Bool.false_eq_true, hsync]
    split_ifs <;> simp [invoke, is_present_calls]

/-- C19 (failing input): `trim(1024, 512)` on the initialised stub card of 8 blocks is
valid and invokes `sdio_erase(2, 1)`: the second argument is the block count
`size / block_size = 1`, not the end of the range `(addr + size) / block_size = 3`; a
driver that reads the pair as (start, end), as `sdio_erase` of the LPC55S69 target does,
computes from it a count of 8388607 blocks. -/
theorem trim_passes_block_count_not_range_end :
    (readyDevice 8)._is_valid_trim 1024 512 = true ∧
    ((readyDevice 8).trim stubDriver syncConfig 0 1024 512 (World.start (stubHw 8 0))).map
      (fun r => (r.status, r.world.calls)) = some (0, [Call.sdio_erase 2 1]) ∧
    ((readyDevice 8).trim stubDriver asyncConfig 1 1024 512 (World.start (stubHw 8 0))).map
      (fun r => (r.status, r.world.calls)) =
        some (0, [Call.sdio_erase 2 1, Call.sdio_get_card_state]) ∧
    1024 / (readyDevice 8)._block_size = 2 ∧
    512 / (readyDevice 8)._block_size = 1 ∧
    (1024 + 512) / (readyDevice 8)._block_size = 3 ∧
    TARGET_NXP_erase_blocks 512 2 1 = 8388607 := by
  refine ⟨rfl, rfl, rfl, rfl, rfl, rfl, rfl⟩

/-! ## Tick arithmetic -/

/-- C20: the 32-bit difference `current - start` computed by the timeout test is the true
elapsed duration across one wrap of the counter: for every start tick `s < 2^32` and
every elapsed duration `e < 2^32`, with the current tick `(s + e) mod 2^32` the computed
difference is `e`, so the test `difference >= timeout` holds exactly when
`e >= timeout`; accordingly an iteration of the wait loop whose poll is not
`SD_TRANSFER_OK` and whose ticker reading is `(s + e) mod 2^32` leaves the loop with the
timeout result when `e >= timeout` and goes on to the next iteration otherwise. -/
theorem tick_difference_wraparound_safe {σ : Type} (drv : Driver σ)
    (poll : World σ → Int × World σ) (timeout s e fuel : Nat) (w : World σ)
    (hs : s < 2 ^ 32) (he : e < 2 ^ 32) :
    u32 (u32 (s + e) + 2 ^ 32 - s) = e ∧
    (timeout ≤ u32 (u32 (s + e) + 2 ^ 32 - s) ↔ timeout ≤ e) ∧
    ((poll w).1 ≠ SD_TRANSFER_OK → (us_ticker_read drv (poll w).2).1 = u32 (s + e) →
      (timeout ≤ e →
        wait_until drv poll timeout s (fuel + 1) w =
          some (false, (us_ticker_read drv (poll w).2).2)) ∧
      (e < timeout →
        wait_until drv poll timeout s (fuel + 1) w =
          wait_until drv poll timeout s fuel (us_ticker_read drv (poll w).2).2)) := by
  have key : u32 (u32 (s + e) + 2 ^ 32 - s) = e := by
    unfold u32
    omega
  refine ⟨key, by rw [key], ?_⟩
  intro hpoll hread
  constructor
  · intro ht
    have h2 : timeout ≤ u32 ((us_ticker_read drv (poll w).2).1 + 2 ^ 32 - s) := by
      rw [hread, key]; exact ht
    simp only [wait_until, bne_iff_ne, ne_eq, hpoll, not_false_eq_true, if_true, ge_iff_le, h2]
  · intro ht
    have h2 : ¬ timeout ≤ u32 ((us_ticker_read drv (poll w).2).1 + 2 ^ 32 - s) := by
      rw [hread, key]; omega
    simp only [wait_until, bne_iff_ne, ne_eq, hpoll, not_false_eq_true, if_true, ge_iff_le, h2,
      if_false]

/-- Witness for C20: a wait that began at tick `2^32 - 1000`, polled 31000 ticks later,
after the counter has wrapped; the timeout of 30000 fires. -/
theorem tick_difference_wraparound_safe_witness :
    u32 (u32 (4294966296 + 31000) + 2 ^ 32 - 4294966296) = 31000 ∧
    (30000 ≤ u32 (u32 (4294966296 + 31000) + 2 ^ 32 - 4294966296) ↔ 30000 ≤ 31000) ∧
    wait_until busyDriver (poll_card_state busyDriver) 30000 4294966296 (0 + 1)
        (World.start ⟨fun _ => [], 0, 30000, cardInfo 8⟩) =
      some (false, (us_ticker_read busyDriver (poll_card_state busyDriver
        (World.start ⟨fun _ => [], 0, 30000, cardInfo 8⟩)).2).2) :=
  ⟨(tick_difference_wraparound_safe busyDriver (poll_card_state busyDriver) 30000 4294966296
      31000 0 (World.start ⟨fun _ => [], 0, 30000, cardInfo 8⟩) (by decide) (by decide)).1,
   (tick_difference_wraparound_safe busyDriver (poll_card_state busyDriver) 30000 4294966296
      31000 0 (World.start ⟨fun _ => [], 0, 30000, cardInfo 8⟩) (by decide) (by decide)).2.1,
   ((tick_difference_wraparound_safe busyDriver (poll_card_state busyDriver) 30000 4294966296
      31000 0 (World.start ⟨fun _ => [], 0, 30000, cardInfo 8⟩) (by decide) (by decide)).2.2
      (by decide) rfl).1 (by decide)⟩

/-! ## Outcomes of `trim` -/

theorem trim_unfold {σ : Type} (d : Driver σ) (cfg : Config) (fuel : Nat)
    (s : SDIOBlockDevice) (addr size : Nat) (w : World σ)
    (hp : (is_present d s w).1 = true) (hi : s._is_initialized = true)
    (hv : s._is_valid_trim addr size = true) :
    s.trim d cfg fuel addr size w =
      if (start_erase d s addr size (is_present d s w).2).1 ≠ 0 then
        some ⟨SDIO_BLOCK_DEVICE_ERROR_ERASE_BLOCKS, s.lock.unlock,
          (start_erase d s addr size (is_present d s w).2).2⟩
      else if cfg.DEVICE_SDIO_ASYNC = true then
        match wait_phase d cfg (poll_card_state d) fuel
            (start_erase d s addr size (is_present d s w).2).2 with
        | none => none
        | some (false, w1) => some ⟨SDIO_BLOCK_DEVICE_ERROR_ERASE_BLOCKS, s.lock.unlock, w1⟩
        | some (true, w1) => some ⟨0, s.lock.unlock, w1⟩
      else
        some ⟨0, s.lock.unlock, (start_erase d s addr size (is_present d s w).2).2⟩ := by
  simp only [trim, is_present_lock, hp, hi, hv, lock_is_initialized, lock_is_valid_trim,
    lock_block_size, Bool.true_eq_false, beq_iff_eq, if_false, Bool.not_true,
    Bool.false_eq_true, start_erase, bne_iff_ne, ne_eq]
  by_cases h : (invoke
      (Call.sdio_erase (u32 (addr / s._block_size)) (u32 (size / s._block_size)))
      (d.sdio_erase (u32 (addr / s._block_size)) (u32 (size / s._block_size)))
      (is_present d s w).2).1 = 0
  · simp only [h, not_true_eq_false, if_false]
  · simp only [h, not_false_eq_true, if_true]

/-- C21: for a valid `trim` on an initialised present adapter: a non-zero status of
`sdio_erase` makes `trim` return `SDIO_BLOCK_DEVICE_ERROR_ERASE_BLOCKS` in the world
`sdio_erase` left, with no card-state poll; a zero status makes `trim` return 0 on the
synchronous build, again without a poll; on the asynchronous build one wait phase
follows, and `trim` returns 0 when that wait ends with the card ready and
`SDIO_BLOCK_DEVICE_ERROR_ERASE_BLOCKS` when its timeout test fires, and has not returned
only while that wait is still running. -/
theorem trim_outcomes {σ : Type} (d : Driver σ) (cfg : Config) (fuel : Nat)
    (s : SDIOBlockDevice) (addr size : Nat) (w : World σ)
    (hp : (is_present d s w).1 = true) (hi : s._is_initialized = true)
    (hv : s._is_valid_trim addr size = true) :
    (start_erase d s addr size (is_present d s w).2).2.calls =
      w.calls ++ [Call.sdio_erase (u32 (addr / s._block_size)) (u32 (size / s._block_size))] ∧
    ((start_erase d s addr size (is_present d s w).2).1 ≠ 0 →
      s.trim d cfg fuel addr size w =
        some ⟨SDIO_BLOCK_DEVICE_ERROR_ERASE_BLOCKS, s.lock.unlock,
          (start_erase d s addr size (is_present d s w).2).2⟩) ∧
    ((start_erase d s addr size (is_present d s w).2).1 = 0 →
      cfg.DEVICE_SDIO_ASYNC = false →
      s.trim d cfg fuel addr size w =
        some ⟨0, s.lock.unlock, (start_erase d s addr size (is_present d s w).2).2⟩) ∧
    ((start_erase d s addr size (is_present d s w).2).1 = 0 →
      cfg.DEVICE_SDIO_ASYNC = true →
      (∀ w1, wait_phase d cfg (poll_card_state d) fuel
          (start_erase d s addr size (is_present d s w).2).2 = some (true, w1) →
        s.trim d cfg fuel addr size w = some ⟨0, s.lock.unlock, w1⟩) ∧
      (∀ w1, wait_phase d cfg (poll_card_state d) fuel
          (start_erase d s addr size (is_present d s w).2).2 = some (false, w1) →
        s.trim d cfg fuel addr size w =
          some ⟨SDIO_BLOCK_DEVICE_ERROR_ERASE_BLOCKS, s.lock.unlock, w1⟩) ∧
      (wait_phase d cfg (poll_card_state d) fuel
          (start_erase d s addr size (is_present d s w).2).2 = none ↔
        s.trim d cfg fuel addr size w = none)) := by
  rw [trim_unfold d cfg fuel s addr size w hp hi hv]
  refine ⟨?_, ?_, ?_, ?_⟩
  · simp [start_erase, invoke, is_present_calls]
  · intro h
    simp only [h, ne_eq, not_false_eq_true, if_true]
  · intro h hs
    simp [h, hs]
  · intro h ha
    simp only [h, ne_eq, not_true_eq_false, if_false, ha, if_true]
    refine ⟨?_, ?_, ?_⟩
    · intro w1 hw; rw [hw]
    · intro w1 hw; rw [hw]
    · cases wait_phase d cfg (poll_card_state d) fuel
          (start_erase d s addr size (is_present d s w).2).2 with
      | none => simp
      | some p =>
        rcases p with ⟨b, w1⟩
        cases b <;> simp

/-- Witness for C21: a one-block `trim` on the initialised stub card, on the synchronous
and on the asynchronous build. -/
theorem trim_outcomes_witness :
    (readyDevice 8).trim stubDriver syncConfig 0 1024 512 (World.start (stubHw 8 0)) =
      some ⟨0, (readyDevice 8).lock.unlock,
        (start_erase stubDriver (readyDevice 8) 1024 512
          (is_present stubDriver (readyDevice 8) (World.start (stubHw 8 0))).2).2⟩ ∧
    (readyDevice 8).trim stubDriver asyncConfig 1 1024 512 (World.start (stubHw 8 0)) =
      some ⟨0, (readyDevice 8).lock.unlock,
        ⟨⟨fun _ => [], 0, 1, cardInfo 8⟩, [Call.sdio_erase 2 1, Call.sdio_get_card_state]⟩⟩ :=
  ⟨(trim_outcomes stubDriver syncConfig 0 (readyDevice 8) 1024 512 (World.start (stubHw 8 0))
      rfl rfl rfl).2.2.1 rfl rfl,
   ((trim_outcomes stubDriver asyncConfig 1 (readyDevice 8) 1024 512
      (World.start (stubHw 8 0)) rfl rfl rfl).2.2.2 rfl rfl).1 _ rfl⟩

/-! ## Address translation -/

theorem sync_transfer_calls {σ : Type} (d : Driver σ) (cfg : Config) (fuel : Nat)
    (s : SDIOBlockDevice) (buffer : List uint8_t) (addr size : Nat) (w : World σ)
    (hsync : cfg.DEVICE_SDIO_ASYNC = false)
    (hp : (is_present d s w).1 = true) (hi : s._is_initialized = true)
    (hv : s.is_valid_read addr size = true) :
    (s.read d cfg fuel buffer addr size w).map (fun r => r.world.calls) =
      some (w.calls ++
        [Call.sdio_read_blocks (u32 (addr / s._block_size)) (u32 (size / s._block_size))]) ∧
    (s.program d cfg fuel buffer addr size w).map (fun r => r.world.calls) =
      some (w.calls ++
        [Call.sdio_write_blocks (u32 (addr / s._block_size)) (u32 (size / s._block_size))]) := by
  have hv2 : s.is_valid_program addr size = true := hv
  constructor
  · simp only [SDIOBlockDevice.read, is_present_lock, hp, hi, hv, lock_is_initialized,
      lock_is_valid_read, hsync, invoke_read, lock_block_size]
    by_cases h : (d.sdio_read_blocks buffer (u32 (addr / s._block_size))
        (u32 (size / s._block_size)) (is_present d s w).2.hw).1.1 = MSD_OK
    · simp [h, is_present_calls]
    · simp [h, is_present_calls]
  · simp only [program, is_present_lock, hp, hi, hv2, lock_is_initialized,
      lock_is_valid_program, hsync, invoke, lock_block_size]
    by_cases h : (d.sdio_write_blocks buffer (u32 (addr / s._block_size))
        (u32 (size / s._block_size)) (is_present d s w).2.hw).1 = MSD_OK
    · simp [h, is_present_calls]
    · simp [h, is_present_calls]

/-- C22: on a reachable adapter (its `sector_count` is 0 or the driver's 32-bit
`log_block_count`), for every request with `addr` and `size` multiples of 512 and
`addr + size ≤ size()`, the block index `addr / 512` and the block count `size / 512` are
below `2^32`, the 32-bit arguments handed to the driver equal them exactly, and
`index + count ≤ sector_count`; the logged synchronous and asynchronous read and write
primitives carry exactly these two values. -/
theorem address_translation_exact {σ : Type} (d : Driver σ) (cfg : Config) (fuel : Nat)
    (s : SDIOBlockDevice) (buffer : List uint8_t) (addr size : Nat) (w : World σ)
    (hr : Reachable d cfg s) (ha : addr % 512 = 0) (hs : size % 512 = 0)
    (hb : addr + size ≤ s.size) :
    addr / 512 < 2 ^ 32 ∧ size / 512 < 2 ^ 32 ∧
    u32 (addr / s._block_size) = addr / 512 ∧ u32 (size / s._block_size) = size / 512 ∧
    addr / 512 + size / 512 ≤ s._sectors ∧
    (start_read_async d s buffer addr size w).2.calls =
      w.calls ++ [Call.sdio_read_blocks_async (addr / 512) (size / 512)] ∧
    (start_write_async d s buffer addr size w).2.calls =
      w.calls ++ [Call.sdio_write_blocks_async (addr / 512) (size / 512)] ∧
    (cfg.DEVICE_SDIO_ASYNC = false → (is_present d s w).1 = true →
      s._is_initialized = true →
      (s.read d cfg fuel buffer addr size w).map (fun r => r.world.calls) =
        some (w.calls ++ [Call.sdio_read_blocks (addr / 512) (size / 512)]) ∧
      (s.program d cfg fuel buffer addr size w).map (fun r => r.world.calls) =
        some (w.calls ++ [Call.sdio_write_blocks (addr / 512) (size / 512)])) := by
  obtain ⟨hbs, -, hsec, -, -⟩ := wellFormed_of_reachable d cfg s hr
  have hbs' : s._block_size = 512 := hbs
  have hsize : s.size = 512 * s._sectors := by
    unfold SDIOBlockDevice.size u64
    rw [hbs']
    exact Nat.mod_eq_of_lt (by omega)
  have h1 : addr / 512 < 2 ^ 32 := by omega
  have h2 : size / 512 < 2 ^ 32 := by omega
  have hua : u32 (addr / s._block_size) = addr / 512 := by
    rw [hbs']; unfold u32; exact Nat.mod_eq_of_lt h1
  have hus : u32 (size / s._block_size) = size / 512 := by
    rw [hbs']; unfold u32; exact Nat.mod_eq_of_lt h2
  refine ⟨h1, h2, hua, hus, by omega, ?_, ?_, ?_⟩
  · simp only [start_read_async, invoke_read, hua, hus]
  · simp only [start_write_async, invoke, hua, hus]
  · intro hsync hp hi
    have hv : s.is_valid_read addr size = true :=
      valid_of_aligned_in_bounds s addr size (by rw [hbs']; exact ha) (by rw [hbs']; exact hs) hb
    have h := sync_transfer_calls d cfg fuel s buffer addr size w hsync hp hi hv
    rw [hua, hus] at h
    exact h

/-- Witness for C22: the last two blocks of the stub card of 8 blocks. -/
theorem address_translation_exact_witness :
    3072 / 512 < 2 ^ 32 ∧ 1024 / 512 < 2 ^ 32 ∧
    u32 (3072 / (readyDevice 8)._block_size) = 3072 / 512 ∧
    u32 (1024 / (readyDevice 8)._block_size) = 1024 / 512 ∧
    3072 / 512 + 1024 / 512 ≤ (readyDevice 8)._sectors ∧
    ((readyDevice 8).read stubDriver syncConfig 0 [] 3072 1024
        (World.start (stubHw 8 0))).map (fun r => r.world.calls) =
      some [Call.sdio_read_blocks 6 2] :=
  ⟨(address_translation_exact stubDriver syncConfig 0 (readyDevice 8) [] 3072 1024
      (World.start (stubHw 8 0))
      (Reachable.call 0 Op.init (construct none) (World.start (stubHw 8 0)) _
        (Reachable.construct none) rfl) (by decide) (by decide) (by decide)).1,
   (address_translation_exact stubDriver syncConfig 0 (readyDevice 8) [] 3072 1024
      (World.start (stubHw 8 0))
      (Reachable.call 0 Op.init (construct none) (World.start (stubHw 8 0)) _
        (Reachable.construct none) rfl) (by decide) (by decide) (by decide)).2.1,
   (address_translation_exact stubDriver syncConfig 0 (readyDevice 8) [] 3072 1024
      (World.start (stubHw 8 0))
      (Reachable.call 0 Op.init (construct none) (World.start (stubHw 8 0)) _
        (Reachable.construct none) rfl) (by decide) (by decide) (by decide)).2.2.1,
   (address_translation_exact stubDriver syncConfig 0 (readyDevice 8) [] 3072 1024
      (World.start (stubHw 8 0))
      (Reachable.call 0 Op.init (construct none) (World.start (stubHw 8 0)) _
        (Reachable.construct none) rfl) (by decide) (by decide) (by decide)).2.2.2.1,
   (address_translation_exact stubDriver syncConfig 0 (readyDevice 8) [] 3072 1024
      (World.start (stubHw 8 0))
      (Reachable.call 0 Op.init (construct none) (World.start (stubHw 8 0)) _
        (Reachable.construct none) rfl) (by decide) (by decide) (by decide)).2.2.2.2.1,
   ((address_translation_exact stubDriver syncConfig 0 (readyDevice 8) [] 3072 1024
      (World.start (stubHw 8 0))
      (Reachable.call 0 Op.init (construct none) (World.start (stubHw 8 0)) _
        (Reachable.construct none) rfl) (by decide) (by decide)
      (by decide)).2.2.2.2.2.2.2 rfl rfl rfl).1⟩

/-! ## Recovery after a failed `init`, and the frame of the transfers -/

theorem init_count_of_uninitialized {σ : Type} (d : Driver σ) (s : SDIOBlockDevice)
    (w : World σ) (hi : s._is_initialized = false) :
    (s.init d w).self._init_ref_count = 1 := by
  rw [init_of_uninitialized d s w hi]
  split_ifs <;> rfl

/-- C23: an `init` on an uninitialised adapter that returns
`SDIO_BLOCK_DEVICE_ERROR_NO_DEVICE` or `BD_ERROR_DEVICE_ERROR` leaves
`init_ref_count = 1` with `initialized = false`; the next `init`, with the card present
and `sdio_init` returning 0, invokes `sdio_init` (and `sdio_get_card_info`) and ends with
`initialized = true` and `init_ref_count = 1`; one following `deinit` invokes
`sdio_deinit` and leaves the adapter uninitialised with count 0. -/
theorem failed_init_does_not_wedge {σ : Type} (d : Driver σ) (s : SDIOBlockDevice)
    (w1 w2 w3 : World σ) (hi : s._is_initialized = false)
    (hf : (s.init d w1).status = SDIO_BLOCK_DEVICE_ERROR_NO_DEVICE ∨
      (s.init d w1).status = BD_ERROR_DEVICE_ERROR)
    (hp : (is_present d (s.init d w1).self w2).1 = true)
    (h0 : (d.sdio_init (is_present d (s.init d w1).self w2).2.hw).1 = 0) :
    ((s.init d w1).self._is_initialized = false ∧ (s.init d w1).self._init_ref_count = 1) ∧
    (((s.init d w1).self.init d w2).world.calls =
        w2.calls ++ [Call.sdio_init, Call.sdio_get_card_info] ∧
      ((s.init d w1).self.init d w2).self._is_initialized = true ∧
      ((s.init d w1).self.init d w2).self._init_ref_count = 1) ∧
    ((((s.init d w1).self.init d w2).self.deinit d w3).world.calls =
        w3.calls ++ [Call.sdio_deinit] ∧
      (((s.init d w1).self.init d w2).self.deinit d w3).self._is_initialized = false ∧
      (((s.init d w1).self.init d w2).self.deinit d w3).self._init_ref_count = 0) := by
  have hu := init_failure_stays_uninitialized d s w1 hi hf
  have hc := init_count_of_uninitialized d s w1 hi
  obtain ⟨e1, e2, e3⟩ := init_first d (s.init d w1).self w2 hu hp h0
  refine ⟨⟨hu, hc⟩, ⟨e3, e1, e2⟩, ?_⟩
  rw [deinit_of_last d _ w3 e1 e2]
  exact ⟨rfl, rfl, rfl⟩

/-- Witness for C23: the card is absent at the first `init` and present at the second. -/
theorem failed_init_does_not_wedge_witness :
    (((construct (some 3)).init stubDriver (World.start (stubHw 8 1))).self._is_initialized
        = false ∧
      ((construct (some 3)).init stubDriver (World.start (stubHw 8 1))).self._init_ref_count
        = 1) ∧
    ((((construct (some 3)).init stubDriver (World.start (stubHw 8 1))).self.init stubDriver
          (World.start (stubHw 8 0))).world.calls =
        (World.start (stubHw 8 0)).calls ++ [Call.sdio_init, Call.sdio_get_card_info] ∧
      (((construct (some 3)).init stubDriver (World.start (stubHw 8 1))).self.init stubDriver
          (World.start (stubHw 8 0))).self._is_initialized = true ∧
      (((construct (some 3)).init stubDriver (World.start (stubHw 8 1))).self.init stubDriver
          (World.start (stubHw 8 0))).self._init_ref_count = 1) ∧
    (((((construct (some 3)).init stubDriver (World.start (stubHw 8 1))).self.init stubDriver
          (World.start (stubHw 8 0))).self.deinit stubDriver
          (World.start (stubHw 8 0))).world.calls =
        (World.start (stubHw 8 0)).calls ++ [Call.sdio_deinit] ∧
      ((((construct (some 3)).init stubDriver (World.start (stubHw 8 1))).self.init stubDriver
          (World.start (stubHw 8 0))).self.deinit stubDriver
          (World.start (stubHw 8 0))).self._is_initialized = false ∧
      ((((construct (some 3)).init stubDriver (World.start (stubHw 8 1))).self.init stubDriver
          (World.start (stubHw 8 0))).self.deinit stubDriver
          (World.start (stubHw 8 0))).self._init_ref_count = 0) :=
  failed_init_does_not_wedge stubDriver (construct (some 3)) (World.start (stubHw 8 1))
    (World.start (stubHw 8 0)) (World.start (stubHw 8 0)) rfl (Or.inl rfl) rfl rfl

/-- C24: `read`, `program` and `trim`, in every adapter state, for every argument and
every driver, presence and tick behaviour, return with `initialized`, `init_ref_count`,
`sector_count`, `block_size` and `erase_size` as they were on entry, whatever status
they return; and in every reachable state `block_size` and `erase_size` are 512, so
`get_read_size()` and `get_program_size()` return 512. -/
theorem transfers_preserve_lifecycle_and_geometry {σ : Type} (d : Driver σ) (cfg : Config)
    (fuel : Nat) (s : SDIOBlockDevice) (buffer : List uint8_t) (addr size : Nat)
    (w : World σ) :
    (∀ r, s.read d cfg fuel buffer addr size w = some r →
      r.self._is_initialized = s._is_initialized ∧
      r.self._init_ref_count = s._init_ref_count ∧ r.self._sectors = s._sectors ∧
      r.self._block_size = s._block_size ∧ r.self._erase_size = s._erase_size) ∧
    (∀ r, s.program d cfg fuel buffer addr size w = some r →
      r.self._is_initialized = s._is_initialized ∧
      r.self._init_ref_count = s._init_ref_count ∧ r.self._sectors = s._sectors ∧
      r.self._block_size = s._block_size ∧ r.self._erase_size = s._erase_size) ∧
    (∀ r, s.trim d cfg fuel addr size w = some r →
      r.self._is_initialized = s._is_initialized ∧
      r.self._init_ref_count = s._init_ref_count ∧ r.self._sectors = s._sectors ∧
      r.self._block_size = s._block_size ∧ r.self._erase_size = s._erase_size) ∧
    (Reachable d cfg s →
      s._block_size = 512 ∧ s._erase_size = 512 ∧
      s.get_read_size = 512 ∧ s.get_program_size = 512) := by
  refine ⟨?_, ?_, ?_, ?_⟩
  · intro r h
    rw [read_self d cfg fuel s buffer addr size w r h]
    exact ⟨rfl, rfl, rfl, rfl, rfl⟩
  · intro r h
    rw [program_self d cfg fuel s buffer addr size w r h]
    exact ⟨rfl, rfl, rfl, rfl, rfl⟩
  · intro r h
    rw [trim_self d cfg fuel s addr size w r h]
    exact ⟨rfl, rfl, rfl, rfl, rfl⟩
  · intro hr
    obtain ⟨h1, h2, -, -, -⟩ := wellFormed_of_reachable d cfg s hr
    exact ⟨h1, h2, h1, h1⟩

/-- Witness for C24: a read on the initialised stub card, and its geometry. -/
theorem transfers_preserve_lifecycle_and_geometry_witness :
    ((((readyDevice 8).read stubDriver syncConfig 0 [] 0 512
        (World.start (stubHw 8 0))).get rfl).self._is_initialized
        = (readyDevice 8)._is_initialized ∧
      (((readyDevice 8).read stubDriver syncConfig 0 [] 0 512
        (World.start (stubHw 8 0))).get rfl).self._init_ref_count
        = (readyDevice 8)._init_ref_count ∧
      (((readyDevice 8).read stubDriver syncConfig 0 [] 0 512
        (World.start (stubHw 8 0))).get rfl).self._sectors = (readyDevice 8)._sectors ∧
      (((readyDevice 8).read stubDriver syncConfig 0 [] 0 512
        (World.start (stubHw 8 0))).get rfl).self._block_size = (readyDevice 8)._block_size ∧
      (((readyDevice 8).read stubDriver syncConfig 0 [] 0 512
        (World.start (stubHw 8 0))).get rfl).self._erase_size
        = (readyDevice 8)._erase_size) ∧
    ((readyDevice 8)._block_size = 512 ∧ (readyDevice 8)._erase_size = 512 ∧
      (readyDevice 8).get_read_size = 512 ∧ (readyDevice 8).get_program_size = 512) :=
  ⟨(transfers_preserve_lifecycle_and_geometry stubDriver syncConfig 0 (readyDevice 8) [] 0 512
      (World.start (stubHw 8 0))).1 _ rfl,
   (transfers_preserve_lifecycle_and_geometry stubDriver syncConfig 0 (readyDevice 8) [] 0 512
      (World.start (stubHw 8 0))).2.2.2
      (Reachable.call 0 Op.init (construct none) (World.start (stubHw 8 0)) _
        (Reachable.construct none) rfl)⟩

/-! ## The STM target driver -/

theorem u8_stm_invoke {σ : Type} (c : StmCall) (f : σ → Int × σ) (w : StmWorld σ) :
    u8 (stm_invoke c f w).1 = (stm_invoke c f w).1 := by
  simp only [stm_invoke, u8]
  omega

theorem stm_wait_until_card_state_calls {σ : Type} (hal : StmHal σ)
    (Timeout tickstart : Nat) :
    ∀ (fuel : Nat) (w : StmWorld σ) (b : Bool) (w' : StmWorld σ),
      stm_wait_until hal (stm_card_state hal) Timeout tickstart fuel w = some (b, w') →
      ∃ k, w'.calls = w.calls ++ List.replicate k StmCall.SD_GetCardState := by
  intro fuel
  induction fuel with
  | zero => intro w b w' h; simp [stm_wait_until] at h
  | succ fuel ih =>
    intro w b w' h
    simp only [stm_wait_until] at h
    split_ifs at h with h1 h2
    · simp only [Option.some.injEq, Prod.mk.injEq] at h
      refine ⟨1, ?_⟩
      rw [← h.2]
      simp [HAL_GetTick, stm_card_state, stm_invoke]
    · obtain ⟨k, hk⟩ := ih _ b w' h
      refine ⟨k + 1, ?_⟩
      rw [hk]
      simp [HAL_GetTick, stm_card_state, stm_invoke, List.replicate_succ]
    · simp only [Option.some.injEq, Prod.mk.injEq] at h
      refine ⟨1, ?_⟩
      rw [← h.2]
      simp [stm_card_state, stm_invoke]

/-- The outcomes of `SDIO_Device_ReadBlocks`: it returns `MSD_OK` exactly when the first
wait ends with the card state `SD_TRANSFER_OK` polled before its timeout test fires, the
DMA start returns `MSD_OK`, the pending wait ends with the pending flag cleared and the
last wait ends with the card ready; a timeout in any of the three waits returns
`MSD_ERROR`; after a timeout in the first wait only `SD_GetCardState` has been invoked; a
DMA start that does not return `MSD_OK` is the result, in the world that start left; and
the function returns unless a wait it reaches is still running after `fuel` polls. -/
theorem stm_read_blocks_outcomes {σ : Type} (hal : StmHal σ) (fuel : Nat)
    (pData Addr NumOfBlocks Timeout : Nat) (w : StmWorld σ) :
    (∀ r, SDIO_Device_ReadBlocks hal fuel pData Addr NumOfBlocks Timeout w = some r →
      (r.1 = MSD_OK ↔ ∃ w1 w2 w3,
        stm_wait_phase hal (stm_card_state hal) Timeout fuel w = some (true, w1) ∧
        (stm_start_read hal pData Addr NumOfBlocks w1).1 = MSD_OK ∧
        stm_wait_phase hal (stm_read_pending hal) Timeout fuel
          (stm_start_read hal pData Addr NumOfBlocks w1).2 = some (true, w2) ∧
        stm_wait_phase hal (stm_card_state hal) Timeout fuel w2 = some (true, w3)) ∧
      (∀ w1, stm_wait_phase hal (stm_card_state hal) Timeout fuel w = some (false, w1) →
        r = (MSD_ERROR, w1) ∧
        ∃ k, w1.calls = w.calls ++ List.replicate k StmCall.SD_GetCardState) ∧
      (∀ w1 w2, stm_wait_phase hal (stm_card_state hal) Timeout fuel w = some (true, w1) →
        (stm_start_read hal pData Addr NumOfBlocks w1).1 = MSD_OK →
        stm_wait_phase hal (stm_read_pending hal) Timeout fuel
          (stm_start_read hal pData Addr NumOfBlocks w1).2 = some (false, w2) →
        r = (MSD_ERROR, w2)) ∧
      (∀ w1 w2 w3, stm_wait_phase hal (stm_card_state hal) Timeout fuel w = some (true, w1) →
        (stm_start_read hal pData Addr NumOfBlocks w1).1 = MSD_OK →
        stm_wait_phase hal (stm_read_pending hal) Timeout fuel
          (stm_start_read hal pData Addr NumOfBlocks w1).2 = some (true, w2) →
        stm_wait_phase hal (stm_card_state hal) Timeout fuel w2 = some (false, w3) →
        r = (MSD_ERROR, w3)) ∧
      (∀ w1, stm_wait_phase hal (stm_card_state hal) Timeout fuel w = some (true, w1) →
        (stm_start_read hal pData Addr NumOfBlocks w1).1 ≠ MSD_OK →
        r = stm_start_read hal pData Addr NumOfBlocks w1)) ∧
    (SDIO_Device_ReadBlocks hal fuel pData Addr NumOfBlocks Timeout w = none ↔
      (stm_wait_phase hal (stm_card_state hal) Timeout fuel w = none ∨
       ∃ w1, stm_wait_phase hal (stm_card_state hal) Timeout fuel w = some (true, w1) ∧
        (stm_start_read hal pData Addr NumOfBlocks w1).1 = MSD_OK ∧
        (stm_wait_phase hal (stm_read_pending hal) Timeout fuel
            (stm_start_read hal pData Addr NumOfBlocks w1).2 = none ∨
         ∃ w2, stm_wait_phase hal (stm_read_pending hal) Timeout fuel
            (stm_start_read hal pData Addr NumOfBlocks w1).2 = some (true, w2) ∧
          stm_wait_phase hal (stm_card_state hal) Timeout fuel w2 = none))) := by
  have herr : MSD_ERROR ≠ MSD_OK := by decide
  have hu : ∀ w1, u8 (stm_start_read hal pData Addr NumOfBlocks w1).1 =
      (stm_start_read hal pData Addr NumOfBlocks w1).1 :=
    fun w1 => u8_stm_invoke _ _ w1
  unfold SDIO_Device_ReadBlocks
  rcases h1 : stm_wait_phase hal (stm_card_state hal) Timeout fuel w with _ | ⟨_ | _, w1⟩
  · simp
  · obtain ⟨k, hk⟩ := stm_wait_until_card_state_calls hal Timeout _ fuel _ false w1 h1
    have hk' : w1.calls = w.calls ++ List.replicate k StmCall.SD_GetCardState := by
      rw [hk]; rfl
    simp only [Option.some.injEq, forall_eq']
    refine ⟨⟨?_, ?_, ?_, ?_, ?_⟩, ?_⟩
    · simp [herr]
    · intro w1' hw
      simp only [Option.some.injEq, Prod.mk.injEq, Bool.false_eq_true, false_and] at hw
      cases hw.2
      exact ⟨rfl, k, hk'⟩
    · intro w1' w2 hw; simp at hw
    · intro w1' w2 w3 hw; simp at hw
    · intro w1' hw; simp at hw
    · simp
  · dsimp only
    by_cases hst : (stm_start_read hal pData Addr NumOfBlocks w1).1 = MSD_OK
    · simp only [hst, beq_self_eq_true, if_true]
      rcases h2 : stm_wait_phase hal (stm_read_pending hal) Timeout fuel
        (stm_start_read hal pData Addr NumOfBlocks w1).2 with _ | ⟨_ | _, w2⟩
      · simp_all
      · simp_all
        constructor <;> (intros; subst_vars; simp_all)
      · dsimp only
        rcases h3 : stm_wait_phase hal (stm_card_state hal) Timeout fuel w2
          with _ | ⟨_ | _, w3⟩
        · simp_all
        · simp_all
          constructor <;> (intros; subst_vars; simp_all)
        · have hz : u8 MSD_OK = MSD_OK := by decide
          simp_all
          constructor <;> (intros; subst_vars; simp_all)
    · have hb : ((stm_start_read hal pData Addr NumOfBlocks w1).1 == MSD_OK) = false := by
        simpa using hst
      simp only [hb, Bool.false_eq_true, if_false, hu]
      simp_all
      constructor <;> (intros; subst_vars; simp_all)

/-- The outcomes of `SDIO_Device_WriteBlocks`: it returns `MSD_OK` exactly when the first
wait ends with the card state `SD_TRANSFER_OK` polled before its timeout test fires, the
DMA start returns `MSD_OK`, the pending wait ends with the pending flag cleared and the
last wait ends with the card ready; a timeout in any of the three waits returns
`MSD_ERROR`; after a timeout in the first wait only `SD_GetCardState` has been invoked; a
DMA start that does not return `MSD_OK` is the result, in the world that start left; and
the function returns unless a wait it reaches is still running after `fuel` polls. -/
theorem stm_write_blocks_outcomes {σ : Type} (hal : StmHal σ) (fuel : Nat)
    (pData Addr NumOfBlocks Timeout : Nat) (w : StmWorld σ) :
    (∀ r, SDIO_Device_WriteBlocks hal fuel pData Addr NumOfBlocks Timeout w = some r →
      (r.1 = MSD_OK ↔ ∃ w1 w2 w3,
        stm_wait_phase hal (stm_card_state hal) Timeout fuel w = some (true, w1) ∧
        (stm_start_write hal pData Addr NumOfBlocks w1).1 = MSD_OK ∧
        stm_wait_phase hal (stm_write_pending hal) Timeout fuel
          (stm_start_write hal pData Addr NumOfBlocks w1).2 = some (true, w2) ∧
        stm_wait_phase hal (stm_card_state hal) Timeout fuel w2 = some (true, w3)) ∧
      (∀ w1, stm_wait_phase hal (stm_card_state hal) Timeout fuel w = some (false, w1) →
        r = (MSD_ERROR, w1) ∧
        ∃ k, w1.calls = w.calls ++ List.replicate k StmCall.SD_GetCardState) ∧
      (∀ w1 w2, stm_wait_phase hal (stm_card_state hal) Timeout fuel w = some (true, w1) →
        (stm_start_write hal pData Addr NumOfBlocks w1).1 = MSD_OK →
        stm_wait_phase hal (stm_write_pending hal) Timeout fuel
          (stm_start_write hal pData Addr NumOfBlocks w1).2 = some (false, w2) →
        r = (MSD_ERROR, w2)) ∧
      (∀ w1 w2 w3, stm_wait_phase hal (stm_card_state hal) Timeout fuel w = some (true, w1) →
        (stm_start_write hal pData Addr NumOfBlocks w1).1 = MSD_OK →
        stm_wait_phase hal (stm_write_pending hal) Timeout fuel
          (stm_start_write hal pData Addr NumOfBlocks w1).2 = some (true, w2) →
        stm_wait_phase hal (stm_card_state hal) Timeout fuel w2 = some (false, w3) →
        r = (MSD_ERROR, w3)) ∧
      (∀ w1, stm_wait_phase hal (stm_card_state hal) Timeout fuel w = some (true, w1) →
        (stm_start_write hal pData Addr NumOfBlocks w1).1 ≠ MSD_OK →
        r = stm_start_write hal pData Addr NumOfBlocks w1)) ∧
    (SDIO_Device_WriteBlocks hal fuel pData Addr NumOfBlocks Timeout w = none ↔
      (stm_wait_phase hal (stm_card_state hal) Timeout fuel w = none ∨
       ∃ w1, stm_wait_phase hal (stm_card_state hal) Timeout fuel w = some (true, w1) ∧
        (stm_start_write hal pData Addr NumOfBlocks w1).1 = MSD_OK ∧
        (stm_wait_phase hal (stm_write_pending hal) Timeout fuel
            (stm_start_write hal pData Addr NumOfBlocks w1).2 = none ∨
         ∃ w2, stm_wait_phase hal (stm_write_pending hal) Timeout fuel
            (stm_start_write hal pData Addr NumOfBlocks w1).2 = some (true, w2) ∧
          stm_wait_phase hal (stm_card_state hal) Timeout fuel w2 = none))) := by
  have herr : MSD_ERROR ≠ MSD_OK := by decide
  have hu : ∀ w1, u8 (stm_start_write hal pData Addr NumOfBlocks w1).1 =
      (stm_start_write hal pData Addr NumOfBlocks w1).1 :=
    fun w1 => u8_stm_invoke _ _ w1
  unfold SDIO_Device_WriteBlocks
  rcases h1 : stm_wait_phase hal (stm_card_state hal) Timeout fuel w with _ | ⟨_ | _, w1⟩
  · simp
  · obtain ⟨k, hk⟩ := stm_wait_until_card_state_calls hal Timeout _ fuel _ false w1 h1
    have hk' : w1.calls = w.calls ++ List.replicate k StmCall.SD_GetCardState := by
      rw [hk]; rfl
    simp only [Option.some.injEq, forall_eq']
    refine ⟨⟨?_, ?_, ?_, ?_, ?_⟩, ?_⟩
    · simp [herr]
    · intro w1' hw
      simp only [Option.some.injEq, Prod.mk.injEq, Bool.false_eq_true, false_and] at hw
      cases hw.2
      exact ⟨rfl, k, hk'⟩
    · intro w1' w2 hw; simp at hw
    · intro w1' w2 w3 hw; simp at hw
    · intro w1' hw; simp at hw
    · simp
  · dsimp only
    by_cases hst : (stm_start_write hal pData Addr NumOfBlocks w1).1 = MSD_OK
    · simp only [hst, beq_self_eq_true, if_true]
      rcases h2 : stm_wait_phase hal (stm_write_pending hal) Timeout fuel
        (stm_start_write hal pData Addr NumOfBlocks w1).2 with _ | ⟨_ | _, w2⟩
      · simp_all
      · simp_all
        constructor <;> (intros; subst_vars; simp_all)
      · dsimp only
        rcases h3 : stm_wait_phase hal (stm_card_state hal) Timeout fuel w2
          with _ | ⟨_ | _, w3⟩
        · simp_all
        · simp_all
          constructor <;> (intros; subst_vars; simp_all)
        · have hz : u8 MSD_OK = MSD_OK := by decide
          simp_all
          constructor <;> (intros; subst_vars; simp_all)
    · have hb : ((stm_start_write hal pData Addr NumOfBlocks w1).1 == MSD_OK) = false := by
        simpa using hst
      simp only [hb, Bool.false_eq_true, if_false, hu]
      simp_all
      constructor <;> (intros; subst_vars; simp_all)

/-! ## The wait loop of the STM target driver -/

end SdioDriver
